import Mathlib

/-!
Verification of the native layer of react-native-sherpa-onnx.

This file shallowly embeds the components of the repository that the
claims concern, and proves (or refutes) each claim:

* the streaming SHA-256 primitive
  (android/src/main/cpp/crypto/sha256.cpp),
* the ONNX-file search helpers used by the model detectors
  (android/src/main/cpp/jni/sherpa-onnx-model-detect-helper.cpp),
* the STT and TTS model detectors
  (sherpa-onnx-model-detect-stt.cpp / -tts.cpp),
* the WAV writer (sherpa-onnx-tts-wrapper.cpp, saveToWavFile),
* the archive extraction loop
  (sherpa-onnx-archive-helper.cpp, ExtractTarBz2 / ComputeFileSha256).

Machine integers are modelled as Nat (reduced mod 2^32 / 2^64 where the C
code wraps); bytes are Nat values; filesystem effects are modelled by
explicit inputs (file listings, existence oracles, canonical-path
oracles) passed to the embedded functions.
-/

namespace SherpaOnnx

/-! ## SHA-256 primitive (crypto/sha256.cpp)

The context is modelled as in the C source: a 64-bit total bit counter
(wrapping mod 2^64), the 8-word running state (32-bit words as Nat),
and the partially filled 64-byte input buffer (a byte list of length
< 64, whose length is the C `buffer_size`). -/

/-- 2^32, the modulus of the uint32 arithmetic in sha256.cpp. -/
def m32 : Nat := 4294967296

/-- 2^64, the modulus of the uint64 `total_bits` counter. -/
def m64 : Nat := 18446744073709551616

/-- The standard SHA-256 initial state `kInitState` from sha256.cpp
(the source writes the eight words in hexadecimal; they are written
here in decimal). -/
def kInitState : List Nat :=
  [1779033703, 3144134277, 1013904242, 2773480762,
   1359893119, 2600822924, 528734635, 1541459225]

/-- The 64 round constants `kRoundConstants` from sha256.cpp (the
source writes them in hexadecimal; they are written here in decimal). -/
def kRoundConstants : List Nat :=
  [1116352408, 1899447441, 3049323471, 3921009573,
   961987163, 1508970993, 2453635748, 2870763221,
   3624381080, 310598401, 607225278, 1426881987,
   1925078388, 2162078206, 2614888103, 3248222580,
   3835390401, 4022224774, 264347078, 604807628,
   770255983, 1249150122, 1555081692, 1996064986,
   2554220882, 2821834349, 2952996808, 3210313671,
   3336571891, 3584528711, 113926993, 338241895,
   666307205, 773529912, 1294757372, 1396182291,
   1695183700, 1986661051, 2177026350, 2456956037,
   2730485921, 2820302411, 3259730800, 3345764771,
   3516065817, 3600352804, 4094571909, 275423344,
   430227734, 506948616, 659060556, 883997877,
   958139571, 1322822218, 1537002063, 1747873779,
   1955562222, 2024104815, 2227730452, 2361852424,
   2428436474, 2756734187, 3204031479, 3329325298]

/-- `rotr` from sha256.cpp: 32-bit right rotation. -/
def rotr32 (value bits : Nat) : Nat :=
  ((value >>> bits) ||| (value <<< (32 - bits))) % m32

/-- `ch(x,y,z) = (x & y) ^ (~x & z)`; `~x` is the 32-bit complement. -/
def ch32 (x y z : Nat) : Nat := ((x &&& y) ^^^ ((x ^^^ (m32 - 1)) &&& z)) % m32

/-- `maj(x,y,z) = (x & y) ^ (x & z) ^ (y & z)`. -/
def maj32 (x y z : Nat) : Nat := ((x &&& y) ^^^ (x &&& z) ^^^ (y &&& z)) % m32

/-- `big_sigma0(x) = rotr(x,2) ^ rotr(x,13) ^ rotr(x,22)`. -/
def bigSigma0 (x : Nat) : Nat := rotr32 x 2 ^^^ rotr32 x 13 ^^^ rotr32 x 22

/-- `big_sigma1(x) = rotr(x,6) ^ rotr(x,11) ^ rotr(x,25)`. -/
def bigSigma1 (x : Nat) : Nat := rotr32 x 6 ^^^ rotr32 x 11 ^^^ rotr32 x 25

/-- `small_sigma0(x) = rotr(x,7) ^ rotr(x,18) ^ (x >> 3)`. -/
def smallSigma0 (x : Nat) : Nat := rotr32 x 7 ^^^ rotr32 x 18 ^^^ (x >>> 3)

/-- `small_sigma1(x) = rotr(x,17) ^ rotr(x,19) ^ (x >> 10)`. -/
def smallSigma1 (x : Nat) : Nat := rotr32 x 17 ^^^ rotr32 x 19 ^^^ (x >>> 10)

/-- Pack four consecutive bytes of a block big-endian into a 32-bit word,
as in the first loop of `process_block`. -/
def word32At (block : List Nat) (idx : Nat) : Nat :=
  ((block.getD idx 0) <<< 24 ||| (block.getD (idx + 1) 0) <<< 16 |||
   (block.getD (idx + 2) 0) <<< 8 ||| (block.getD (idx + 3) 0)) % m32

/-- The 16 message words `w[0..15]` of a 64-byte block. -/
def initialWords (block : List Nat) : List Nat :=
  (List.range 16).map (fun i => word32At block (i * 4))

/-- One step of the message-schedule extension:
`w[i] = σ1(w[i-2]) + w[i-7] + σ0(w[i-15]) + w[i-16]` (mod 2^32).
`rev` holds the words produced so far, most recent first. -/
def nextWord (rev : List Nat) : Nat :=
  (smallSigma1 (rev.getD 1 0) + rev.getD 6 0 +
   smallSigma0 (rev.getD 14 0) + rev.getD 15 0) % m32

/-- Extend the (reversed) schedule by `n` further words. -/
def extendWords : Nat → List Nat → List Nat
  | 0, rev => rev
  | Nat.succ n, rev => extendWords n (nextWord rev :: rev)

/-- The full 64-word message schedule `w` of `process_block`. -/
def messageSchedule (block : List Nat) : List Nat :=
  (extendWords 48 (initialWords block).reverse).reverse

/-- The eight working registers of the SHA-256 compression function. -/
structure Sha256Regs where
  a : Nat
  b : Nat
  c : Nat
  d : Nat
  e : Nat
  f : Nat
  g : Nat
  h : Nat
deriving DecidableEq

/-- One round of the compression loop in `process_block`. -/
def sha256Round (r : Sha256Regs) (k w : Nat) : Sha256Regs :=
  let t1 := (r.h + bigSigma1 r.e + ch32 r.e r.f r.g + k + w) % m32
  let t2 := (bigSigma0 r.a + maj32 r.a r.b r.c) % m32
  { a := (t1 + t2) % m32, b := r.a, c := r.b, d := r.c,
    e := (r.d + t1) % m32, f := r.e, g := r.f, h := r.g }

/-- Load an 8-word state list into registers (missing entries read 0,
which never happens for the well-formed 8-word states produced here). -/
def regsOfState (s : List Nat) : Sha256Regs :=
  { a := s.getD 0 0, b := s.getD 1 0, c := s.getD 2 0, d := s.getD 3 0,
    e := s.getD 4 0, f := s.getD 5 0, g := s.getD 6 0, h := s.getD 7 0 }

/-- `process_block` from sha256.cpp: compress one 64-byte block into the
running 8-word state (all word additions wrap mod 2^32). -/
def sha256ProcessBlock (state : List Nat) (block : List Nat) : List Nat :=
  let ws := messageSchedule block
  let r0 := regsOfState state
  let r := (kRoundConstants.zip ws).foldl (fun r kw => sha256Round r kw.1 kw.2) r0
  [(state.getD 0 0 + r.a) % m32, (state.getD 1 0 + r.b) % m32,
   (state.getD 2 0 + r.c) % m32, (state.getD 3 0 + r.d) % m32,
   (state.getD 4 0 + r.e) % m32, (state.getD 5 0 + r.f) % m32,
   (state.getD 6 0 + r.g) % m32, (state.getD 7 0 + r.h) % m32]

/-- `Sha256Context` from sha256.h: total bit count, partial input buffer
(`buffer` together with its length `buffer_size`), and the 8-word state. -/
structure Sha256Context where
  totalBits : Nat
  buffer : List Nat
  state : List Nat

/-- `sha256_init`: zero counters, load the standard IV. -/
def sha256Init : Sha256Context :=
  { totalBits := 0, buffer := [], state := kInitState }

/-- Iterate `process_block` over `n` leading 64-byte chunks of `data`,
returning the final state and the unconsumed remainder.  This renders the
`while (offset + 64 <= len)` loop of `sha256_update`; the caller passes
`n = data.length / 64`, the number of iterations that loop performs. -/
def processChunksAux : Nat → List Nat → List Nat → List Nat × List Nat
  | 0, state, data => (state, data)
  | Nat.succ n, state, data =>
      processChunksAux n (sha256ProcessBlock state (data.take 64)) (data.drop 64)

/-- The complete-block loop of `sha256_update`: process every full
64-byte block of `data`, return the final state and the remainder
(fewer than 64 bytes). -/
def processChunks (state : List Nat) (data : List Nat) : List Nat × List Nat :=
  processChunksAux (data.length / 64) state data

/-- `sha256_update` from sha256.cpp: bump the bit counter, top up a
partially filled buffer (processing it when it reaches 64 bytes),
process the remaining complete blocks directly, buffer the rest. -/
def sha256Update (ctx : Sha256Context) (data : List Nat) : Sha256Context :=
  if data.length = 0 then ctx
  else
    let totalBits := (ctx.totalBits + data.length * 8) % m64
    if 0 < ctx.buffer.length then
      let toCopy := min (64 - ctx.buffer.length) data.length
      let buf := ctx.buffer ++ data.take toCopy
      if buf.length = 64 then
        let st := sha256ProcessBlock ctx.state buf
        let pr := processChunks st (data.drop toCopy)
        { totalBits := totalBits, state := pr.1, buffer := pr.2 }
      else
        { totalBits := totalBits, state := ctx.state, buffer := buf }
    else
      let pr := processChunks ctx.state data
      { totalBits := totalBits, state := pr.1, buffer := pr.2 }

/-- The 8 big-endian bytes of the 64-bit message length, as built by the
`length_bytes` loop of `sha256_final`. -/
def be64Bytes (n : Nat) : List Nat :=
  [(n >>> 56) &&& 255, (n >>> 48) &&& 255, (n >>> 40) &&& 255,
   (n >>> 32) &&& 255, (n >>> 24) &&& 255, (n >>> 16) &&& 255,
   (n >>> 8) &&& 255, n &&& 255]

/-- Serialize one 32-bit state word as 4 big-endian bytes, as in the
output loop of `sha256_final`. -/
def be32Bytes (n : Nat) : List Nat :=
  [(n >>> 24) &&& 255, (n >>> 16) &&& 255, (n >>> 8) &&& 255, n &&& 255]

/-- `sha256_final` from sha256.cpp: append the `0x80` byte and zero
padding (via `sha256_update`), then the big-endian 64-bit original bit
length, then serialize the state words big-endian into 32 digest bytes. -/
def sha256Final (ctx : Sha256Context) : List Nat :=
  let messageBits := ctx.totalBits
  let padLen := if ctx.buffer.length < 56 then 56 - ctx.buffer.length
                else 120 - ctx.buffer.length
  let ctx1 := sha256Update ctx ((128 :: List.replicate 63 0).take padLen)
  let ctx2 := sha256Update ctx1 (be64Bytes messageBits)
  (ctx2.state.map be32Bytes).flatten

/-- `ToHex` from sherpa-onnx-archive-helper.cpp: one lower-case hex digit. -/
def hexDigit (n : Nat) : Char :=
  if n < 10 then Char.ofNat (48 + n) else Char.ofNat (87 + n)

/-- `ToHex`: lower-case hex string of a byte list, two digits per byte. -/
def toHex (bytes : List Nat) : String :=
  String.mk (bytes.foldr (fun b acc => hexDigit (b / 16 % 16) :: hexDigit (b % 16) :: acc) [])

/-- The hex digest of a message fed to the context in one `update` call. -/
def sha256Hex (msg : List Nat) : String :=
  toHex (sha256Final (sha256Update sha256Init msg))

/-! ### Streaming equivalence of sha256_update -/

theorem processChunks_small (st : List Nat) {data : List Nat} (h : data.length < 64) :
    processChunks st data = (st, data) := by
  unfold processChunks
  rw [Nat.div_eq_of_lt h]
  rfl

theorem processChunks_block (st : List Nat) {b : List Nat} (hb : b.length = 64)
    (rest : List Nat) :
    processChunks st (b ++ rest) = processChunks (sha256ProcessBlock st b) rest := by
  unfold processChunks
  have hlen : (b ++ rest).length = rest.length + 64 := by
    simp [List.length_append, hb, Nat.add_comm]
  rw [hlen, Nat.add_div_right _ (by norm_num : 0 < 64)]
  show processChunksAux (rest.length / 64)
      (sha256ProcessBlock st ((b ++ rest).take 64)) ((b ++ rest).drop 64) = _
  have htake : (b ++ rest).take 64 = b := by
    rw [← hb]; exact List.take_left b rest
  have hdrop : (b ++ rest).drop 64 = rest := by
    rw [← hb]; exact List.drop_left b rest
  rw [htake, hdrop]

theorem processChunks_append_aux (n : Nat) :
    ∀ (a : List Nat), a.length ≤ n → ∀ (st : List Nat) (b : List Nat),
      processChunks st (a ++ b) =
        processChunks (processChunks st a).1 ((processChunks st a).2 ++ b) := by
  induction n with
  | zero =>
      intro a ha st b
      have : a = [] := List.eq_nil_of_length_eq_zero (Nat.le_zero.mp ha)
      subst this
      rw [processChunks_small st (by norm_num : ([] : List Nat).length < 64)]
  | succ n ih =>
      intro a ha st b
      by_cases h : a.length < 64
      · rw [processChunks_small st h]
      · push_neg at h
        have htake : (a.take 64).length = 64 := by
          simp [List.length_take, Nat.min_eq_left h]
        have hsplit : a = a.take 64 ++ a.drop 64 := (List.take_append_drop 64 a).symm
        have hdlen : (a.drop 64).length ≤ n := by
          simp only [List.length_drop]
          omega
        calc processChunks st (a ++ b)
            = processChunks st (a.take 64 ++ (a.drop 64 ++ b)) := by
              rw [← List.append_assoc, ← hsplit]
          _ = processChunks (sha256ProcessBlock st (a.take 64)) (a.drop 64 ++ b) :=
              processChunks_block _ htake _
          _ = processChunks (processChunks (sha256ProcessBlock st (a.take 64)) (a.drop 64)).1
                ((processChunks (sha256ProcessBlock st (a.take 64)) (a.drop 64)).2 ++ b) :=
              ih _ hdlen _ _
          _ = _ := by
              rw [show processChunks st a
                    = processChunks (sha256ProcessBlock st (a.take 64)) (a.drop 64) from by
                  conv_lhs => rw [hsplit]
                  exact processChunks_block _ htake _]

theorem processChunks_append (st : List Nat) (a b : List Nat) :
    processChunks st (a ++ b) =
      processChunks (processChunks st a).1 ((processChunks st a).2 ++ b) :=
  processChunks_append_aux a.length a (Nat.le_refl _) st b

theorem processChunks_rem_lt_aux (n : Nat) :
    ∀ (a : List Nat), a.length ≤ n → ∀ (st : List Nat),
      (processChunks st a).2.length < 64 := by
  induction n with
  | zero =>
      intro a ha st
      have : a = [] := List.eq_nil_of_length_eq_zero (Nat.le_zero.mp ha)
      subst this
      rw [processChunks_small st (by norm_num : ([] : List Nat).length < 64)]
      norm_num
  | succ n ih =>
      intro a ha st
      by_cases h : a.length < 64
      · rw [processChunks_small st h]; exact h
      · push_neg at h
        have htake : (a.take 64).length = 64 := by
          simp [List.length_take, Nat.min_eq_left h]
        have hsplit : a = a.take 64 ++ a.drop 64 := (List.take_append_drop 64 a).symm
        have hdlen : (a.drop 64).length ≤ n := by
          simp only [List.length_drop]; omega
        conv_lhs => rw [hsplit]
        rw [processChunks_block _ htake _]
        exact ih _ hdlen _

theorem processChunks_rem_lt (st : List Nat) (a : List Nat) :
    (processChunks st a).2.length < 64 :=
  processChunks_rem_lt_aux a.length a (Nat.le_refl _) st

/-- The canonical context reached after absorbing `msg`: all complete
64-byte blocks processed, the remainder buffered, the bit counter at
`8 * |msg|` mod 2^64.  `sha256Update` preserves this canonical form. -/
def mkCtx (msg : List Nat) : Sha256Context :=
  { totalBits := msg.length * 8 % m64,
    buffer := (processChunks kInitState msg).2,
    state := (processChunks kInitState msg).1 }

theorem mkCtx_nil : mkCtx [] = sha256Init := by
  unfold mkCtx sha256Init
  rw [processChunks_small _ (by norm_num : ([] : List Nat).length < 64)]
  rfl

theorem sha256Update_mkCtx (msg data : List Nat) :
    sha256Update (mkCtx msg) data = mkCtx (msg ++ data) := by
  have hrem := processChunks_rem_lt kInitState msg
  by_cases hd : data.length = 0
  · have : data = [] := List.eq_nil_of_length_eq_zero hd
    subst this
    simp [sha256Update]
  · have htb : ((mkCtx msg).totalBits + data.length * 8) % m64
        = (msg ++ data).length * 8 % m64 := by
      show (msg.length * 8 % m64 + data.length * 8) % m64 = _
      rw [Nat.mod_add_mod, List.length_append, Nat.add_mul]
    have happ : processChunks kInitState (msg ++ data)
        = processChunks (processChunks kInitState msg).1
            ((processChunks kInitState msg).2 ++ data) :=
      processChunks_append kInitState msg data
    by_cases hb : 0 < (mkCtx msg).buffer.length
    · have hblen : (mkCtx msg).buffer.length < 64 := hrem
      by_cases hc : data.length < 64 - (mkCtx msg).buffer.length
      · -- the new data fits in the partial buffer without filling it
        have htc : min (64 - (mkCtx msg).buffer.length) data.length = data.length :=
          Nat.min_eq_right (Nat.le_of_lt hc)
        have hfull : ((mkCtx msg).buffer ++ data.take data.length).length ≠ 64 := by
          rw [List.take_length, List.length_append]
          omega
        unfold sha256Update
        rw [if_neg hd, if_pos hb, htc, if_neg hfull]
        unfold mkCtx
        rw [happ]
        have hsmall : ((processChunks kInitState msg).2 ++ data).length < 64 := by
          rw [List.length_append]
          have : (mkCtx msg).buffer.length = (processChunks kInitState msg).2.length := rfl
          omega
        rw [processChunks_small _ hsmall]
        simp only [List.take_length]
        exact congrArg₂ (fun t b => Sha256Context.mk t b _) htb rfl
      · -- the new data fills the buffer to a complete block
        push_neg at hc
        have htc : min (64 - (mkCtx msg).buffer.length) data.length
            = 64 - (mkCtx msg).buffer.length := Nat.min_eq_left hc
        have hfull : ((mkCtx msg).buffer ++ data.take (64 - (mkCtx msg).buffer.length)).length
            = 64 := by
          rw [List.length_append, List.length_take, Nat.min_eq_left hc]
          omega
        unfold sha256Update
        rw [if_neg hd, if_pos hb, htc, if_pos hfull]
        unfold mkCtx
        rw [happ]
        have hsplit : (processChunks kInitState msg).2 ++ data
            = ((mkCtx msg).buffer ++ data.take (64 - (mkCtx msg).buffer.length))
              ++ data.drop (64 - (mkCtx msg).buffer.length) := by
          rw [List.append_assoc, List.take_append_drop]
          rfl
        rw [hsplit, processChunks_block _ hfull _]
        exact congrArg₂ (fun t (sb : List Nat × List Nat) =>
          Sha256Context.mk t sb.2 sb.1) htb rfl
    · -- empty buffer: all data goes through the block loop directly
      have hbe : (mkCtx msg).buffer = [] :=
        List.eq_nil_of_length_eq_zero (Nat.eq_zero_of_not_pos hb)
      unfold sha256Update
      rw [if_neg hd, if_neg hb]
      unfold mkCtx
      rw [happ]
      have : (processChunks kInitState msg).2 = [] := hbe
      rw [this, List.nil_append]
      try exact congrArg₂ (fun t (sb : List Nat × List Nat) =>
        Sha256Context.mk t sb.2 sb.1) htb rfl

theorem foldl_sha256Update_mkCtx (chunks : List (List Nat)) :
    ∀ msg : List Nat,
      chunks.foldl sha256Update (mkCtx msg) = mkCtx (msg ++ chunks.flatten) := by
  induction chunks with
  | nil => intro msg; simp
  | cons c cs ih =>
      intro msg
      simp only [List.foldl_cons, List.flatten_cons, sha256Update_mkCtx, ih,
        List.append_assoc]

/-- Shared streaming-equivalence workhorse: folding `sha256_update` over
any chunk list yields the same context as one update over the
concatenation. -/
theorem sha256_streaming (chunks : List (List Nat)) :
    chunks.foldl sha256Update sha256Init = sha256Update sha256Init chunks.flatten := by
  rw [← mkCtx_nil, foldl_sha256Update_mkCtx, sha256Update_mkCtx]

/-! ## Digests computed by the archive helper (sherpa-onnx-archive-helper.cpp) -/

/-- The source-archive digest reported by `ExtractTarBz2`:
`ArchiveReadCallback` feeds every buffer it reads into `sha256_update`
on the read context (lines 34-39), `DrainRemainingAndClose` feeds every
remaining buffer the same way (lines 60-64), and on success the digest
is `ToHex` of `sha256_final` (lines 345-349).  `readBuffers` is the
sequence of buffer fills, in order; their concatenation is the file. -/
def extractTarBz2SourceDigest (readBuffers : List (List Nat)) : String :=
  toHex (sha256Final (readBuffers.foldl sha256Update sha256Init))

/-- The digest reported by `ComputeFileSha256`: the file is streamed
through a fresh context in 64 KiB chunks (lines 374-381) and the digest
is `ToHex` of `sha256_final` (lines 391-395). -/
def computeFileSha256Digest (chunks : List (List Nat)) : String :=
  toHex (sha256Final (chunks.foldl sha256Update sha256Init))

/-! ## Model-detection filesystem helpers
(sherpa-onnx-model-detect-helper.cpp)

File names are matched on `nameLower`, the ASCII-lower-cased file name,
exactly as in the source.  `FileEntry` mirrors the C++ struct. -/

/-- `FileEntry`: one file discovered while scanning the model directory. -/
structure FileEntry where
  path : String
  nameLower : String
  size : Nat
deriving DecidableEq

/-- `ToLower`: ASCII per-character lower-casing. -/
def toLowerStr (s : String) : String := String.mk (s.data.map Char.toLower)

/-- Substring search on character lists: true iff `needle` occurs in
`hay` (the `value.find(token) != npos` test of `ContainsToken`; an empty
needle occurs in everything, as `find` returns 0 for it). -/
def listContainsTok : List Char → List Char → Bool
  | [], needle => needle.isEmpty
  | c :: t, needle => needle.isPrefixOf (c :: t) || listContainsTok t needle

/-- `ContainsToken` from the helper: case-sensitive substring test. -/
def containsToken (value token : String) : Bool :=
  listContainsTok value.data token.data

/-- `EndsWith` from the helper: suffix test. -/
def endsWithStr (value suffix : String) : Bool :=
  suffix.data.isSuffixOf value.data

/-- `IsOnnxFile`: the lower-cased name ends with ".onnx". -/
def isOnnxFile (e : FileEntry) : Bool := endsWithStr e.nameLower ".onnx"

/-- Whether an entry's lower-cased name contains "int8". -/
def int8Of (e : FileEntry) : Bool := containsToken e.nameLower "int8"

/-- The per-entry eligibility test of the `ChooseLargest` loop body:
`.onnx` file, no excluded token in the name, and matching the optional
int8 / non-int8 restriction. -/
def clEligible (excludeTokens : List String) (onlyInt8 onlyNonInt8 : Bool)
    (e : FileEntry) : Bool :=
  isOnnxFile e &&
  !(excludeTokens.any (fun t => containsToken e.nameLower t)) &&
  !(onlyInt8 && !(int8Of e)) &&
  !(onlyNonInt8 && int8Of e)

/-- The accumulator update of `ChooseLargest`: keep the running
`(chosen, bestSize)` pair, replacing it whenever `entry.size >= bestSize`
(so equal sizes resolve last-seen-wins). -/
def clStep (acc : String × Nat) (e : FileEntry) : String × Nat :=
  if e.size ≥ acc.2 then (e.path, e.size) else acc

/-- `ChooseLargest` restricted to an already-eligible list. -/
def chooseLargestPlain (files : List FileEntry) : String :=
  (files.foldl clStep ("", 0)).1

/-- `ChooseLargest` from sherpa-onnx-model-detect-helper.cpp: scan the
list in order, skip ineligible entries, keep the largest (ties broken
last-seen-wins by the `>=` comparison). -/
def chooseLargest (files : List FileEntry) (excludeTokens : List String)
    (onlyInt8 onlyNonInt8 : Bool) : String :=
  (files.foldl
    (fun acc e =>
      if clEligible excludeTokens onlyInt8 onlyNonInt8 e then clStep acc e else acc)
    ("", 0)).1

/-- `FindOnnxByToken`: collect the `.onnx` files whose lower-cased name
contains the lower-cased token; apply the int8 preference filter when
`preferInt8` is set, falling back to an unfiltered choice when the
filtered choice is empty. -/
def findOnnxByToken (files : List FileEntry) (token : String)
    (preferInt8 : Option Bool) : String :=
  let tokenLower := toLowerStr token
  let cands := files.filter
    (fun e => isOnnxFile e && containsToken e.nameLower tokenLower)
  if cands.isEmpty then ""
  else
    let wantInt8 := preferInt8 == some true
    let wantNonInt8 := preferInt8 == some false
    let preferred := chooseLargest cands [] wantInt8 wantNonInt8
    if preferred ≠ "" then preferred else chooseLargest cands [] false false

/-- `FindOnnxByAnyToken`: first token with a non-empty result wins. -/
def findOnnxByAnyToken (files : List FileEntry) (tokens : List String)
    (preferInt8 : Option Bool) : String :=
  match tokens with
  | [] => ""
  | t :: ts =>
      let m := findOnnxByToken files t preferInt8
      if m ≠ "" then m else findOnnxByAnyToken files ts preferInt8

/-- `FindLargestOnnxExcludingTokens`. -/
def findLargestOnnxExcludingTokens (files : List FileEntry)
    (excludeTokens : List String) : String :=
  chooseLargest files excludeTokens false false

/-- The `.onnx` entries matching a role token, in scan order: the
`matches` list built by `FindOnnxByToken`. -/
def onnxMatches (files : List FileEntry) (token : String) : List FileEntry :=
  files.filter (fun e => isOnnxFile e && containsToken e.nameLower (toLowerStr token))

/-- `e` is the entry a `>=`-largest scan of `L` selects: every earlier
entry is no larger, every later entry is strictly smaller. -/
def lastArgmax (L : List FileEntry) (e : FileEntry) : Prop :=
  ∃ L1 L2, L = L1 ++ e :: L2 ∧ (∀ x ∈ L1, x.size ≤ e.size) ∧ (∀ x ∈ L2, x.size < e.size)

theorem lastArgmax_mem {L : List FileEntry} {e : FileEntry} (h : lastArgmax L e) :
    e ∈ L := by
  obtain ⟨L1, L2, hdec, _, _⟩ := h
  subst hdec
  simp

/-- The `ChooseLargest` fold either never replaces the accumulator (every
entry is strictly smaller than the running best) or ends at the last
entry of maximal size at least the running best. -/
theorem clFold_spec (L : List FileEntry) :
    ∀ (p : String) (s : Nat),
      ((∀ x ∈ L, x.size < s) ∧ L.foldl clStep (p, s) = (p, s)) ∨
      (∃ L1 e L2, L = L1 ++ e :: L2 ∧ L.foldl clStep (p, s) = (e.path, e.size) ∧
        s ≤ e.size ∧ (∀ x ∈ L1, x.size ≤ e.size) ∧ (∀ x ∈ L2, x.size < e.size)) := by
  induction L with
  | nil => intro p s; exact Or.inl ⟨by simp, rfl⟩
  | cons y t ih =>
      intro p s
      by_cases hy : y.size ≥ s
      · have hstep : clStep (p, s) y = (y.path, y.size) := if_pos hy
        rcases ih y.path y.size with ⟨hall, heq⟩ | ⟨L1, e, L2, hdec, heq, hse, h1, h2⟩
        · refine Or.inr ⟨[], y, t, by simp, ?_, hy, by simp, hall⟩
          simp only [List.foldl_cons, hstep, heq]
        · refine Or.inr ⟨y :: L1, e, L2, by simp [hdec], ?_, le_trans hy hse, ?_, h2⟩
          · simp only [List.foldl_cons, hstep, heq]
          · intro x hx
            rcases List.mem_cons.mp hx with hx | hx
            · subst hx; exact hse
            · exact h1 x hx
      · push_neg at hy
        have hstep : clStep (p, s) y = (p, s) := if_neg (by omega)
        rcases ih p s with ⟨hall, heq⟩ | ⟨L1, e, L2, hdec, heq, hse, h1, h2⟩
        · refine Or.inl ⟨?_, by simp only [List.foldl_cons, hstep, heq]⟩
          intro x hx
          rcases List.mem_cons.mp hx with hx | hx
          · subst hx; exact hy
          · exact hall x hx
        · refine Or.inr ⟨y :: L1, e, L2, by simp [hdec], ?_, hse, ?_, h2⟩
          · simp only [List.foldl_cons, hstep, heq]
          · intro x hx
            rcases List.mem_cons.mp hx with hx | hx
            · subst hx; exact le_trans (Nat.le_of_lt hy) hse
            · exact h1 x hx

/-- On a non-empty eligible list, `ChooseLargest` returns the path of
the last entry of maximal size. -/
theorem chooseLargestPlain_spec (L : List FileEntry) (hne : L ≠ []) :
    ∃ e, lastArgmax L e ∧ chooseLargestPlain L = e.path := by
  rcases clFold_spec L "" 0 with ⟨hall, _⟩ | ⟨L1, e, L2, hdec, heq, _, h1, h2⟩
  · rcases List.exists_mem_of_ne_nil L hne with ⟨x, hx⟩
    exact absurd (hall x hx) (by omega)
  · exact ⟨e, ⟨L1, L2, hdec, h1, h2⟩, by unfold chooseLargestPlain; rw [heq]⟩

theorem foldl_guard_filter (p : FileEntry → Bool) :
    ∀ (L : List FileEntry) (acc : String × Nat),
      L.foldl (fun acc e => if p e then clStep acc e else acc) acc
        = (L.filter p).foldl clStep acc := by
  intro L
  induction L with
  | nil => intro acc; rfl
  | cons y t ih =>
      intro acc
      by_cases hp : p y = true
      · simp [List.filter_cons, hp, ih]
      · simp [List.filter_cons, hp, ih]

theorem chooseLargest_eq_filtered (L : List FileEntry) (excl : List String)
    (oI oN : Bool) :
    chooseLargest L excl oI oN = chooseLargestPlain (L.filter (clEligible excl oI oN)) := by
  unfold chooseLargest chooseLargestPlain
  rw [foldl_guard_filter]

theorem onnxMatches_isOnnx {files : List FileEntry} {token : String} :
    ∀ e ∈ onnxMatches files token, isOnnxFile e = true := by
  intro e he
  have := (List.mem_filter.mp he).2
  exact (Bool.and_eq_true_iff.mp this).1

theorem onnxMatches_sub {files : List FileEntry} {token : String} :
    ∀ e ∈ onnxMatches files token, e ∈ files := by
  intro e he
  exact (List.mem_filter.mp he).1

theorem filter_clEligible_int8 (L : List FileEntry)
    (hall : ∀ e ∈ L, isOnnxFile e = true) :
    L.filter (clEligible [] true false) = L.filter int8Of := by
  apply List.filter_congr
  intro x hx
  simp [clEligible, hall x hx]

theorem filter_clEligible_nonInt8 (L : List FileEntry)
    (hall : ∀ e ∈ L, isOnnxFile e = true) :
    L.filter (clEligible [] false true) = L.filter (fun x => !(int8Of x)) := by
  apply List.filter_congr
  intro x hx
  simp [clEligible, hall x hx]

theorem filter_clEligible_all (L : List FileEntry)
    (hall : ∀ e ∈ L, isOnnxFile e = true) :
    L.filter (clEligible [] false false) = L := by
  have : L.filter (clEligible [] false false) = L.filter (fun _ => true) := by
    apply List.filter_congr
    intro x hx
    simp [clEligible, hall x hx]
  rw [this, List.filter_true]

/-- `FindFileByName` over a pre-built recursive file list: first entry
whose lower-cased name equals the lower-cased target. -/
def findFileByName (files : List FileEntry) (fileName : String) : String :=
  match files.find? (fun e => e.nameLower == toLowerStr fileName) with
  | some e => e.path
  | none => ""

/-- `FindFileEndingWith` over a pre-built recursive file list: (1) exact
lower-cased name match; (2) suffix match; (3) when the target contains
"tokens", the first `.txt` file whose contents pass the token-format
heuristic (`IsLikelyTokensFile`), supplied here as the oracle
`isLikely` because it reads file contents. -/
def findFileEndingWith (files : List FileEntry) (suffix : String)
    (isLikely : String → Bool) : String :=
  let target := toLowerStr suffix
  match files.find? (fun e => e.nameLower == target) with
  | some e => e.path
  | none =>
    match files.find? (fun e => endsWithStr e.nameLower target) with
    | some e => e.path
    | none =>
      if containsToken target "tokens" then
        match files.find? (fun e => endsWithStr e.nameLower ".txt" && isLikely e.path) with
        | some e => e.path
        | none => ""
      else ""

theorem findOnnxByToken_of_ne_nil (files : List FileEntry) (token : String)
    (pI : Option Bool) (h : onnxMatches files token ≠ []) :
    findOnnxByToken files token pI =
      (if chooseLargest (onnxMatches files token) []
            (pI == some true) (pI == some false) ≠ ""
       then chooseLargest (onnxMatches files token) []
            (pI == some true) (pI == some false)
       else chooseLargest (onnxMatches files token) [] false false) := by
  unfold findOnnxByToken onnxMatches
  unfold onnxMatches at h
  have hfalse : (files.filter
      (fun e => isOnnxFile e && containsToken e.nameLower (toLowerStr token))).isEmpty
      = false := by
    cases heq : files.filter
        (fun e => isOnnxFile e && containsToken e.nameLower (toLowerStr token)) with
    | nil => exact absurd heq h
    | cons a l => rfl
  simp only [hfalse, Bool.false_eq_true, if_false]

/-! ## STT model detector (sherpa-onnx-model-detect-stt.cpp)

`DetectSttModel` reads the filesystem through `ListFilesRecursive`,
`FileExists`, `IsDirectory`, `ResolveTokenizerDir` and the tokens-file
content heuristic.  The embedding receives these observations in an
`SttEnv`: `files` is the result of `ListFilesRecursive(modelDir, 4)`,
`fsExists`/`isDir` are the existence oracles, `tokenizerDir` is the
result of `ResolveTokenizerDir(modelDir)` (a directory-tree search),
and `isLikelyTokens` is the `IsLikelyTokensFile` content heuristic. -/

/-- `SttModelKind` from sherpa-onnx-model-detect.h. -/
inductive SttModelKind where
  | kUnknown
  | kTransducer
  | kNemoTransducer
  | kParaformer
  | kNemoCtc
  | kWenetCtc
  | kSenseVoice
  | kZipformerCtc
  | kWhisper
  | kFunAsrNano
  | kFireRedAsr
  | kMoonshine
  | kDolphin
  | kCanary
  | kOmnilingual
  | kMedAsr
  | kTeleSpeechCtc
deriving DecidableEq

/-- `ParseSttModelType`: the exact-string table of explicit model types. -/
def parseSttModelType (modelType : String) : SttModelKind :=
  if modelType = "transducer" then .kTransducer
  else if modelType = "nemo_transducer" then .kNemoTransducer
  else if modelType = "paraformer" then .kParaformer
  else if modelType = "nemo_ctc" then .kNemoCtc
  else if modelType = "wenet_ctc" then .kWenetCtc
  else if modelType = "sense_voice" then .kSenseVoice
  else if modelType = "zipformer_ctc" ∨ modelType = "ctc" then .kZipformerCtc
  else if modelType = "whisper" then .kWhisper
  else if modelType = "funasr_nano" then .kFunAsrNano
  else if modelType = "fire_red_asr" then .kFireRedAsr
  else if modelType = "moonshine" then .kMoonshine
  else if modelType = "dolphin" then .kDolphin
  else if modelType = "canary" then .kCanary
  else if modelType = "omnilingual" then .kOmnilingual
  else if modelType = "medasr" then .kMedAsr
  else if modelType = "telespeech_ctc" then .kTeleSpeechCtc
  else .kUnknown

/-- `SttModelPaths`: every path field the detector can populate. -/
structure SttModelPaths where
  encoder : String := ""
  decoder : String := ""
  joiner : String := ""
  paraformerModel : String := ""
  ctcModel : String := ""
  whisperEncoder : String := ""
  whisperDecoder : String := ""
  funasrEncoderAdaptor : String := ""
  funasrLLM : String := ""
  funasrEmbedding : String := ""
  funasrTokenizer : String := ""
  moonshinePreprocessor : String := ""
  moonshineEncoder : String := ""
  moonshineUncachedDecoder : String := ""
  moonshineCachedDecoder : String := ""
  dolphinModel : String := ""
  fireRedEncoder : String := ""
  fireRedDecoder : String := ""
  canaryEncoder : String := ""
  canaryDecoder : String := ""
  omnilingualModel : String := ""
  medasrModel : String := ""
  telespeechCtcModel : String := ""
  tokens : String := ""
  bpeVocab : String := ""

/-- `SttDetectResult`. -/
structure SttDetectResult where
  ok : Bool := false
  error : String := ""
  detectedModels : List (String × String) := []
  selectedKind : SttModelKind := .kUnknown
  tokensRequired : Bool := false
  paths : SttModelPaths := {}

/-- The filesystem observations `DetectSttModel` makes. -/
structure SttEnv where
  modelDir : String
  files : List FileEntry
  fsExists : String → Bool
  isDir : String → Bool
  tokenizerDir : String
  isLikelyTokens : String → Bool

/-- The exclusion-token list `modelExcludes` of DetectSttModel. -/
def sttModelExcludes : List String :=
  ["encoder", "decoder", "joiner", "vocoder", "acoustic", "embedding",
   "llm", "encoder_adaptor", "encoder-adaptor"]

/-- All file lookups DetectSttModel performs (lines 77-127). -/
structure SttLookups where
  encoderPath : String
  decoderPath : String
  joinerPath : String
  funasrEncoderAdaptor : String
  funasrLLM : String
  funasrEmbedding : String
  funasrTokenizerDir : String
  moonshinePreprocessor : String
  moonshineEncoder : String
  moonshineUncachedDecoder : String
  moonshineCachedDecoder : String
  paraformerModelPath : String
  ctcModelPath : String
  tokensPath : String
  bpeVocabPath : String

/-- Perform all of DetectSttModel's file lookups. -/
def sttLookups (env : SttEnv) (preferInt8 : Option Bool) : SttLookups :=
  let files := env.files
  let para0 := findOnnxByAnyToken files ["model"] preferInt8
  let para := if para0 = "" then findLargestOnnxExcludingTokens files sttModelExcludes
              else para0
  let ctc0 := findOnnxByAnyToken files ["model"] preferInt8
  let ctc := if ctc0 = "" then findLargestOnnxExcludingTokens files sttModelExcludes
             else ctc0
  { encoderPath := findOnnxByAnyToken files ["encoder"] preferInt8,
    decoderPath := findOnnxByAnyToken files ["decoder"] preferInt8,
    joinerPath := findOnnxByAnyToken files ["joiner"] preferInt8,
    funasrEncoderAdaptor :=
      findOnnxByAnyToken files ["encoder_adaptor", "encoder-adaptor"] preferInt8,
    funasrLLM := findOnnxByAnyToken files ["llm"] preferInt8,
    funasrEmbedding := findOnnxByAnyToken files ["embedding"] preferInt8,
    funasrTokenizerDir := env.tokenizerDir,
    moonshinePreprocessor :=
      findOnnxByAnyToken files ["preprocess", "preprocessor"] preferInt8,
    moonshineEncoder := findOnnxByAnyToken files ["encode"] preferInt8,
    moonshineUncachedDecoder :=
      findOnnxByAnyToken files ["uncached_decode", "uncached"] preferInt8,
    moonshineCachedDecoder :=
      findOnnxByAnyToken files ["cached_decode", "cached"] preferInt8,
    paraformerModelPath := para,
    ctcModelPath := ctc,
    tokensPath := findFileEndingWith files "tokens.txt" env.isLikelyTokens,
    bpeVocabPath := findFileByName files "bpe.vocab" }

/-- The family presence tests and directory-name hints (lines 130-165). -/
structure SttPresence where
  hasTransducer : Bool
  isLikelyNemo : Bool
  hasCtcModel : Bool
  isLikelyWenetCtc : Bool
  isLikelySenseVoice : Bool
  hasFunAsrNano : Bool
  isLikelyFunAsrNano : Bool
  hasParaformer : Bool
  hasWhisper : Bool
  hasMoonshine : Bool
  isLikelyMoonshine : Bool
  hasDolphin : Bool
  hasFireRedAsr : Bool
  hasCanary : Bool
  hasOmnilingual : Bool
  hasMedAsr : Bool
  hasTeleSpeechCtc : Bool

/-- Compute the presence flags from the lookups exactly as lines 130-165. -/
def sttPresence (env : SttEnv) (preferInt8 : Option Bool) : SttPresence :=
  let L := sttLookups env preferInt8
  let dir := env.modelDir
  let hasTransducer :=
    (L.encoderPath != "") && (L.decoderPath != "") && (L.joinerPath != "")
  let isLikelyNemo := containsToken dir "nemo" || containsToken dir "parakeet"
  let isLikelyFireRed := containsToken dir "fire_red" || containsToken dir "fire-red"
  let hasFunAsrTokenizer :=
    (L.funasrTokenizerDir != "") &&
    env.fsExists (L.funasrTokenizerDir ++ "/vocab.json")
  { hasTransducer := hasTransducer,
    isLikelyNemo := isLikelyNemo,
    hasCtcModel := L.ctcModelPath != "",
    isLikelyWenetCtc := containsToken dir "wenet",
    isLikelySenseVoice := containsToken dir "sense" || containsToken dir "sensevoice",
    hasFunAsrNano :=
      (L.funasrEncoderAdaptor != "") && (L.funasrLLM != "") &&
      (L.funasrEmbedding != "") && hasFunAsrTokenizer,
    isLikelyFunAsrNano := containsToken dir "funasr" || containsToken dir "funasr-nano",
    hasParaformer := L.paraformerModelPath != "",
    hasWhisper := (L.encoderPath != "") && (L.decoderPath != "") && (L.joinerPath == ""),
    hasMoonshine :=
      (L.moonshinePreprocessor != "") && (L.moonshineUncachedDecoder != "") &&
      (L.moonshineCachedDecoder != "") && (L.moonshineEncoder != ""),
    isLikelyMoonshine := containsToken dir "moonshine",
    hasDolphin := containsToken dir "dolphin" && (L.ctcModelPath != ""),
    hasFireRedAsr := hasTransducer && isLikelyFireRed,
    hasCanary := hasTransducer && containsToken dir "canary",
    hasOmnilingual := (L.ctcModelPath != "") && containsToken dir "omnilingual",
    hasMedAsr := (L.ctcModelPath != "") && containsToken dir "medasr",
    hasTeleSpeechCtc :=
      ((L.ctcModelPath != "") || (L.paraformerModelPath != "")) &&
      containsToken dir "telespeech" }

/-- The `detectedModels` hypotheses pushed by lines 167-216, in order. -/
def sttDetectedModels (p : SttPresence) (modelDir : String) : List (String × String) :=
  (if p.hasTransducer then
    [((if p.isLikelyNemo then "nemo_transducer" else "transducer"), modelDir)]
   else []) ++
  (if p.hasCtcModel && (p.isLikelyNemo || p.isLikelyWenetCtc || p.isLikelySenseVoice) then
    [((if p.isLikelyNemo then "nemo_ctc"
       else if p.isLikelyWenetCtc then "wenet_ctc"
       else if p.isLikelySenseVoice then "sense_voice"
       else "ctc"), modelDir)]
   else if p.hasParaformer then [("paraformer", modelDir)] else []) ++
  (if p.hasWhisper then [("whisper", modelDir)] else []) ++
  (if p.hasFunAsrNano then [("funasr_nano", modelDir)] else []) ++
  (if p.hasMoonshine then [("moonshine", modelDir)] else []) ++
  (if p.hasDolphin then [("dolphin", modelDir)] else []) ++
  (if p.hasFireRedAsr then [("fire_red_asr", modelDir)] else []) ++
  (if p.hasCanary then [("canary", modelDir)] else []) ++
  (if p.hasOmnilingual then [("omnilingual", modelDir)] else []) ++
  (if p.hasMedAsr then [("medasr", modelDir)] else []) ++
  (if p.hasTeleSpeechCtc then [("telespeech_ctc", modelDir)] else [])

/-- The auto-selection chain of lines 282-316. -/
def sttAutoSelect (p : SttPresence) : SttModelKind :=
  if p.hasTransducer then
    (if p.isLikelyNemo then .kNemoTransducer else .kTransducer)
  else if p.hasCtcModel && (p.isLikelyNemo || p.isLikelyWenetCtc || p.isLikelySenseVoice) then
    (if p.isLikelyNemo then .kNemoCtc
     else if p.isLikelyWenetCtc then .kWenetCtc
     else .kSenseVoice)
  else if p.hasFunAsrNano && p.isLikelyFunAsrNano then .kFunAsrNano
  else if p.hasParaformer then .kParaformer
  else if p.hasWhisper then .kWhisper
  else if p.hasFunAsrNano then .kFunAsrNano
  else if p.hasMoonshine && p.isLikelyMoonshine then .kMoonshine
  else if p.hasDolphin then .kDolphin
  else if p.hasFireRedAsr then .kFireRedAsr
  else if p.hasCanary then .kCanary
  else if p.hasOmnilingual then .kOmnilingual
  else if p.hasMedAsr then .kMedAsr
  else if p.hasTeleSpeechCtc then .kTeleSpeechCtc
  else if p.hasCtcModel then .kZipformerCtc
  else .kUnknown

/-- The explicit-type validation chain of lines 220-280. -/
def sttValidateExplicit (p : SttPresence) (modelDir modelType : String) :
    Except String SttModelKind :=
  let k := parseSttModelType modelType
  if k = .kUnknown then .error ("Unknown model type: " ++ modelType)
  else if k = .kTransducer ∧ ¬p.hasTransducer then
    .error ("Transducer model requested but files not found in " ++ modelDir)
  else if k = .kNemoTransducer ∧ ¬p.hasTransducer then
    .error ("NeMo Transducer model requested but encoder/decoder/joiner not found in "
      ++ modelDir)
  else if k = .kParaformer ∧ ¬p.hasParaformer then
    .error ("Paraformer model requested but model file not found in " ++ modelDir)
  else if (k = .kNemoCtc ∨ k = .kWenetCtc ∨ k = .kSenseVoice ∨ k = .kZipformerCtc)
      ∧ ¬p.hasCtcModel then
    .error ("CTC model requested but model file not found in " ++ modelDir)
  else if k = .kWhisper ∧ ¬p.hasWhisper then
    .error ("Whisper model requested but encoder/decoder not found in " ++ modelDir)
  else if k = .kFunAsrNano ∧ ¬p.hasFunAsrNano then
    .error ("FunASR Nano model requested but required files not found in " ++ modelDir)
  else if k = .kMoonshine ∧ ¬p.hasMoonshine then
    .error
      ("Moonshine model requested but preprocess/encode/uncached_decode/cached_decode not found in "
        ++ modelDir)
  else if k = .kDolphin ∧ ¬p.hasDolphin then
    .error ("Dolphin model requested but model not found in " ++ modelDir)
  else if k = .kFireRedAsr ∧ ¬p.hasFireRedAsr then
    .error ("FireRed ASR model requested but encoder/decoder not found in " ++ modelDir)
  else if k = .kCanary ∧ ¬p.hasCanary then
    .error ("Canary model requested but encoder/decoder not found in " ++ modelDir)
  else if k = .kOmnilingual ∧ ¬p.hasOmnilingual then
    .error ("Omnilingual model requested but model not found in " ++ modelDir)
  else if k = .kMedAsr ∧ ¬p.hasMedAsr then
    .error ("MedASR model requested but model not found in " ++ modelDir)
  else if k = .kTeleSpeechCtc ∧ ¬p.hasTeleSpeechCtc then
    .error ("TeleSpeech CTC model requested but model not found in " ++ modelDir)
  else .ok k

/-- The selection step (lines 218-323): explicit type when given and not
"auto", otherwise the auto chain; an undetected auto selection yields
the "No compatible model type detected" error (the explicit branch
never reaches that check with `kUnknown`). -/
def sttSelect (p : SttPresence) (modelDir : String) (modelType : Option String) :
    Except String SttModelKind :=
  match modelType with
  | some mt =>
      if mt = "auto" then
        let s := sttAutoSelect p
        if s = .kUnknown then
          .error ("No compatible model type detected in " ++ modelDir)
        else .ok s
      else sttValidateExplicit p modelDir mt
  | none =>
      let s := sttAutoSelect p
      if s = .kUnknown then
        .error ("No compatible model type detected in " ++ modelDir)
      else .ok s

/-- The per-kind path population of lines 332-368. -/
def sttPathsFor (k : SttModelKind) (L : SttLookups) : SttModelPaths :=
  match k with
  | .kTransducer | .kNemoTransducer =>
      { encoder := L.encoderPath, decoder := L.decoderPath, joiner := L.joinerPath }
  | .kParaformer => { paraformerModel := L.paraformerModelPath }
  | .kNemoCtc | .kWenetCtc | .kSenseVoice | .kZipformerCtc =>
      { ctcModel := L.ctcModelPath }
  | .kWhisper => { whisperEncoder := L.encoderPath, whisperDecoder := L.decoderPath }
  | .kFunAsrNano =>
      { funasrEncoderAdaptor := L.funasrEncoderAdaptor,
        funasrLLM := L.funasrLLM,
        funasrEmbedding := L.funasrEmbedding,
        funasrTokenizer := L.funasrTokenizerDir ++ "/vocab.json" }
  | .kMoonshine =>
      { moonshinePreprocessor := L.moonshinePreprocessor,
        moonshineEncoder := L.moonshineEncoder,
        moonshineUncachedDecoder := L.moonshineUncachedDecoder,
        moonshineCachedDecoder := L.moonshineCachedDecoder }
  | .kDolphin =>
      { dolphinModel := if L.ctcModelPath = "" then L.paraformerModelPath
                        else L.ctcModelPath }
  | .kFireRedAsr =>
      { fireRedEncoder := L.encoderPath, fireRedDecoder := L.decoderPath }
  | .kCanary =>
      { canaryEncoder := L.encoderPath, canaryDecoder := L.decoderPath }
  | .kOmnilingual => { omnilingualModel := L.ctcModelPath }
  | .kMedAsr => { medasrModel := L.ctcModelPath }
  | .kTeleSpeechCtc =>
      { telespeechCtcModel := if L.ctcModelPath = "" then L.paraformerModelPath
                              else L.ctcModelPath }
  | .kUnknown => {}

/-- The post-selection steps of lines 326-385: record the kind, set
`tokensRequired` (false only for FunASR-Nano), populate the paths, then
the tokens check, optional bpe.vocab, and the final `ok := true`. -/
def sttFinish (env : SttEnv) (L : SttLookups) (dm : List (String × String))
    (k : SttModelKind) : SttDetectResult :=
  let base : SttDetectResult :=
    { detectedModels := dm, selectedKind := k,
      tokensRequired := k != .kFunAsrNano, paths := sttPathsFor k L }
  if (L.tokensPath != "") && env.fsExists L.tokensPath then
    let r1 := { base with paths := { base.paths with tokens := L.tokensPath } }
    let r2 := if (L.bpeVocabPath != "") && env.fsExists L.bpeVocabPath then
        { r1 with paths := { r1.paths with bpeVocab := L.bpeVocabPath } }
      else r1
    { r2 with ok := true }
  else if base.tokensRequired then
    { base with error := "Tokens file not found in " ++ env.modelDir }
  else
    let r2 := if (L.bpeVocabPath != "") && env.fsExists L.bpeVocabPath then
        { base with paths := { base.paths with bpeVocab := L.bpeVocabPath } }
      else base
    { r2 with ok := true }

/-- `DetectSttModel` (lines 37-386). -/
def detectSttModel (env : SttEnv) (preferInt8 : Option Bool)
    (modelType : Option String) : SttDetectResult :=
  if env.modelDir = "" then { error := "Model directory is empty" }
  else if ¬(env.fsExists env.modelDir && env.isDir env.modelDir) then
    { error := "Model directory does not exist or is not a directory: " ++ env.modelDir }
  else
    let L := sttLookups env preferInt8
    let p := sttPresence env preferInt8
    let dm := sttDetectedModels p env.modelDir
    match sttSelect p env.modelDir modelType with
    | .error e => { detectedModels := dm, error := e }
    | .ok k => sttFinish env L dm k

/-- The first kind in a priority list whose presence condition holds. -/
def firstHit : List (SttModelKind × Bool) → SttModelKind
  | [] => .kUnknown
  | (k, c) :: t => if c then k else firstHit t

/-- The fixed auto-selection priority order described by the
specification: transducer/nemo_transducer, directory-hinted CTC,
directory-hinted FunASR-Nano, paraformer, whisper, un-hinted
FunASR-Nano, directory-hinted moonshine, dolphin, fire_red_asr, canary,
omnilingual, medasr, telespeech_ctc, and zipformer_ctc as the un-hinted
CTC fallback. -/
def sttAutoPriority (p : SttPresence) : List (SttModelKind × Bool) :=
  [((if p.isLikelyNemo then .kNemoTransducer else .kTransducer), p.hasTransducer),
   ((if p.isLikelyNemo then .kNemoCtc
     else if p.isLikelyWenetCtc then .kWenetCtc
     else .kSenseVoice),
    p.hasCtcModel && (p.isLikelyNemo || p.isLikelyWenetCtc || p.isLikelySenseVoice)),
   (.kFunAsrNano, p.hasFunAsrNano && p.isLikelyFunAsrNano),
   (.kParaformer, p.hasParaformer),
   (.kWhisper, p.hasWhisper),
   (.kFunAsrNano, p.hasFunAsrNano),
   (.kMoonshine, p.hasMoonshine && p.isLikelyMoonshine),
   (.kDolphin, p.hasDolphin),
   (.kFireRedAsr, p.hasFireRedAsr),
   (.kCanary, p.hasCanary),
   (.kOmnilingual, p.hasOmnilingual),
   (.kMedAsr, p.hasMedAsr),
   (.kTeleSpeechCtc, p.hasTeleSpeechCtc),
   (.kZipformerCtc, p.hasCtcModel)]

theorem sttAutoSelect_eq_firstHit (p : SttPresence) :
    sttAutoSelect p = firstHit (sttAutoPriority p) := by
  simp only [sttAutoSelect, sttAutoPriority, firstHit]

theorem sttFinish_selectedKind (env : SttEnv) (L : SttLookups)
    (dm : List (String × String)) (k : SttModelKind) :
    (sttFinish env L dm k).selectedKind = k := by
  unfold sttFinish
  dsimp only
  split_ifs <;> rfl

theorem sttFinish_tokensRequired (env : SttEnv) (L : SttLookups)
    (dm : List (String × String)) (k : SttModelKind) :
    (sttFinish env L dm k).tokensRequired = (k != .kFunAsrNano) := by
  unfold sttFinish
  dsimp only
  split_ifs <;> rfl

theorem sttFinish_tokens_missing (env : SttEnv) (L : SttLookups)
    (dm : List (String × String)) (k : SttModelKind)
    (hmiss : ((L.tokensPath != "") && env.fsExists L.tokensPath) = false)
    (hreq : (k != SttModelKind.kFunAsrNano) = true) :
    (sttFinish env L dm k).ok = false ∧
    (sttFinish env L dm k).error = "Tokens file not found in " ++ env.modelDir := by
  unfold sttFinish
  dsimp only
  rw [if_neg (by rw [hmiss]; exact Bool.false_ne_true)]
  rw [if_pos (by exact hreq)]
  exact ⟨rfl, rfl⟩

theorem sttFinish_funasr_ok (env : SttEnv) (L : SttLookups)
    (dm : List (String × String)) :
    (sttFinish env L dm SttModelKind.kFunAsrNano).ok = true := by
  unfold sttFinish
  by_cases h : ((L.tokensPath != "") && env.fsExists L.tokensPath) = true
  · rw [if_pos h]
  · rw [if_neg h,
      if_neg (by decide :
        ¬((SttModelKind.kFunAsrNano != SttModelKind.kFunAsrNano) = true))]

theorem sttAutoSelect_funasr (p : SttPresence)
    (h : sttAutoSelect p = SttModelKind.kFunAsrNano) :
    p.hasFunAsrNano = true := by
  unfold sttAutoSelect at h
  by_cases c1 : p.hasTransducer = true
  · rw [if_pos c1] at h
    by_cases cn : p.isLikelyNemo = true
    · rw [if_pos cn] at h; exact SttModelKind.noConfusion h
    · rw [if_neg cn] at h; exact SttModelKind.noConfusion h
  · rw [if_neg c1] at h
    by_cases c2 : (p.hasCtcModel
        && (p.isLikelyNemo || p.isLikelyWenetCtc || p.isLikelySenseVoice)) = true
    · rw [if_pos c2] at h
      by_cases cn : p.isLikelyNemo = true
      · rw [if_pos cn] at h; exact SttModelKind.noConfusion h
      · rw [if_neg cn] at h
        by_cases cw : p.isLikelyWenetCtc = true
        · rw [if_pos cw] at h; exact SttModelKind.noConfusion h
        · rw [if_neg cw] at h; exact SttModelKind.noConfusion h
    · rw [if_neg c2] at h
      by_cases c3 : (p.hasFunAsrNano && p.isLikelyFunAsrNano) = true
      · exact (Bool.and_eq_true_iff.mp c3).1
      · rw [if_neg c3] at h
        by_cases c4 : p.hasParaformer = true
        · rw [if_pos c4] at h; exact SttModelKind.noConfusion h
        · rw [if_neg c4] at h
          by_cases c5 : p.hasWhisper = true
          · rw [if_pos c5] at h; exact SttModelKind.noConfusion h
          · rw [if_neg c5] at h
            by_cases c6 : p.hasFunAsrNano = true
            · exact c6
            · rw [if_neg c6] at h
              by_cases c7 : (p.hasMoonshine && p.isLikelyMoonshine) = true
              · rw [if_pos c7] at h; exact SttModelKind.noConfusion h
              · rw [if_neg c7] at h
                by_cases c8 : p.hasDolphin = true
                · rw [if_pos c8] at h; exact SttModelKind.noConfusion h
                · rw [if_neg c8] at h
                  by_cases c9 : p.hasFireRedAsr = true
                  · rw [if_pos c9] at h; exact SttModelKind.noConfusion h
                  · rw [if_neg c9] at h
                    by_cases c10 : p.hasCanary = true
                    · rw [if_pos c10] at h; exact SttModelKind.noConfusion h
                    · rw [if_neg c10] at h
                      by_cases c11 : p.hasOmnilingual = true
                      · rw [if_pos c11] at h; exact SttModelKind.noConfusion h
                      · rw [if_neg c11] at h
                        by_cases c12 : p.hasMedAsr = true
                        · rw [if_pos c12] at h; exact SttModelKind.noConfusion h
                        · rw [if_neg c12] at h
                          by_cases c13 : p.hasTeleSpeechCtc = true
                          · rw [if_pos c13] at h
                            exact SttModelKind.noConfusion h
                          · rw [if_neg c13] at h
                            by_cases c14 : p.hasCtcModel = true
                            · rw [if_pos c14] at h
                              exact SttModelKind.noConfusion h
                            · rw [if_neg c14] at h
                              exact SttModelKind.noConfusion h

theorem sttValidateExplicit_funasr (p : SttPresence) (modelDir mt : String)
    (h : sttValidateExplicit p modelDir mt = Except.ok SttModelKind.kFunAsrNano) :
    p.hasFunAsrNano = true := by
  unfold sttValidateExplicit at h
  dsimp only at h
  by_cases hf : p.hasFunAsrNano = true
  · exact hf
  · exfalso
    cases hpk : parseSttModelType mt <;> rw [hpk] at h <;> try simp_all
    all_goals (split at h <;> simp_all)

theorem sttSelect_funasr (p : SttPresence) (modelDir : String)
    (modelType : Option String)
    (h : sttSelect p modelDir modelType = Except.ok SttModelKind.kFunAsrNano) :
    p.hasFunAsrNano = true := by
  unfold sttSelect at h
  cases modelType with
  | none =>
      dsimp only at h
      by_cases hk : sttAutoSelect p = SttModelKind.kUnknown
      · rw [if_pos hk] at h; exact absurd h (by simp)
      · rw [if_neg hk] at h
        injection h with hk2
        exact sttAutoSelect_funasr p hk2
  | some mt =>
      dsimp only at h
      by_cases hmt : mt = "auto"
      · rw [if_pos hmt] at h
        by_cases hk : sttAutoSelect p = SttModelKind.kUnknown
        · rw [if_pos hk] at h; exact absurd h (by simp)
        · rw [if_neg hk] at h
          injection h with hk2
          exact sttAutoSelect_funasr p hk2
      · rw [if_neg hmt] at h
        exact sttValidateExplicit_funasr p modelDir mt h

theorem sttPresence_funasr_vocab (env : SttEnv) (preferInt8 : Option Bool)
    (h : (sttPresence env preferInt8).hasFunAsrNano = true) :
    env.fsExists ((sttLookups env preferInt8).funasrTokenizerDir ++ "/vocab.json")
      = true := by
  unfold sttPresence at h
  simp only at h
  have h4 := (Bool.and_eq_true_iff.mp h).2
  exact (Bool.and_eq_true_iff.mp h4).2

theorem detectSttModel_eq (env : SttEnv) (preferInt8 : Option Bool)
    (modelType : Option String)
    (hne : env.modelDir ≠ "")
    (hdir : (env.fsExists env.modelDir && env.isDir env.modelDir) = true) :
    detectSttModel env preferInt8 modelType =
      match sttSelect (sttPresence env preferInt8) env.modelDir modelType with
      | .error e =>
          { detectedModels := sttDetectedModels (sttPresence env preferInt8) env.modelDir,
            error := e }
      | .ok k =>
          sttFinish env (sttLookups env preferInt8)
            (sttDetectedModels (sttPresence env preferInt8) env.modelDir) k := by
  unfold detectSttModel
  rw [if_neg hne, if_neg (fun hc => hc hdir)]

/-! ## TTS model detector (sherpa-onnx-model-detect-tts.cpp)

As for STT, the filesystem is observed through `files` (the result of
`ListFilesRecursive(modelDir, 2)`), the `fsExists`/`isDir` oracles, and
`dataDirPath` (the result of the directory-tree search
`FindDirectoryByName(modelDir, "espeak-ng-data", 2)`). -/

/-- `TtsModelKind`. -/
inductive TtsModelKind where
  | kUnknown
  | kVits
  | kMatcha
  | kKokoro
  | kKitten
  | kPocket
  | kZipvoice
deriving DecidableEq

/-- `ParseTtsModelType`. -/
def parseTtsModelType (modelType : String) : TtsModelKind :=
  if modelType = "vits" then .kVits
  else if modelType = "matcha" then .kMatcha
  else if modelType = "kokoro" then .kKokoro
  else if modelType = "kitten" then .kKitten
  else if modelType = "pocket" then .kPocket
  else if modelType = "zipvoice" then .kZipvoice
  else .kUnknown

/-- `TtsModelPaths`. -/
structure TtsModelPaths where
  ttsModel : String := ""
  tokens : String := ""
  lexicon : String := ""
  dataDir : String := ""
  voices : String := ""
  acousticModel : String := ""
  vocoder : String := ""
  encoder : String := ""
  decoder : String := ""
  lmFlow : String := ""
  lmMain : String := ""
  textConditioner : String := ""
  vocabJson : String := ""
  tokenScoresJson : String := ""

/-- `TtsDetectResult`. -/
structure TtsDetectResult where
  ok : Bool := false
  error : String := ""
  detectedModels : List (String × String) := []
  selectedKind : TtsModelKind := .kUnknown
  paths : TtsModelPaths := {}

/-- The filesystem observations `DetectTtsModel` makes. -/
structure TtsEnv where
  modelDir : String
  files : List FileEntry
  fsExists : String → Bool
  isDir : String → Bool
  dataDirPath : String

/-- All file lookups DetectTtsModel performs (lines 49-84). -/
structure TtsLookups where
  tokensFile : String
  lexiconFile : String
  voicesFile : String
  acousticModel : String
  vocoder : String
  encoder : String
  decoder : String
  lmFlow : String
  lmMain : String
  textConditioner : String
  vocabJsonFile : String
  tokenScoresJsonFile : String
  ttsModel : String
  dataDirPath : String

/-- Perform DetectTtsModel's file lookups. -/
def ttsLookups (env : TtsEnv) : TtsLookups :=
  let files := env.files
  let ttsModel0 := findOnnxByAnyToken files ["model"] none
  let ttsModel := if ttsModel0 = "" then
      findLargestOnnxExcludingTokens files
        ["acoustic", "vocoder", "encoder", "decoder", "joiner"]
    else ttsModel0
  { tokensFile := findFileByName files "tokens.txt",
    lexiconFile := findFileByName files "lexicon.txt",
    voicesFile := findFileByName files "voices.bin",
    acousticModel := findOnnxByAnyToken files ["acoustic_model", "acoustic-model"] none,
    vocoder := findOnnxByAnyToken files ["vocoder", "vocos"] none,
    encoder := findOnnxByAnyToken files ["encoder"] none,
    decoder := findOnnxByAnyToken files ["decoder"] none,
    lmFlow := findOnnxByAnyToken files ["lm_flow", "lm-flow"] none,
    lmMain := findOnnxByAnyToken files ["lm_main", "lm-main"] none,
    textConditioner :=
      findOnnxByAnyToken files ["text_conditioner", "text-conditioner"] none,
    vocabJsonFile := findFileByName files "vocab.json",
    tokenScoresJsonFile := findFileByName files "token_scores.json",
    ttsModel := ttsModel,
    dataDirPath := env.dataDirPath }

/-- The family presence flags and directory-name hints (lines 86-102). -/
structure TtsFlags where
  hasVits : Bool
  hasMatcha : Bool
  hasVoicesFile : Bool
  hasZipvoice : Bool
  hasPocket : Bool
  hasDataDir : Bool
  isLikelyKitten : Bool
  isLikelyKokoro : Bool
  isLikelyVits : Bool

/-- Compute the flags exactly as lines 86-102 (and the `isLikelyVits`
hint of line 125). -/
def ttsFlags (env : TtsEnv) : TtsFlags :=
  let L := ttsLookups env
  let modelDirLower := toLowerStr env.modelDir
  let hasZipvoiceFull := (L.encoder != "") && (L.decoder != "") && (L.vocoder != "")
  let hasZipvoiceDistill := (L.encoder != "") && (L.decoder != "") &&
    (L.lexiconFile != "") && env.fsExists L.lexiconFile &&
    (L.tokensFile != "") && env.fsExists L.tokensFile
  { hasVits := L.ttsModel != "",
    hasMatcha := (L.acousticModel != "") && (L.vocoder != ""),
    hasVoicesFile := (L.voicesFile != "") && env.fsExists L.voicesFile,
    hasZipvoice := hasZipvoiceFull || hasZipvoiceDistill,
    hasPocket := (L.lmFlow != "") && (L.lmMain != "") && (L.encoder != "") &&
      (L.decoder != "") && (L.textConditioner != "") &&
      (L.vocabJsonFile != "") && env.fsExists L.vocabJsonFile &&
      (L.tokenScoresJsonFile != "") && env.fsExists L.tokenScoresJsonFile,
    hasDataDir := (L.dataDirPath != "") && env.isDir L.dataDirPath,
    isLikelyKitten := containsToken modelDirLower "kitten",
    isLikelyKokoro := containsToken modelDirLower "kokoro",
    isLikelyVits := containsToken modelDirLower "vits" }

/-- The `detectedModels` hypotheses pushed by lines 104-140, in order. -/
def ttsDetectedModels (f : TtsFlags) (modelDir : String) : List (String × String) :=
  (if f.hasMatcha then [("matcha", modelDir)] else []) ++
  (if f.hasPocket then [("pocket", modelDir)] else []) ++
  (if f.hasZipvoice && !f.hasMatcha then [("zipvoice", modelDir)] else []) ++
  (if f.hasVoicesFile then
    (if f.isLikelyKitten && !f.isLikelyKokoro then [("kitten", modelDir)]
     else if f.isLikelyKokoro && !f.isLikelyKitten then [("kokoro", modelDir)]
     else [("kokoro", modelDir), ("kitten", modelDir)])
   else []) ++
  (if f.hasVits then
    (if (if !f.hasVoicesFile then true
         else f.isLikelyVits || (!f.isLikelyKitten && !f.isLikelyKokoro)) then
      [("vits", modelDir)]
     else [])
   else [])

/-- The auto-selection chain of lines 149-167. -/
def ttsAutoSelect (f : TtsFlags) : TtsModelKind :=
  if f.hasMatcha then .kMatcha
  else if f.hasPocket then .kPocket
  else if f.hasZipvoice then .kZipvoice
  else if f.hasVoicesFile then
    (if f.isLikelyKitten && !f.isLikelyKokoro then .kKitten
     else if f.isLikelyKokoro && !f.isLikelyKitten then .kKokoro
     else .kKokoro)
  else if f.hasVits then .kVits
  else .kUnknown

/-- The selection step (lines 142-172): explicit type when not "auto",
otherwise the auto chain; an unknown explicit type or an undetected
auto selection each yield their error. -/
def ttsSelect (f : TtsFlags) (modelDir modelType : String) :
    Except String TtsModelKind :=
  if modelType = "auto" then
    let s := ttsAutoSelect f
    if s = .kUnknown then
      .error ("TTS: No compatible model type detected in " ++ modelDir)
    else .ok s
  else
    let k := parseTtsModelType modelType
    if k = .kUnknown then .error ("TTS: Unknown model type: " ++ modelType)
    else .ok k

/-- The per-kind required-file checks and the espeak-ng-data check of
lines 174-201, returning the first applicable error. -/
def ttsValidate (f : TtsFlags) (modelDir : String) (k : TtsModelKind) :
    Option String :=
  if k = .kVits ∧ ¬f.hasVits then
    some ("TTS: VITS model requested but model file not found in " ++ modelDir)
  else if k = .kMatcha ∧ ¬f.hasMatcha then
    some ("TTS: Matcha model requested but required files not found in " ++ modelDir)
  else if (k = .kKokoro ∨ k = .kKitten) ∧ (¬f.hasVits ∨ ¬f.hasVoicesFile) then
    some ("TTS: Kokoro/Kitten model requested but required files not found in "
      ++ modelDir)
  else if k = .kPocket ∧ ¬f.hasPocket then
    some ("TTS: Pocket model requested but required files not found in " ++ modelDir)
  else if k = .kZipvoice ∧ ¬f.hasZipvoice then
    some ("TTS: Zipvoice model requested but required files not found in " ++ modelDir)
  else if (k = .kVits ∨ k = .kMatcha ∨ k = .kKokoro ∨ k = .kKitten ∨ k = .kZipvoice)
      ∧ ¬f.hasDataDir then
    some ("TTS: espeak-ng-data not found in " ++ modelDir
      ++ ". Copy espeak-ng-data into the model directory.")
  else none

/-- The unconditional path population of lines 204-217. -/
def ttsPaths (env : TtsEnv) (L : TtsLookups) : TtsModelPaths :=
  { ttsModel := L.ttsModel,
    tokens := L.tokensFile,
    lexicon := if (L.lexiconFile != "") && env.fsExists L.lexiconFile then
        L.lexiconFile
      else "",
    dataDir := L.dataDirPath,
    voices := L.voicesFile,
    acousticModel := L.acousticModel,
    vocoder := L.vocoder,
    encoder := L.encoder,
    decoder := L.decoder,
    lmFlow := L.lmFlow,
    lmMain := L.lmMain,
    textConditioner := L.textConditioner,
    vocabJson := L.vocabJsonFile,
    tokenScoresJson := L.tokenScoresJsonFile }

/-- `DetectTtsModel` (lines 24-233). -/
def detectTtsModel (env : TtsEnv) (modelType : String) : TtsDetectResult :=
  if env.modelDir = "" then { error := "TTS: Model directory is empty" }
  else if ¬(env.fsExists env.modelDir && env.isDir env.modelDir) then
    { error := "TTS: Model directory does not exist or is not a directory: "
        ++ env.modelDir }
  else
    let L := ttsLookups env
    let f := ttsFlags env
    let dm := ttsDetectedModels f env.modelDir
    match ttsSelect f env.modelDir modelType with
    | .error e => { detectedModels := dm, error := e }
    | .ok k =>
      match ttsValidate f env.modelDir k with
      | some e => { detectedModels := dm, error := e }
      | none =>
        let r : TtsDetectResult :=
          { detectedModels := dm, selectedKind := k, paths := ttsPaths env L }
        if (k != .kPocket) &&
            ((L.tokensFile == "") || !env.fsExists L.tokensFile) then
          { r with error := "TTS: tokens.txt not found in " ++ env.modelDir }
        else { r with ok := true }

theorem detectTtsModel_eq (env : TtsEnv) (modelType : String)
    (hne : env.modelDir ≠ "")
    (hdir : (env.fsExists env.modelDir && env.isDir env.modelDir) = true) :
    detectTtsModel env modelType =
      match ttsSelect (ttsFlags env) env.modelDir modelType with
      | .error e =>
          { detectedModels := ttsDetectedModels (ttsFlags env) env.modelDir,
            error := e }
      | .ok k =>
        match ttsValidate (ttsFlags env) env.modelDir k with
        | some e =>
            { detectedModels := ttsDetectedModels (ttsFlags env) env.modelDir,
              error := e }
        | none =>
          let r : TtsDetectResult :=
            { detectedModels := ttsDetectedModels (ttsFlags env) env.modelDir,
              selectedKind := k, paths := ttsPaths env (ttsLookups env) }
          if (k != .kPocket) &&
              (((ttsLookups env).tokensFile == "") ||
                !env.fsExists (ttsLookups env).tokensFile) then
            { r with error := "TTS: tokens.txt not found in " ++ env.modelDir }
          else { r with ok := true } := by
  unfold detectTtsModel
  rw [if_neg hne, if_neg (fun hc => hc hdir)]

/-- The kind-specific required-file test mirrored by the validation
chain of lines 174-193. -/
def ttsKindFilesOk (f : TtsFlags) (k : TtsModelKind) : Bool :=
  match k with
  | .kVits => f.hasVits
  | .kMatcha => f.hasMatcha
  | .kKokoro | .kKitten => f.hasVits && f.hasVoicesFile
  | .kPocket => f.hasPocket
  | .kZipvoice => f.hasZipvoice
  | .kUnknown => false

theorem ttsSelect_ne_unknown {f : TtsFlags} {dir mt : String} {k : TtsModelKind}
    (h : ttsSelect f dir mt = Except.ok k) : k ≠ TtsModelKind.kUnknown := by
  unfold ttsSelect at h
  by_cases hmt : mt = "auto"
  · rw [if_pos hmt] at h
    dsimp only at h
    by_cases hs : ttsAutoSelect f = TtsModelKind.kUnknown
    · rw [if_pos hs] at h; exact absurd h (by simp)
    · rw [if_neg hs] at h
      injection h with h2
      subst h2
      exact hs
  · rw [if_neg hmt] at h
    dsimp only at h
    by_cases hp : parseTtsModelType mt = TtsModelKind.kUnknown
    · rw [if_pos hp] at h; exact absurd h (by simp)
    · rw [if_neg hp] at h
      injection h with h2
      subst h2
      exact hp

theorem ttsValidate_espeak (f : TtsFlags) (dir : String) (k : TtsModelKind)
    (hku : k ≠ TtsModelKind.kUnknown) (hkp : k ≠ TtsModelKind.kPocket)
    (hfiles : ttsKindFilesOk f k = true) (hdd : f.hasDataDir = false) :
    ttsValidate f dir k
      = some ("TTS: espeak-ng-data not found in " ++ dir
          ++ ". Copy espeak-ng-data into the model directory.") := by
  cases k <;> simp_all [ttsValidate, ttsKindFilesOk]

theorem ttsValidate_none (f : TtsFlags) (dir : String) (k : TtsModelKind)
    (hku : k ≠ TtsModelKind.kUnknown)
    (hfiles : ttsKindFilesOk f k = true) (hdd : f.hasDataDir = true) :
    ttsValidate f dir k = none := by
  cases k <;> simp_all [ttsValidate, ttsKindFilesOk]

theorem ttsValidate_none_dataDir (f : TtsFlags) (dir : String) (k : TtsModelKind)
    (hval : ttsValidate f dir k = none)
    (hku : k ≠ TtsModelKind.kUnknown) (hkp : k ≠ TtsModelKind.kPocket) :
    f.hasDataDir = true := by
  by_cases hdd : f.hasDataDir = true
  · exact hdd
  · exfalso
    cases k <;> simp_all [ttsValidate, ite_eq_iff]

/-! ## WAV writer (sherpa-onnx-tts-wrapper.cpp, TtsWrapper::saveToWavFile)

The float samples are modelled as exact rationals (every IEEE binary32
value is a rational); the `static_cast<int16_t>` of the scaled sample
truncates toward zero, modelled by floor for non-negative and ceiling
for negative values.  The output file is modelled as the byte list
written; `canOpen` is the oracle for whether the output file opened. -/

/-- Two's-complement wrap of an integer to signed 32 bits, the
`static_cast<int32_t>` applied to `samples.size()`. -/
def wrap32 (n : Int) : Int := (n + 2147483648) % 4294967296 - 2147483648

/-- Little-endian bytes of a 16-bit value (two's complement). -/
def le16 (n : Int) : List Nat :=
  [(n % 65536).toNat % 256, (n % 65536).toNat / 256]

/-- Little-endian bytes of a 32-bit value (two's complement). -/
def le32 (n : Int) : List Nat :=
  [(n % 4294967296).toNat % 256,
   (n % 4294967296).toNat / 256 % 256,
   (n % 4294967296).toNat / 65536 % 256,
   (n % 4294967296).toNat / 16777216 % 256]

/-- The bytes of an ASCII tag such as "RIFF". -/
def tagBytes (s : String) : List Nat := s.data.map Char.toNat

/-- Truncation toward zero, the behaviour of `static_cast<int16_t>`
on a float value. -/
def truncQ (q : ℚ) : Int := if 0 ≤ q then ⌊q⌋ else ⌈q⌉

/-- `std::max(-1.0f, std::min(1.0f, sample))`. -/
def clampSample (s : ℚ) : ℚ := max (-1) (min 1 s)

/-- `static_cast<int16_t>(clamped * 32767.0f)` (the float product
idealized as the exact rational product). -/
def quantizeSample (s : ℚ) : Int := truncQ (clampSample s * 32767)

/-- `TtsWrapper::saveToWavFile` (lines 440-508): returns the byte
sequence written, or `none` on the three failure conditions. -/
def saveToWavFile (samples : List ℚ) (sampleRate : Int) (canOpen : Bool) :
    Option (List Nat) :=
  if samples.isEmpty then none
  else if sampleRate ≤ 0 then none
  else if !canOpen then none
  else
    let numChannels : Int := 1
    let bitsPerSample : Int := 16
    let byteRate := (sampleRate * numChannels * bitsPerSample).tdiv 8
    let blockAlign := (numChannels * bitsPerSample).tdiv 8
    let dataSize := (wrap32 (Int.ofNat samples.length) * bitsPerSample).tdiv 8
    let chunkSize := 36 + dataSize
    some (tagBytes "RIFF" ++ le32 chunkSize ++ tagBytes "WAVE" ++
      tagBytes "fmt " ++ le32 16 ++ le16 1 ++ le16 numChannels ++
      le32 sampleRate ++ le32 byteRate ++ le16 blockAlign ++
      le16 bitsPerSample ++ tagBytes "data" ++ le32 dataSize ++
      samples.flatMap (fun s => le16 (quantizeSample s)))

/-- The canonical 44-byte PCM WAV header the specification describes:
RIFF/WAVE/fmt/data, format tag 1, 1 channel, the given sample rate,
byte rate sampleRate*2, block align 2, 16 bits per sample. -/
def wavHeaderSpec (numSamples : Nat) (sampleRate : Int) : List Nat :=
  tagBytes "RIFF" ++ le32 (36 + 2 * Int.ofNat numSamples) ++ tagBytes "WAVE" ++
  tagBytes "fmt " ++ le32 16 ++ le16 1 ++ le16 1 ++ le32 sampleRate ++
  le32 (sampleRate * 2) ++ le16 2 ++ le16 16 ++ tagBytes "data" ++
  le32 (2 * Int.ofNat numSamples)

theorem quantizeSample_bounds (s : ℚ) :
    -32767 ≤ quantizeSample s ∧ quantizeSample s ≤ 32767 := by
  have hc1 : clampSample s ≤ 1 := by
    unfold clampSample
    apply max_le
    · norm_num
    · exact min_le_left 1 s
  have hc2 : -1 ≤ clampSample s := le_max_left (-1) (min 1 s)
  have hq1 : clampSample s * 32767 ≤ 32767 := by nlinarith
  have hq2 : -32767 ≤ clampSample s * 32767 := by nlinarith
  unfold quantizeSample truncQ
  by_cases hs : 0 ≤ clampSample s * 32767
  · rw [if_pos hs]
    constructor
    · have : (0 : Int) ≤ ⌊clampSample s * 32767⌋ := Int.le_floor.mpr (by push_cast; exact hs)
      omega
    · have := Int.floor_le_floor (α := ℚ) hq1
      simpa using this
  · rw [if_neg hs]
    constructor
    · have := Int.ceil_le_ceil (α := ℚ) hq2
      simpa using this
    · push_neg at hs
      have : ⌈clampSample s * 32767⌉ ≤ ⌈(0 : ℚ)⌉ :=
        Int.ceil_le_ceil (le_of_lt hs)
      simp at this
      omega

/-! ## Archive extraction loop (sherpa-onnx-archive-helper.cpp,
ExtractTarBz2, lines 195-356)

The entry-iteration loop is modelled over the sequence of entries the
archive reader yields, with oracles for every filesystem-dependent
value: each `EntryM` carries the entry's stored path, the canonical
resolution the security check computes for it (lines 226-249), the
outcome of its `archive_write_header` call, its data blocks — each
with its byte size, the `archive_filter_bytes` reading used for
progress, and the outcome of its `archive_write_data_block` call — and
the status that terminates its data loop (`ARCHIVE_EOF` normally).
`finalHeaderStatus` is the non-OK status of the `archive_read_next_header`
call that terminates the entry loop.  The process-wide
`cancel_requested_` flag is modelled by `cancelFrom`: the index of the
first poll that observes true (the flag is only ever set, never
cleared during a run, so all later polls observe true too); `none`
means no cancellation happens.  The state records poll and read counts
and the writes performed, so the claims about polling granularity,
immediate abort, and absence of rollback can be stated. -/

/-- Archive-library call status. -/
inductive AStatus where
  | ok
  | eof
  | fatal
deriving DecidableEq

/-- One data block of an entry. -/
structure BlockM where
  size : Int
  compressedSoFar : Int
  writeOk : Bool

/-- One archive entry. -/
structure EntryM where
  path : String
  canonicalResolution : String
  headerWriteOk : Bool
  blocks : List BlockM
  dataEndStatus : AStatus

/-- The per-call inputs of ExtractTarBz2 the loop depends on. -/
structure ExtCfg where
  targetPath : String
  canonicalTarget : String
  cancelFrom : Option Nat
  hasProgress : Bool
  totalBytes : Int
  wantSha : Bool

/-- The observable extraction state. -/
structure ExtSt where
  polls : Nat
  headerReads : Nat
  blockReads : Nat
  written : List (String × String)
  blocksWritten : Nat
  extractedBytes : Int
  lastPercent : Int
  lastEmitBytes : Int
  progressCalls : List (Int × Int × Int)

/-- The state at loop entry. -/
def extInit : ExtSt :=
  { polls := 0, headerReads := 0, blockReads := 0, written := [],
    blocksWritten := 0, extractedBytes := 0, lastPercent := -1,
    lastEmitBytes := 0, progressCalls := [] }

/-- The extraction outcome: success flag, error message, whether the
sha256 out-parameter was written, and the final state. -/
structure ExtRes where
  success : Bool
  error : Option String
  shaWritten : Bool
  st : ExtSt

/-- The security check `canonical_entry.find(canonical_target) != 0`
of line 252: `find` returns 0 exactly when `canonical_target` occurs at
position 0, i.e. is a prefix (an empty needle is found at 0). -/
def strIsPrefix (p s : String) : Bool := p.data.isPrefixOf s.data

/-- The value `cancel_requested_.load()` returns at the k-th poll. -/
def pollCancelled (cfg : ExtCfg) (k : Nat) : Bool :=
  match cfg.cancelFrom with
  | some i => decide (i ≤ k)
  | none => false

/-- An "Extraction cancelled" result at state `st`. -/
def cancelRes (st : ExtSt) : ExtRes :=
  { success := false, error := some "Extraction cancelled",
    shaWritten := false, st := st }

/-- A failure result with message `msg` at state `st`. -/
def failRes (msg : String) (st : ExtSt) : ExtRes :=
  { success := false, error := some msg, shaWritten := false, st := st }

/-- Count one `archive_read_data_block` call. -/
def bumpBlockRead (st : ExtSt) : ExtSt :=
  { st with blockReads := st.blockReads + 1 }

/-- Count one `archive_read_next_header` call. -/
def bumpHeaderRead (st : ExtSt) : ExtSt :=
  { st with headerReads := st.headerReads + 1 }

/-- Count one poll of the cancellation flag. -/
def bumpPoll (st : ExtSt) : ExtSt :=
  { st with polls := st.polls + 1 }

/-- Account one successfully written data block (lines 290-302). -/
def accountBlock (b : BlockM) (st : ExtSt) : ExtSt :=
  { st with
    blocksWritten := st.blocksWritten + 1
    extractedBytes := st.extractedBytes + b.size }

/-- Record one entry whose header was written: `(full path, canonical
resolution)`. -/
def appendWrite (p : String × String) (st : ExtSt) : ExtSt :=
  { st with written := st.written ++ [p] }

/-- The clamped integer percentage of lines 308-314. -/
def progressPercent (cfg : ExtCfg) (b : BlockM) : Int :=
  let percent0 := (b.compressedSoFar * 100).tdiv cfg.totalBytes
  if percent0 > 100 then 100 else if percent0 < 0 then 0 else percent0

/-- The progress emission after one written data block (lines 304-325). -/
def progressStep (cfg : ExtCfg) (b : BlockM) (st : ExtSt) : ExtSt :=
  if cfg.hasProgress then
    if cfg.totalBytes > 0 then
      (if progressPercent cfg b ≠ st.lastPercent then
        { st with
          lastPercent := progressPercent cfg b
          progressCalls := st.progressCalls ++
            [(b.compressedSoFar, cfg.totalBytes, progressPercent cfg b)] }
      else st)
    else if st.extractedBytes - st.lastEmitBytes ≥ 1048576 then
      { st with
        lastEmitBytes := st.extractedBytes
        progressCalls := st.progressCalls ++
          [(st.extractedBytes, cfg.totalBytes, 0)] }
    else st
  else st

/-- The data-block loop of one entry (lines 277-337): read a block,
poll the cancellation flag, write the block, account and report
progress; on loop exit check the terminating status (the check accepts
both `ARCHIVE_EOF` and `ARCHIVE_OK`, as line 328 does). -/
def extractBlocks (cfg : ExtCfg) :
    List BlockM → AStatus → ExtSt → Except ExtRes ExtSt
  | [], dataEnd, st =>
      if dataEnd = AStatus.eof ∨ dataEnd = AStatus.ok then
        Except.ok (bumpBlockRead st)
      else Except.error (failRes "Failed to read data" (bumpBlockRead st))
  | b :: rest, dataEnd, st =>
      if pollCancelled cfg st.polls then
        Except.error (cancelRes (bumpPoll (bumpBlockRead st)))
      else if !b.writeOk then
        Except.error (failRes "Failed to write data" (bumpPoll (bumpBlockRead st)))
      else
        extractBlocks cfg rest dataEnd
          (progressStep cfg b (accountBlock b (bumpPoll (bumpBlockRead st))))

/-- The full output path of an entry: `targetPath`, a separator when
missing, then the entry's stored path (lines 220-223). -/
def entryFullPath (cfg : ExtCfg) (e : EntryM) : String :=
  (if endsWithStr cfg.targetPath "/" then cfg.targetPath
   else cfg.targetPath ++ "/") ++ e.path

/-- Processing of one entry whose header was just read (lines 201-337):
poll the cancellation flag, run the path-traversal check on the
canonical resolution, write the header, then stream the data blocks. -/
def extractEntry (cfg : ExtCfg) (e : EntryM) (st : ExtSt) :
    Except ExtRes ExtSt :=
  if pollCancelled cfg st.polls then
    Except.error (cancelRes (bumpPoll (bumpHeaderRead st)))
  else if !(strIsPrefix cfg.canonicalTarget e.canonicalResolution) then
    Except.error (failRes ("Blocked path traversal: " ++ e.path)
      (bumpPoll (bumpHeaderRead st)))
  else if !e.headerWriteOk then
    Except.error (failRes "Failed to write entry" (bumpPoll (bumpHeaderRead st)))
  else
    extractBlocks cfg e.blocks e.dataEndStatus
      (appendWrite (entryFullPath cfg e, e.canonicalResolution)
        (bumpPoll (bumpHeaderRead st)))

/-- The entry-iteration loop (line 201). -/
def extractEntries (cfg : ExtCfg) :
    List EntryM → ExtSt → Except ExtRes ExtSt
  | [], st => Except.ok st
  | e :: rest, st =>
      match extractEntry cfg e st with
      | Except.error r => Except.error r
      | Except.ok st2 => extractEntries cfg rest st2

/-- The final 100% progress call of lines 352-354. -/
def finalProgress (cfg : ExtCfg) (st : ExtSt) : ExtSt :=
  if cfg.hasProgress then
    (if cfg.totalBytes > 0 then
      { st with progressCalls :=
          st.progressCalls ++ [(cfg.totalBytes, cfg.totalBytes, 100)] }
    else st)
  else st

/-- `ExtractTarBz2`'s loop followed by its post-loop code (lines
340-356): the final `archive_read_next_header` whose non-OK status
`finalHeaderStatus` terminated the loop is counted but its value is
never examined; then the digest is written if requested, the final
100% progress call is emitted when the total size is known, and the
function returns true. -/
def extractLoop (cfg : ExtCfg) (entries : List EntryM)
    (finalHeaderStatus : AStatus) : ExtRes :=
  match extractEntries cfg entries extInit with
  | Except.error r => r
  | Except.ok st =>
      { success := true, error := none, shaWritten := cfg.wantSha,
        st := finalProgress cfg (bumpHeaderRead st) }

/-- The write list carried by either outcome. -/
def writtenOf : Except ExtRes ExtSt → List (String × String)
  | Except.ok st => st.written
  | Except.error r => r.st.written

theorem progressStep_written (cfg : ExtCfg) (b : BlockM) (st : ExtSt) :
    (progressStep cfg b st).written = st.written := by
  unfold progressStep
  split_ifs <;> rfl

theorem finalProgress_written (cfg : ExtCfg) (st : ExtSt) :
    (finalProgress cfg st).written = st.written := by
  unfold finalProgress
  split_ifs <;> rfl

theorem extractBlocks_written (cfg : ExtCfg) :
    ∀ (blocks : List BlockM) (dataEnd : AStatus) (st : ExtSt),
      writtenOf (extractBlocks cfg blocks dataEnd st) = st.written := by
  intro blocks
  induction blocks with
  | nil =>
      intro dataEnd st
      unfold extractBlocks
      split_ifs <;> rfl
  | cons b rest ih =>
      intro dataEnd st
      unfold extractBlocks
      split_ifs with h1 h2
      · rfl
      · rfl
      · rw [ih, progressStep_written]
        rfl

/-- No cancellation is ever observed when the flag is never set. -/
theorem pollCancelled_none {cfg : ExtCfg} (hc : cfg.cancelFrom = none) (k : Nat) :
    pollCancelled cfg k = false := by
  unfold pollCancelled
  rw [hc]

/-- An entry is "valid" when it passes every check: its canonical
resolution stays under the target, its header and every data block
write succeed, and its data loop ends with `ARCHIVE_EOF`. -/
def validEntry (cfg : ExtCfg) (e : EntryM) : Prop :=
  strIsPrefix cfg.canonicalTarget e.canonicalResolution = true ∧
  e.headerWriteOk = true ∧ (∀ b ∈ e.blocks, b.writeOk = true) ∧
  e.dataEndStatus = AStatus.eof

theorem extractBlocks_ok (cfg : ExtCfg) (hc : cfg.cancelFrom = none) :
    ∀ (blocks : List BlockM) (st : ExtSt), (∀ b ∈ blocks, b.writeOk = true) →
      ∃ st2, extractBlocks cfg blocks AStatus.eof st = Except.ok st2 := by
  intro blocks
  induction blocks with
  | nil =>
      intro st _
      unfold extractBlocks
      rw [if_pos (Or.inl rfl)]
      exact ⟨_, rfl⟩
  | cons b rest ih =>
      intro st hall
      unfold extractBlocks
      rw [if_neg (by rw [pollCancelled_none hc]; exact Bool.false_ne_true)]
      rw [if_neg (by rw [hall b (List.mem_cons_self b rest)]; decide)]
      exact ih _ (fun x hx => hall x (List.mem_cons_of_mem _ hx))

theorem extractEntry_ok (cfg : ExtCfg) (hc : cfg.cancelFrom = none)
    (e : EntryM) (st : ExtSt) (hv : validEntry cfg e) :
    ∃ st2, extractEntry cfg e st = Except.ok st2 := by
  obtain ⟨hpf, hh, hb, hend⟩ := hv
  unfold extractEntry
  rw [if_neg (by rw [pollCancelled_none hc]; exact Bool.false_ne_true)]
  rw [if_neg (by rw [hpf]; decide)]
  rw [if_neg (by rw [hh]; decide)]
  rw [hend]
  exact extractBlocks_ok cfg hc e.blocks _ hb

theorem extractEntries_ok (cfg : ExtCfg) (hc : cfg.cancelFrom = none) :
    ∀ (pre : List EntryM) (st : ExtSt), (∀ e ∈ pre, validEntry cfg e) →
      ∃ st2, extractEntries cfg pre st = Except.ok st2 := by
  intro pre
  induction pre with
  | nil => intro st _; exact ⟨st, rfl⟩
  | cons e rest ih =>
      intro st hall
      obtain ⟨st1, h1⟩ := extractEntry_ok cfg hc e st
        (hall e (List.mem_cons_self e rest))
      unfold extractEntries
      rw [h1]
      exact ih st1 (fun x hx => hall x (List.mem_cons_of_mem _ hx))

theorem extractEntry_blocked (cfg : ExtCfg) (hc : cfg.cancelFrom = none)
    (e : EntryM) (st : ExtSt)
    (hbad : strIsPrefix cfg.canonicalTarget e.canonicalResolution = false) :
    extractEntry cfg e st
      = Except.error (failRes ("Blocked path traversal: " ++ e.path)
          (bumpPoll (bumpHeaderRead st))) := by
  unfold extractEntry
  rw [if_neg (by rw [pollCancelled_none hc]; exact Bool.false_ne_true)]
  rw [if_pos (by rw [hbad]; rfl)]

theorem extractEntries_append (cfg : ExtCfg) :
    ∀ (l1 l2 : List EntryM) (st : ExtSt),
      extractEntries cfg (l1 ++ l2) st =
        (match extractEntries cfg l1 st with
         | Except.error r => Except.error r
         | Except.ok st2 => extractEntries cfg l2 st2) := by
  intro l1
  induction l1 with
  | nil => intro l2 st; rfl
  | cons e rest ih =>
      intro l2 st
      have lhs : extractEntries cfg ((e :: rest) ++ l2) st
          = (match extractEntry cfg e st with
             | Except.error r => Except.error r
             | Except.ok st2 => extractEntries cfg (rest ++ l2) st2) := rfl
      have rhs : extractEntries cfg (e :: rest) st
          = (match extractEntry cfg e st with
             | Except.error r => Except.error r
             | Except.ok st2 => extractEntries cfg rest st2) := rfl
      rw [lhs, rhs]
      cases extractEntry cfg e st with
      | error r => rfl
      | ok st2 => exact ih l2 st2

theorem extractEntry_written_safe (cfg : ExtCfg) (e : EntryM) (st : ExtSt)
    (hst : ∀ pc ∈ st.written, strIsPrefix cfg.canonicalTarget pc.2 = true) :
    ∀ pc ∈ writtenOf (extractEntry cfg e st),
      strIsPrefix cfg.canonicalTarget pc.2 = true := by
  unfold extractEntry
  split_ifs with h1 h2 h3
  · exact hst
  · exact hst
  · exact hst
  · intro pc hpc
    rw [extractBlocks_written] at hpc
    have hmem : pc ∈ st.written ++ [(entryFullPath cfg e, e.canonicalResolution)] :=
      hpc
    rcases List.mem_append.mp hmem with h | h
    · exact hst pc h
    · have hpcv : pc = (entryFullPath cfg e, e.canonicalResolution) := by
        simpa using h
      subst hpcv
      simpa using h2

theorem extractEntries_written_safe (cfg : ExtCfg) :
    ∀ (entries : List EntryM) (st : ExtSt),
      (∀ pc ∈ st.written, strIsPrefix cfg.canonicalTarget pc.2 = true) →
      ∀ pc ∈ writtenOf (extractEntries cfg entries st),
        strIsPrefix cfg.canonicalTarget pc.2 = true := by
  intro entries
  induction entries with
  | nil => intro st hst; exact hst
  | cons e rest ih =>
      intro st hst
      unfold extractEntries
      cases h : extractEntry cfg e st with
      | error r =>
          have := extractEntry_written_safe cfg e st hst
          rw [h] at this
          exact this
      | ok st2 =>
          apply ih st2
          have := extractEntry_written_safe cfg e st hst
          rw [h] at this
          exact this

/-- The poll count carried by either outcome. -/
def pollsOf : Except ExtRes ExtSt → Nat
  | Except.ok st => st.polls
  | Except.error r => r.st.polls

theorem progressStep_counts (cfg : ExtCfg) (b : BlockM) (st : ExtSt) :
    (progressStep cfg b st).polls = st.polls ∧
    (progressStep cfg b st).headerReads = st.headerReads ∧
    (progressStep cfg b st).blockReads = st.blockReads ∧
    (progressStep cfg b st).blocksWritten = st.blocksWritten := by
  unfold progressStep
  split_ifs <;> exact ⟨rfl, rfl, rfl, rfl⟩

theorem finalProgress_counts (cfg : ExtCfg) (st : ExtSt) :
    (finalProgress cfg st).polls = st.polls ∧
    (finalProgress cfg st).headerReads = st.headerReads ∧
    (finalProgress cfg st).blockReads = st.blockReads ∧
    (finalProgress cfg st).blocksWritten = st.blocksWritten := by
  unfold finalProgress
  split_ifs <;> exact ⟨rfl, rfl, rfl, rfl⟩

theorem extractBlocks_counts (cfg : ExtCfg) :
    ∀ (blocks : List BlockM) (dataEnd : AStatus) (st st2 : ExtSt),
      extractBlocks cfg blocks dataEnd st = Except.ok st2 →
      st2.polls = st.polls + blocks.length ∧
      st2.headerReads = st.headerReads ∧
      st2.blockReads = st.blockReads + blocks.length + 1 ∧
      st2.blocksWritten = st.blocksWritten + blocks.length := by
  intro blocks
  induction blocks with
  | nil =>
      intro dataEnd st st2 h
      unfold extractBlocks at h
      split_ifs at h
      injection h with h'
      subst h'
      exact ⟨rfl, rfl, rfl, rfl⟩
  | cons b rest ih =>
      intro dataEnd st st2 h
      unfold extractBlocks at h
      by_cases h1 : pollCancelled cfg st.polls = true
      · rw [if_pos h1] at h
        exact Except.noConfusion h
      · rw [if_neg h1] at h
        by_cases h2 : (!b.writeOk) = true
        · rw [if_pos h2] at h
          exact Except.noConfusion h
        · rw [if_neg h2] at h
          obtain ⟨hp, hh, hb, hw⟩ := ih dataEnd
            (progressStep cfg b (accountBlock b (bumpPoll (bumpBlockRead st)))) st2 h
          have e1 : (progressStep cfg b (accountBlock b (bumpPoll (bumpBlockRead st)))).polls
              = st.polls + 1 := (progressStep_counts cfg b _).1
          have e2 : (progressStep cfg b (accountBlock b (bumpPoll (bumpBlockRead st)))).headerReads
              = st.headerReads := (progressStep_counts cfg b _).2.1
          have e3 : (progressStep cfg b (accountBlock b (bumpPoll (bumpBlockRead st)))).blockReads
              = st.blockReads + 1 := (progressStep_counts cfg b _).2.2.1
          have e4 : (progressStep cfg b (accountBlock b (bumpPoll (bumpBlockRead st)))).blocksWritten
              = st.blocksWritten + 1 := (progressStep_counts cfg b _).2.2.2
          rw [e1] at hp
          rw [e2] at hh
          rw [e3] at hb
          rw [e4] at hw
          refine ⟨?_, hh, ?_, ?_⟩
          · show st2.polls = st.polls + (rest.length + 1)
            omega
          · show st2.blockReads = st.blockReads + (rest.length + 1) + 1
            omega
          · show st2.blocksWritten = st.blocksWritten + (rest.length + 1)
            omega

theorem extractEntry_counts (cfg : ExtCfg) (e : EntryM) (st st2 : ExtSt)
    (h : extractEntry cfg e st = Except.ok st2) :
    st2.polls = st.polls + 1 + e.blocks.length ∧
    st2.headerReads = st.headerReads + 1 ∧
    st2.blockReads = st.blockReads + e.blocks.length + 1 ∧
    st2.blocksWritten = st.blocksWritten + e.blocks.length := by
  unfold extractEntry at h
  by_cases h1 : pollCancelled cfg st.polls = true
  · rw [if_pos h1] at h
    exact Except.noConfusion h
  · rw [if_neg h1] at h
    by_cases h2 : (!(strIsPrefix cfg.canonicalTarget e.canonicalResolution)) = true
    · rw [if_pos h2] at h
      exact Except.noConfusion h
    · rw [if_neg h2] at h
      by_cases h3 : (!e.headerWriteOk) = true
      · rw [if_pos h3] at h
        exact Except.noConfusion h
      · rw [if_neg h3] at h
        obtain ⟨hp, hh, hb, hw⟩ := extractBlocks_counts cfg e.blocks e.dataEndStatus
          (appendWrite (entryFullPath cfg e, e.canonicalResolution)
            (bumpPoll (bumpHeaderRead st))) st2 h
        have e1 : (appendWrite (entryFullPath cfg e, e.canonicalResolution)
            (bumpPoll (bumpHeaderRead st))).polls = st.polls + 1 := rfl
        have e2 : (appendWrite (entryFullPath cfg e, e.canonicalResolution)
            (bumpPoll (bumpHeaderRead st))).headerReads = st.headerReads + 1 := rfl
        have e3 : (appendWrite (entryFullPath cfg e, e.canonicalResolution)
            (bumpPoll (bumpHeaderRead st))).blockReads = st.blockReads := rfl
        have e4 : (appendWrite (entryFullPath cfg e, e.canonicalResolution)
            (bumpPoll (bumpHeaderRead st))).blocksWritten = st.blocksWritten := rfl
        rw [e1] at hp
        rw [e2] at hh
        rw [e3] at hb
        rw [e4] at hw
        exact ⟨hp, hh, hb, hw⟩

theorem extractEntries_cons_ok (cfg : ExtCfg) (e : EntryM) (rest : List EntryM)
    (st st2 : ExtSt) (h : extractEntry cfg e st = Except.ok st2) :
    extractEntries cfg (e :: rest) st = extractEntries cfg rest st2 := by
  have lhs : extractEntries cfg (e :: rest) st
      = (match extractEntry cfg e st with
         | Except.error r => Except.error r
         | Except.ok st2 => extractEntries cfg rest st2) := rfl
  rw [lhs, h]

theorem extractEntries_cons_error (cfg : ExtCfg) (e : EntryM) (rest : List EntryM)
    (st : ExtSt) (r : ExtRes) (h : extractEntry cfg e st = Except.error r) :
    extractEntries cfg (e :: rest) st = Except.error r := by
  have lhs : extractEntries cfg (e :: rest) st
      = (match extractEntry cfg e st with
         | Except.error r => Except.error r
         | Except.ok st2 => extractEntries cfg rest st2) := rfl
  rw [lhs, h]

theorem extractEntries_inv (cfg : ExtCfg) :
    ∀ (entries : List EntryM) (st st2 : ExtSt),
      extractEntries cfg entries st = Except.ok st2 →
      st.polls = st.blockReads →
      st.polls = st.headerReads + st.blocksWritten →
      st2.polls = st2.blockReads ∧
      st2.polls = st2.headerReads + st2.blocksWritten := by
  intro entries
  induction entries with
  | nil =>
      intro st st2 h h1 h2
      unfold extractEntries at h
      injection h with h'
      subst h'
      exact ⟨h1, h2⟩
  | cons e rest ih =>
      intro st st2 h h1 h2
      cases he : extractEntry cfg e st with
      | error r =>
          rw [extractEntries_cons_error cfg e rest st r he] at h
          exact Except.noConfusion h
      | ok st1 =>
          rw [extractEntries_cons_ok cfg e rest st st1 he] at h
          obtain ⟨p1, p2, p3, p4⟩ := extractEntry_counts cfg e st st1 he
          exact ih st1 st2 h (by omega) (by omega)

theorem extractBlocks_error_flags (cfg : ExtCfg) :
    ∀ (blocks : List BlockM) (dataEnd : AStatus) (st : ExtSt) (r : ExtRes),
      extractBlocks cfg blocks dataEnd st = Except.error r →
      r.success = false := by
  intro blocks
  induction blocks with
  | nil =>
      intro dataEnd st r h
      unfold extractBlocks at h
      split_ifs at h
      injection h with h'
      subst h'
      rfl
  | cons b rest ih =>
      intro dataEnd st r h
      unfold extractBlocks at h
      by_cases h1 : pollCancelled cfg st.polls = true
      · rw [if_pos h1] at h
        injection h with h'
        subst h'
        rfl
      · rw [if_neg h1] at h
        by_cases h2 : (!b.writeOk) = true
        · rw [if_pos h2] at h
          injection h with h'
          subst h'
          rfl
        · rw [if_neg h2] at h
          exact ih dataEnd _ r h

theorem extractEntry_error_flags (cfg : ExtCfg) (e : EntryM) (st : ExtSt) (r : ExtRes)
    (h : extractEntry cfg e st = Except.error r) : r.success = false := by
  unfold extractEntry at h
  by_cases h1 : pollCancelled cfg st.polls = true
  · rw [if_pos h1] at h
    injection h with h'
    subst h'
    rfl
  · rw [if_neg h1] at h
    by_cases h2 : (!(strIsPrefix cfg.canonicalTarget e.canonicalResolution)) = true
    · rw [if_pos h2] at h
      injection h with h'
      subst h'
      rfl
    · rw [if_neg h2] at h
      by_cases h3 : (!e.headerWriteOk) = true
      · rw [if_pos h3] at h
        injection h with h'
        subst h'
        rfl
      · rw [if_neg h3] at h
        exact extractBlocks_error_flags cfg e.blocks e.dataEndStatus _ r h

theorem extractEntries_error_flags (cfg : ExtCfg) :
    ∀ (entries : List EntryM) (st : ExtSt) (r : ExtRes),
      extractEntries cfg entries st = Except.error r → r.success = false := by
  intro entries
  induction entries with
  | nil =>
      intro st r h
      unfold extractEntries at h
      exact Except.noConfusion h
  | cons e rest ih =>
      intro st r h
      cases he : extractEntry cfg e st with
      | error r2 =>
          rw [extractEntries_cons_error cfg e rest st r2 he] at h
          injection h with h'
          subst h'
          exact extractEntry_error_flags cfg e st r2 he
      | ok st2 =>
          rw [extractEntries_cons_ok cfg e rest st st2 he] at h
          exact ih st2 r h

theorem canonicalTarget_cancelFrom (cfg : ExtCfg) (i : Option Nat) :
    ({ cfg with cancelFrom := i } : ExtCfg).canonicalTarget = cfg.canonicalTarget := rfl

theorem entryFullPath_cancelFrom (cfg : ExtCfg) (i : Option Nat) (e : EntryM) :
    entryFullPath { cfg with cancelFrom := i } e = entryFullPath cfg e := rfl

theorem progressStep_cancelFrom (cfg : ExtCfg) (i : Option Nat) (b : BlockM) (st : ExtSt) :
    progressStep { cfg with cancelFrom := i } b st = progressStep cfg b st := rfl

theorem pollCancelled_some (cfg : ExtCfg) (i k : Nat) :
    pollCancelled { cfg with cancelFrom := some i } k = decide (i ≤ k) := rfl

theorem extractBlocks_polls_le (cfg : ExtCfg) :
    ∀ (blocks : List BlockM) (dataEnd : AStatus) (st : ExtSt),
      st.polls ≤ pollsOf (extractBlocks cfg blocks dataEnd st) := by
  intro blocks
  induction blocks with
  | nil =>
      intro dataEnd st
      unfold extractBlocks
      split_ifs <;> exact Nat.le_refl _
  | cons b rest ih =>
      intro dataEnd st
      unfold extractBlocks
      by_cases h1 : pollCancelled cfg st.polls = true
      · rw [if_pos h1]
        exact Nat.le_succ _
      · rw [if_neg h1]
        by_cases h2 : (!b.writeOk) = true
        · rw [if_pos h2]
          exact Nat.le_succ _
        · rw [if_neg h2]
          have h3 := ih dataEnd
            (progressStep cfg b (accountBlock b (bumpPoll (bumpBlockRead st))))
          have h4 : (progressStep cfg b (accountBlock b (bumpPoll (bumpBlockRead st)))).polls
              = st.polls + 1 := (progressStep_counts cfg b _).1
          omega

theorem extractEntry_polls_le (cfg : ExtCfg) (e : EntryM) (st : ExtSt) :
    st.polls ≤ pollsOf (extractEntry cfg e st) := by
  unfold extractEntry
  by_cases h1 : pollCancelled cfg st.polls = true
  · rw [if_pos h1]
    exact Nat.le_succ _
  · rw [if_neg h1]
    by_cases h2 : (!(strIsPrefix cfg.canonicalTarget e.canonicalResolution)) = true
    · rw [if_pos h2]
      exact Nat.le_succ _
    · rw [if_neg h2]
      by_cases h3 : (!e.headerWriteOk) = true
      · rw [if_pos h3]
        exact Nat.le_succ _
      · rw [if_neg h3]
        have h4 := extractBlocks_polls_le cfg e.blocks e.dataEndStatus
          (appendWrite (entryFullPath cfg e, e.canonicalResolution)
            (bumpPoll (bumpHeaderRead st)))
        have h5 : (appendWrite (entryFullPath cfg e, e.canonicalResolution)
            (bumpPoll (bumpHeaderRead st))).polls = st.polls + 1 := rfl
        omega

theorem extractEntries_polls_le (cfg : ExtCfg) :
    ∀ (entries : List EntryM) (st : ExtSt),
      st.polls ≤ pollsOf (extractEntries cfg entries st) := by
  intro entries
  induction entries with
  | nil =>
      intro st
      exact Nat.le_refl _
  | cons e rest ih =>
      intro st
      cases he : extractEntry cfg e st with
      | error r =>
          rw [extractEntries_cons_error cfg e rest st r he]
          have h1 := extractEntry_polls_le cfg e st
          rw [he] at h1
          exact h1
      | ok st2 =>
          rw [extractEntries_cons_ok cfg e rest st st2 he]
          have h1 := extractEntry_polls_le cfg e st
          rw [he] at h1
          have h2 := ih st2
          have h3 : pollsOf (Except.ok st2) = st2.polls := rfl
          omega

theorem extractEntry_written_mono (cfg : ExtCfg) (e : EntryM) (st : ExtSt) :
    ∃ t, writtenOf (extractEntry cfg e st) = st.written ++ t := by
  unfold extractEntry
  by_cases h1 : pollCancelled cfg st.polls = true
  · rw [if_pos h1]
    exact ⟨[], by rw [List.append_nil]; rfl⟩
  · rw [if_neg h1]
    by_cases h2 : (!(strIsPrefix cfg.canonicalTarget e.canonicalResolution)) = true
    · rw [if_pos h2]
      exact ⟨[], by rw [List.append_nil]; rfl⟩
    · rw [if_neg h2]
      by_cases h3 : (!e.headerWriteOk) = true
      · rw [if_pos h3]
        exact ⟨[], by rw [List.append_nil]; rfl⟩
      · rw [if_neg h3]
        refine ⟨[(entryFullPath cfg e, e.canonicalResolution)], ?_⟩
        rw [extractBlocks_written]
        rfl

theorem extractEntries_written_mono (cfg : ExtCfg) :
    ∀ (entries : List EntryM) (st : ExtSt),
      ∃ t, writtenOf (extractEntries cfg entries st) = st.written ++ t := by
  intro entries
  induction entries with
  | nil =>
      intro st
      exact ⟨[], by rw [List.append_nil]; rfl⟩
  | cons e rest ih =>
      intro st
      cases he : extractEntry cfg e st with
      | error r =>
          obtain ⟨t, ht⟩ := extractEntry_written_mono cfg e st
          rw [he] at ht
          refine ⟨t, ?_⟩
          rw [extractEntries_cons_error cfg e rest st r he]
          exact ht
      | ok st2 =>
          obtain ⟨t1, ht1⟩ := extractEntry_written_mono cfg e st
          rw [he] at ht1
          have ht1x : st2.written = st.written ++ t1 := ht1
          obtain ⟨t2, ht2⟩ := ih st2
          refine ⟨t1 ++ t2, ?_⟩
          rw [extractEntries_cons_ok cfg e rest st st2 he, ht2, ht1x,
            List.append_assoc]

theorem extractLoop_ok_eq (cfg : ExtCfg) (entries : List EntryM) (fhs : AStatus)
    (st : ExtSt) (h : extractEntries cfg entries extInit = Except.ok st) :
    extractLoop cfg entries fhs =
      { success := true, error := none, shaWritten := cfg.wantSha,
        st := finalProgress cfg (bumpHeaderRead st) } := by
  unfold extractLoop
  rw [h]

theorem extractLoop_error_eq (cfg : ExtCfg) (entries : List EntryM) (fhs : AStatus)
    (r : ExtRes) (h : extractEntries cfg entries extInit = Except.error r) :
    extractLoop cfg entries fhs = r := by
  unfold extractLoop
  rw [h]

theorem extractLoop_polls (cfg : ExtCfg) (entries : List EntryM) (fhs : AStatus) :
    (extractLoop cfg entries fhs).st.polls
      = pollsOf (extractEntries cfg entries extInit) := by
  unfold extractLoop
  cases h : extractEntries cfg entries extInit with
  | error r => rfl
  | ok st =>
      show (finalProgress cfg (bumpHeaderRead st)).polls = st.polls
      exact (finalProgress_counts cfg _).1

theorem extractLoop_written (cfg : ExtCfg) (entries : List EntryM) (fhs : AStatus) :
    (extractLoop cfg entries fhs).st.written
      = writtenOf (extractEntries cfg entries extInit) := by
  unfold extractLoop
  cases h : extractEntries cfg entries extInit with
  | error r => rfl
  | ok st =>
      show (finalProgress cfg (bumpHeaderRead st)).written = st.written
      rw [finalProgress_written]
      rfl

theorem extractBlocks_cancel_cmp (cfg : ExtCfg) (hc : cfg.cancelFrom = none) (i : Nat) :
    ∀ (blocks : List BlockM) (dataEnd : AStatus) (st : ExtSt), st.polls ≤ i →
      (extractBlocks { cfg with cancelFrom := some i } blocks dataEnd st
          = extractBlocks cfg blocks dataEnd st
        ∧ pollsOf (extractBlocks cfg blocks dataEnd st) ≤ i)
      ∨ (∃ st1, extractBlocks { cfg with cancelFrom := some i } blocks dataEnd st
            = Except.error (cancelRes st1)
          ∧ st1.polls = i + 1 ∧ st1.written = st.written
          ∧ i < pollsOf (extractBlocks cfg blocks dataEnd st)) := by
  intro blocks
  induction blocks with
  | nil =>
      intro dataEnd st hst
      left
      constructor
      · rfl
      · unfold extractBlocks
        split_ifs <;> exact hst
  | cons b rest ih =>
      intro dataEnd st hst
      by_cases hip : i ≤ st.polls
      · have hieq : st.polls = i := Nat.le_antisymm hst hip
        right
        refine ⟨bumpPoll (bumpBlockRead st), ?_, ?_, rfl, ?_⟩
        · show extractBlocks { cfg with cancelFrom := some i } (b :: rest) dataEnd st
            = Except.error (cancelRes (bumpPoll (bumpBlockRead st)))
          unfold extractBlocks
          rw [if_pos (by rw [pollCancelled_some]; exact decide_eq_true hip)]
        · show st.polls + 1 = i + 1
          omega
        · show i < pollsOf (extractBlocks cfg (b :: rest) dataEnd st)
          unfold extractBlocks
          rw [if_neg (by rw [pollCancelled_none hc]; exact Bool.false_ne_true)]
          by_cases h2 : (!b.writeOk) = true
          · rw [if_pos h2]
            show i < st.polls + 1
            omega
          · rw [if_neg h2]
            have h3 := extractBlocks_polls_le cfg rest dataEnd
              (progressStep cfg b (accountBlock b (bumpPoll (bumpBlockRead st))))
            have h4 : (progressStep cfg b (accountBlock b (bumpPoll (bumpBlockRead st)))).polls
                = st.polls + 1 := (progressStep_counts cfg b _).1
            omega
      · have hlt : st.polls < i := by omega
        have hpcC : pollCancelled { cfg with cancelFrom := some i } st.polls = false := by
          rw [pollCancelled_some]
          exact decide_eq_false (by omega)
        have hpcN : pollCancelled cfg st.polls = false := pollCancelled_none hc st.polls
        have hCne : ¬ pollCancelled { cfg with cancelFrom := some i } st.polls = true := by
          rw [hpcC]
          exact Bool.false_ne_true
        have hNne : ¬ pollCancelled cfg st.polls = true := by
          rw [hpcN]
          exact Bool.false_ne_true
        unfold extractBlocks
        rw [if_neg hCne]
        rw [if_neg hNne]
        by_cases h2 : (!b.writeOk) = true
        · rw [if_pos h2, if_pos h2]
          left
          refine ⟨rfl, ?_⟩
          show st.polls + 1 ≤ i
          omega
        · rw [if_neg h2, if_neg h2]
          rw [progressStep_cancelFrom]
          have h4 : (progressStep cfg b (accountBlock b (bumpPoll (bumpBlockRead st)))).polls
              = st.polls + 1 := (progressStep_counts cfg b _).1
          rcases ih dataEnd (progressStep cfg b (accountBlock b (bumpPoll (bumpBlockRead st))))
              (by omega) with ⟨heq, hle⟩ | ⟨st1, hch, hp1, hw1, hlt1⟩
          · exact Or.inl ⟨heq, hle⟩
          · refine Or.inr ⟨st1, hch, hp1, ?_, hlt1⟩
            rw [hw1, progressStep_written]
            rfl

theorem extractEntry_cancel_cmp (cfg : ExtCfg) (hc : cfg.cancelFrom = none) (i : Nat)
    (e : EntryM) (st : ExtSt) (hst : st.polls ≤ i) :
    (extractEntry { cfg with cancelFrom := some i } e st = extractEntry cfg e st
      ∧ pollsOf (extractEntry cfg e st) ≤ i)
    ∨ (∃ st1, extractEntry { cfg with cancelFrom := some i } e st
          = Except.error (cancelRes st1)
        ∧ st1.polls = i + 1
        ∧ (∃ t, writtenOf (extractEntry cfg e st) = st1.written ++ t)
        ∧ i < pollsOf (extractEntry cfg e st)) := by
  by_cases hip : i ≤ st.polls
  · have hieq : st.polls = i := Nat.le_antisymm hst hip
    right
    refine ⟨bumpPoll (bumpHeaderRead st), ?_, ?_, ?_, ?_⟩
    · show extractEntry { cfg with cancelFrom := some i } e st
        = Except.error (cancelRes (bumpPoll (bumpHeaderRead st)))
      unfold extractEntry
      rw [if_pos (by rw [pollCancelled_some]; exact decide_eq_true hip)]
    · show st.polls + 1 = i + 1
      omega
    · obtain ⟨t, ht⟩ := extractEntry_written_mono cfg e st
      exact ⟨t, ht⟩
    · show i < pollsOf (extractEntry cfg e st)
      unfold extractEntry
      rw [if_neg (by rw [pollCancelled_none hc]; exact Bool.false_ne_true)]
      by_cases h2 : (!(strIsPrefix cfg.canonicalTarget e.canonicalResolution)) = true
      · rw [if_pos h2]
        show i < st.polls + 1
        omega
      · rw [if_neg h2]
        by_cases h3 : (!e.headerWriteOk) = true
        · rw [if_pos h3]
          show i < st.polls + 1
          omega
        · rw [if_neg h3]
          have h4 := extractBlocks_polls_le cfg e.blocks e.dataEndStatus
            (appendWrite (entryFullPath cfg e, e.canonicalResolution)
              (bumpPoll (bumpHeaderRead st)))
          have h5 : (appendWrite (entryFullPath cfg e, e.canonicalResolution)
              (bumpPoll (bumpHeaderRead st))).polls = st.polls + 1 := rfl
          omega
  · have hlt : st.polls < i := by omega
    have hpcC : pollCancelled { cfg with cancelFrom := some i } st.polls = false := by
      rw [pollCancelled_some]
      exact decide_eq_false (by omega)
    have hpcN : pollCancelled cfg st.polls = false := pollCancelled_none hc st.polls
    have hCne : ¬ pollCancelled { cfg with cancelFrom := some i } st.polls = true := by
      rw [hpcC]
      exact Bool.false_ne_true
    have hNne : ¬ pollCancelled cfg st.polls = true := by
      rw [hpcN]
      exact Bool.false_ne_true
    unfold extractEntry
    rw [if_neg hCne]
    rw [if_neg hNne]
    rw [canonicalTarget_cancelFrom cfg (some i)]
    rw [entryFullPath_cancelFrom cfg (some i) e]
    by_cases h2 : (!(strIsPrefix cfg.canonicalTarget e.canonicalResolution)) = true
    · rw [if_pos h2, if_pos h2]
      left
      refine ⟨rfl, ?_⟩
      show st.polls + 1 ≤ i
      omega
    · rw [if_neg h2, if_neg h2]
      by_cases h3 : (!e.headerWriteOk) = true
      · rw [if_pos h3, if_pos h3]
        left
        refine ⟨rfl, ?_⟩
        show st.polls + 1 ≤ i
        omega
      · rw [if_neg h3, if_neg h3]
        have hWp : (appendWrite (entryFullPath cfg e, e.canonicalResolution)
            (bumpPoll (bumpHeaderRead st))).polls ≤ i := by
          show st.polls + 1 ≤ i
          omega
        rcases extractBlocks_cancel_cmp cfg hc i e.blocks e.dataEndStatus
            (appendWrite (entryFullPath cfg e, e.canonicalResolution)
              (bumpPoll (bumpHeaderRead st))) hWp with
          ⟨heq, hle⟩ | ⟨st1, hch, hp1, hw1, hlt1⟩
        · exact Or.inl ⟨heq, hle⟩
        · refine Or.inr ⟨st1, hch, hp1, ⟨[], ?_⟩, hlt1⟩
          rw [extractBlocks_written, hw1, List.append_nil]

theorem extractEntries_cancel_cmp (cfg : ExtCfg) (hc : cfg.cancelFrom = none) (i : Nat) :
    ∀ (entries : List EntryM) (st : ExtSt), st.polls ≤ i →
      (extractEntries { cfg with cancelFrom := some i } entries st
          = extractEntries cfg entries st
        ∧ pollsOf (extractEntries cfg entries st) ≤ i)
      ∨ (∃ st1, extractEntries { cfg with cancelFrom := some i } entries st
            = Except.error (cancelRes st1)
          ∧ st1.polls = i + 1
          ∧ (∃ t, writtenOf (extractEntries cfg entries st) = st1.written ++ t)
          ∧ i < pollsOf (extractEntries cfg entries st)) := by
  intro entries
  induction entries with
  | nil =>
      intro st hst
      exact Or.inl ⟨rfl, hst⟩
  | cons e rest ih =>
      intro st hst
      rcases extractEntry_cancel_cmp cfg hc i e st hst with
        ⟨heq, hle⟩ | ⟨st1, hch, hp1, hw1, hlt1⟩
      · cases hN : extractEntry cfg e st with
        | error r =>
            rw [hN] at heq hle
            rw [extractEntries_cons_error { cfg with cancelFrom := some i } e rest st r heq]
            rw [extractEntries_cons_error cfg e rest st r hN]
            exact Or.inl ⟨rfl, hle⟩
        | ok st2 =>
            rw [hN] at heq hle
            rw [extractEntries_cons_ok { cfg with cancelFrom := some i } e rest st st2 heq]
            rw [extractEntries_cons_ok cfg e rest st st2 hN]
            exact ih st2 hle
      · right
        refine ⟨st1, ?_, hp1, ?_, ?_⟩
        · exact extractEntries_cons_error { cfg with cancelFrom := some i } e rest st
            (cancelRes st1) hch
        · obtain ⟨t0, ht0⟩ := hw1
          cases hN : extractEntry cfg e st with
          | error r =>
              rw [hN] at ht0
              refine ⟨t0, ?_⟩
              rw [extractEntries_cons_error cfg e rest st r hN]
              exact ht0
          | ok st2 =>
              rw [hN] at ht0
              obtain ⟨t2, ht2⟩ := extractEntries_written_mono cfg rest st2
              refine ⟨t0 ++ t2, ?_⟩
              rw [extractEntries_cons_ok cfg e rest st st2 hN, ht2]
              have ht0x : st2.written = st1.written ++ t0 := ht0
              rw [ht0x, List.append_assoc]
        · cases hN : extractEntry cfg e st with
          | error r =>
              rw [hN] at hlt1
              rw [extractEntries_cons_error cfg e rest st r hN]
              exact hlt1
          | ok st2 =>
              rw [hN] at hlt1
              rw [extractEntries_cons_ok cfg e rest st st2 hN]
              have h5 := extractEntries_polls_le cfg rest st2
              have h6 : pollsOf (Except.ok st2) = st2.polls := rfl
              omega

/-! ### Concrete evaluation of the C1 test vectors

The two FIPS 180-4 test vectors are evaluated block by block: the
message schedule and the 64 compression rounds of each padded block
are stepped through one word / one round per lemma, against the
precomputed intermediate values, so that no single proof has to
evaluate a whole block at once. -/

/-- The padded 64-byte block that sha256_final hashes for the Empty message. -/
def padBlockEmpty : List Nat :=
  [128, 0, 0, 0, 0, 0, 0, 0, 0, 0, 0, 0, 0, 0, 0, 0, 0, 0, 0, 0, 0, 0, 0, 0, 0, 0, 0, 0, 0, 0, 0, 0, 0, 0, 0, 0, 0, 0, 0, 0, 0, 0, 0, 0, 0, 0, 0, 0, 0, 0, 0, 0, 0, 0, 0, 0, 0, 0, 0, 0, 0, 0, 0, 0]

/-- The 64-word message schedule of that block, most recent word first. -/
def wsRevEmpty : List Nat :=
  [996066459, 1153231965, 1581412744, 3704256008, 4161330627, 133517113, 1967544444, 43741191, 3526495142, 907775968, 195877528, 369937616, 30329261, 1008022316, 748767245, 3741240933, 1575308336, 3297584367, 614207615, 3286092305, 2975250741, 1562224585, 62000258, 2561075048, 2165675682, 2813755136, 4274181962, 1904000662, 2742808854, 109604294, 676112230, 3287351444, 3374850048, 3594910044, 337794312, 3592562048, 1711282176, 1451269, 4235264, 1476919296, 2147483648, 84448578, 0, 570427392, 0, 2117632, 0, 2147483648, 0, 0, 0, 0, 0, 0, 0, 0, 0, 0, 0, 0, 0, 0, 0, 2147483648]

/-- The 64-word message schedule of that block, in order. -/
def wsEmpty : List Nat :=
  [2147483648, 0, 0, 0, 0, 0, 0, 0, 0, 0, 0, 0, 0, 0, 0, 0, 2147483648, 0, 2117632, 0, 570427392, 0, 84448578, 2147483648, 1476919296, 4235264, 1451269, 1711282176, 3592562048, 337794312, 3594910044, 3374850048, 3287351444, 676112230, 109604294, 2742808854, 1904000662, 4274181962, 2813755136, 2165675682, 2561075048, 62000258, 1562224585, 2975250741, 3286092305, 614207615, 3297584367, 1575308336, 3741240933, 748767245, 1008022316, 30329261, 369937616, 195877528, 907775968, 3526495142, 43741191, 1967544444, 133517113, 4161330627, 3704256008, 1581412744, 1153231965, 996066459]

/-- The round constants paired with the schedule words. -/
def kwEmpty : List (Nat × Nat) :=
  [(1116352408, 2147483648), (1899447441, 0), (3049323471, 0), (3921009573, 0), (961987163, 0), (1508970993, 0), (2453635748, 0), (2870763221, 0), (3624381080, 0), (310598401, 0), (607225278, 0), (1426881987, 0), (1925078388, 0), (2162078206, 0), (2614888103, 0), (3248222580, 0), (3835390401, 2147483648), (4022224774, 0), (264347078, 2117632), (604807628, 0), (770255983, 570427392), (1249150122, 0), (1555081692, 84448578), (1996064986, 2147483648), (2554220882, 1476919296), (2821834349, 4235264), (2952996808, 1451269), (3210313671, 1711282176), (3336571891, 3592562048), (3584528711, 337794312), (113926993, 3594910044), (338241895, 3374850048), (666307205, 3287351444), (773529912, 676112230), (1294757372, 109604294), (1396182291, 2742808854), (1695183700, 1904000662), (1986661051, 4274181962), (2177026350, 2813755136), (2456956037, 2165675682), (2730485921, 2561075048), (2820302411, 62000258), (3259730800, 1562224585), (3345764771, 2975250741), (3516065817, 3286092305), (3600352804, 614207615), (4094571909, 3297584367), (275423344, 1575308336), (430227734, 3741240933), (506948616, 748767245), (659060556, 1008022316), (883997877, 30329261), (958139571, 369937616), (1322822218, 195877528), (1537002063, 907775968), (1747873779, 3526495142), (1955562222, 43741191), (2024104815, 1967544444), (2227730452, 133517113), (2361852424, 4161330627), (2428436474, 3704256008), (2756734187, 1581412744), (3204031479, 1153231965), (3329325298, 996066459)]

/-- The state after compressing that block into the initial state. -/
def stateEmpty : List Nat :=
  [3820012610, 2566659092, 2600203464, 2574235940, 665731556, 1687917388, 2761267483, 2018687061]

theorem schedStepEmpty0 : extendWords 0 (wsRevEmpty.drop 0) = wsRevEmpty := rfl

theorem schedStepEmpty1 :
    extendWords 1 (wsRevEmpty.drop 1) = wsRevEmpty := by
  rw [show (extendWords 1 (wsRevEmpty.drop 1) : List Nat)
      = extendWords 0 (nextWord (wsRevEmpty.drop 1) :: wsRevEmpty.drop 1) from rfl]
  rw [show (nextWord (wsRevEmpty.drop 1) :: wsRevEmpty.drop 1 : List Nat)
      = wsRevEmpty.drop 0 from by decide]
  exact schedStepEmpty0

theorem schedStepEmpty2 :
    extendWords 2 (wsRevEmpty.drop 2) = wsRevEmpty := by
  rw [show (extendWords 2 (wsRevEmpty.drop 2) : List Nat)
      = extendWords 1 (nextWord (wsRevEmpty.drop 2) :: wsRevEmpty.drop 2) from rfl]
  rw [show (nextWord (wsRevEmpty.drop 2) :: wsRevEmpty.drop 2 : List Nat)
      = wsRevEmpty.drop 1 from by decide]
  exact schedStepEmpty1

theorem schedStepEmpty3 :
    extendWords 3 (wsRevEmpty.drop 3) = wsRevEmpty := by
  rw [show (extendWords 3 (wsRevEmpty.drop 3) : List Nat)
      = extendWords 2 (nextWord (wsRevEmpty.drop 3) :: wsRevEmpty.drop 3) from rfl]
  rw [show (nextWord (wsRevEmpty.drop 3) :: wsRevEmpty.drop 3 : List Nat)
      = wsRevEmpty.drop 2 from by decide]
  exact schedStepEmpty2

theorem schedStepEmpty4 :
    extendWords 4 (wsRevEmpty.drop 4) = wsRevEmpty := by
  rw [show (extendWords 4 (wsRevEmpty.drop 4) : List Nat)
      = extendWords 3 (nextWord (wsRevEmpty.drop 4) :: wsRevEmpty.drop 4) from rfl]
  rw [show (nextWord (wsRevEmpty.drop 4) :: wsRevEmpty.drop 4 : List Nat)
      = wsRevEmpty.drop 3 from by decide]
  exact schedStepEmpty3

theorem schedStepEmpty5 :
    extendWords 5 (wsRevEmpty.drop 5) = wsRevEmpty := by
  rw [show (extendWords 5 (wsRevEmpty.drop 5) : List Nat)
      = extendWords 4 (nextWord (wsRevEmpty.drop 5) :: wsRevEmpty.drop 5) from rfl]
  rw [show (nextWord (wsRevEmpty.drop 5) :: wsRevEmpty.drop 5 : List Nat)
      = wsRevEmpty.drop 4 from by decide]
  exact schedStepEmpty4

theorem schedStepEmpty6 :
    extendWords 6 (wsRevEmpty.drop 6) = wsRevEmpty := by
  rw [show (extendWords 6 (wsRevEmpty.drop 6) : List Nat)
      = extendWords 5 (nextWord (wsRevEmpty.drop 6) :: wsRevEmpty.drop 6) from rfl]
  rw [show (nextWord (wsRevEmpty.drop 6) :: wsRevEmpty.drop 6 : List Nat)
      = wsRevEmpty.drop 5 from by decide]
  exact schedStepEmpty5

theorem schedStepEmpty7 :
    extendWords 7 (wsRevEmpty.drop 7) = wsRevEmpty := by
  rw [show (extendWords 7 (wsRevEmpty.drop 7) : List Nat)
      = extendWords 6 (nextWord (wsRevEmpty.drop 7) :: wsRevEmpty.drop 7) from rfl]
  rw [show (nextWord (wsRevEmpty.drop 7) :: wsRevEmpty.drop 7 : List Nat)
      = wsRevEmpty.drop 6 from by decide]
  exact schedStepEmpty6

theorem schedStepEmpty8 :
    extendWords 8 (wsRevEmpty.drop 8) = wsRevEmpty := by
  rw [show (extendWords 8 (wsRevEmpty.drop 8) : List Nat)
      = extendWords 7 (nextWord (wsRevEmpty.drop 8) :: wsRevEmpty.drop 8) from rfl]
  rw [show (nextWord (wsRevEmpty.drop 8) :: wsRevEmpty.drop 8 : List Nat)
      = wsRevEmpty.drop 7 from by decide]
  exact schedStepEmpty7

theorem schedStepEmpty9 :
    extendWords 9 (wsRevEmpty.drop 9) = wsRevEmpty := by
  rw [show (extendWords 9 (wsRevEmpty.drop 9) : List Nat)
      = extendWords 8 (nextWord (wsRevEmpty.drop 9) :: wsRevEmpty.drop 9) from rfl]
  rw [show (nextWord (wsRevEmpty.drop 9) :: wsRevEmpty.drop 9 : List Nat)
      = wsRevEmpty.drop 8 from by decide]
  exact schedStepEmpty8

theorem schedStepEmpty10 :
    extendWords 10 (wsRevEmpty.drop 10) = wsRevEmpty := by
  rw [show (extendWords 10 (wsRevEmpty.drop 10) : List Nat)
      = extendWords 9 (nextWord (wsRevEmpty.drop 10) :: wsRevEmpty.drop 10) from rfl]
  rw [show (nextWord (wsRevEmpty.drop 10) :: wsRevEmpty.drop 10 : List Nat)
      = wsRevEmpty.drop 9 from by decide]
  exact schedStepEmpty9

theorem schedStepEmpty11 :
    extendWords 11 (wsRevEmpty.drop 11) = wsRevEmpty := by
  rw [show (extendWords 11 (wsRevEmpty.drop 11) : List Nat)
      = extendWords 10 (nextWord (wsRevEmpty.drop 11) :: wsRevEmpty.drop 11) from rfl]
  rw [show (nextWord (wsRevEmpty.drop 11) :: wsRevEmpty.drop 11 : List Nat)
      = wsRevEmpty.drop 10 from by decide]
  exact schedStepEmpty10

theorem schedStepEmpty12 :
    extendWords 12 (wsRevEmpty.drop 12) = wsRevEmpty := by
  rw [show (extendWords 12 (wsRevEmpty.drop 12) : List Nat)
      = extendWords 11 (nextWord (wsRevEmpty.drop 12) :: wsRevEmpty.drop 12) from rfl]
  rw [show (nextWord (wsRevEmpty.drop 12) :: wsRevEmpty.drop 12 : List Nat)
      = wsRevEmpty.drop 11 from by decide]
  exact schedStepEmpty11

theorem schedStepEmpty13 :
    extendWords 13 (wsRevEmpty.drop 13) = wsRevEmpty := by
  rw [show (extendWords 13 (wsRevEmpty.drop 13) : List Nat)
      = extendWords 12 (nextWord (wsRevEmpty.drop 13) :: wsRevEmpty.drop 13) from rfl]
  rw [show (nextWord (wsRevEmpty.drop 13) :: wsRevEmpty.drop 13 : List Nat)
      = wsRevEmpty.drop 12 from by decide]
  exact schedStepEmpty12

theorem schedStepEmpty14 :
    extendWords 14 (wsRevEmpty.drop 14) = wsRevEmpty := by
  rw [show (extendWords 14 (wsRevEmpty.drop 14) : List Nat)
      = extendWords 13 (nextWord (wsRevEmpty.drop 14) :: wsRevEmpty.drop 14) from rfl]
  rw [show (nextWord (wsRevEmpty.drop 14) :: wsRevEmpty.drop 14 : List Nat)
      = wsRevEmpty.drop 13 from by decide]
  exact schedStepEmpty13

theorem schedStepEmpty15 :
    extendWords 15 (wsRevEmpty.drop 15) = wsRevEmpty := by
  rw [show (extendWords 15 (wsRevEmpty.drop 15) : List Nat)
      = extendWords 14 (nextWord (wsRevEmpty.drop 15) :: wsRevEmpty.drop 15) from rfl]
  rw [show (nextWord (wsRevEmpty.drop 15) :: wsRevEmpty.drop 15 : List Nat)
      = wsRevEmpty.drop 14 from by decide]
  exact schedStepEmpty14

theorem schedStepEmpty16 :
    extendWords 16 (wsRevEmpty.drop 16) = wsRevEmpty := by
  rw [show (extendWords 16 (wsRevEmpty.drop 16) : List Nat)
      = extendWords 15 (nextWord (wsRevEmpty.drop 16) :: wsRevEmpty.drop 16) from rfl]
  rw [show (nextWord (wsRevEmpty.drop 16) :: wsRevEmpty.drop 16 : List Nat)
      = wsRevEmpty.drop 15 from by decide]
  exact schedStepEmpty15

theorem schedStepEmpty17 :
    extendWords 17 (wsRevEmpty.drop 17) = wsRevEmpty := by
  rw [show (extendWords 17 (wsRevEmpty.drop 17) : List Nat)
      = extendWords 16 (nextWord (wsRevEmpty.drop 17) :: wsRevEmpty.drop 17) from rfl]
  rw [show (nextWord (wsRevEmpty.drop 17) :: wsRevEmpty.drop 17 : List Nat)
      = wsRevEmpty.drop 16 from by decide]
  exact schedStepEmpty16

theorem schedStepEmpty18 :
    extendWords 18 (wsRevEmpty.drop 18) = wsRevEmpty := by
  rw [show (extendWords 18 (wsRevEmpty.drop 18) : List Nat)
      = extendWords 17 (nextWord (wsRevEmpty.drop 18) :: wsRevEmpty.drop 18) from rfl]
  rw [show (nextWord (wsRevEmpty.drop 18) :: wsRevEmpty.drop 18 : List Nat)
      = wsRevEmpty.drop 17 from by decide]
  exact schedStepEmpty17

theorem schedStepEmpty19 :
    extendWords 19 (wsRevEmpty.drop 19) = wsRevEmpty := by
  rw [show (extendWords 19 (wsRevEmpty.drop 19) : List Nat)
      = extendWords 18 (nextWord (wsRevEmpty.drop 19) :: wsRevEmpty.drop 19) from rfl]
  rw [show (nextWord (wsRevEmpty.drop 19) :: wsRevEmpty.drop 19 : List Nat)
      = wsRevEmpty.drop 18 from by decide]
  exact schedStepEmpty18

theorem schedStepEmpty20 :
    extendWords 20 (wsRevEmpty.drop 20) = wsRevEmpty := by
  rw [show (extendWords 20 (wsRevEmpty.drop 20) : List Nat)
      = extendWords 19 (nextWord (wsRevEmpty.drop 20) :: wsRevEmpty.drop 20) from rfl]
  rw [show (nextWord (wsRevEmpty.drop 20) :: wsRevEmpty.drop 20 : List Nat)
      = wsRevEmpty.drop 19 from by decide]
  exact schedStepEmpty19

theorem schedStepEmpty21 :
    extendWords 21 (wsRevEmpty.drop 21) = wsRevEmpty := by
  rw [show (extendWords 21 (wsRevEmpty.drop 21) : List Nat)
      = extendWords 20 (nextWord (wsRevEmpty.drop 21) :: wsRevEmpty.drop 21) from rfl]
  rw [show (nextWord (wsRevEmpty.drop 21) :: wsRevEmpty.drop 21 : List Nat)
      = wsRevEmpty.drop 20 from by decide]
  exact schedStepEmpty20

theorem schedStepEmpty22 :
    extendWords 22 (wsRevEmpty.drop 22) = wsRevEmpty := by
  rw [show (extendWords 22 (wsRevEmpty.drop 22) : List Nat)
      = extendWords 21 (nextWord (wsRevEmpty.drop 22) :: wsRevEmpty.drop 22) from rfl]
  rw [show (nextWord (wsRevEmpty.drop 22) :: wsRevEmpty.drop 22 : List Nat)
      = wsRevEmpty.drop 21 from by decide]
  exact schedStepEmpty21

theorem schedStepEmpty23 :
    extendWords 23 (wsRevEmpty.drop 23) = wsRevEmpty := by
  rw [show (extendWords 23 (wsRevEmpty.drop 23) : List Nat)
      = extendWords 22 (nextWord (wsRevEmpty.drop 23) :: wsRevEmpty.drop 23) from rfl]
  rw [show (nextWord (wsRevEmpty.drop 23) :: wsRevEmpty.drop 23 : List Nat)
      = wsRevEmpty.drop 22 from by decide]
  exact schedStepEmpty22

theorem schedStepEmpty24 :
    extendWords 24 (wsRevEmpty.drop 24) = wsRevEmpty := by
  rw [show (extendWords 24 (wsRevEmpty.drop 24) : List Nat)
      = extendWords 23 (nextWord (wsRevEmpty.drop 24) :: wsRevEmpty.drop 24) from rfl]
  rw [show (nextWord (wsRevEmpty.drop 24) :: wsRevEmpty.drop 24 : List Nat)
      = wsRevEmpty.drop 23 from by decide]
  exact schedStepEmpty23

theorem schedStepEmpty25 :
    extendWords 25 (wsRevEmpty.drop 25) = wsRevEmpty := by
  rw [show (extendWords 25 (wsRevEmpty.drop 25) : List Nat)
      = extendWords 24 (nextWord (wsRevEmpty.drop 25) :: wsRevEmpty.drop 25) from rfl]
  rw [show (nextWord (wsRevEmpty.drop 25) :: wsRevEmpty.drop 25 : List Nat)
      = wsRevEmpty.drop 24 from by decide]
  exact schedStepEmpty24

theorem schedStepEmpty26 :
    extendWords 26 (wsRevEmpty.drop 26) = wsRevEmpty := by
  rw [show (extendWords 26 (wsRevEmpty.drop 26) : List Nat)
      = extendWords 25 (nextWord (wsRevEmpty.drop 26) :: wsRevEmpty.drop 26) from rfl]
  rw [show (nextWord (wsRevEmpty.drop 26) :: wsRevEmpty.drop 26 : List Nat)
      = wsRevEmpty.drop 25 from by decide]
  exact schedStepEmpty25

theorem schedStepEmpty27 :
    extendWords 27 (wsRevEmpty.drop 27) = wsRevEmpty := by
  rw [show (extendWords 27 (wsRevEmpty.drop 27) : List Nat)
      = extendWords 26 (nextWord (wsRevEmpty.drop 27) :: wsRevEmpty.drop 27) from rfl]
  rw [show (nextWord (wsRevEmpty.drop 27) :: wsRevEmpty.drop 27 : List Nat)
      = wsRevEmpty.drop 26 from by decide]
  exact schedStepEmpty26

theorem schedStepEmpty28 :
    extendWords 28 (wsRevEmpty.drop 28) = wsRevEmpty := by
  rw [show (extendWords 28 (wsRevEmpty.drop 28) : List Nat)
      = extendWords 27 (nextWord (wsRevEmpty.drop 28) :: wsRevEmpty.drop 28) from rfl]
  rw [show (nextWord (wsRevEmpty.drop 28) :: wsRevEmpty.drop 28 : List Nat)
      = wsRevEmpty.drop 27 from by decide]
  exact schedStepEmpty27

theorem schedStepEmpty29 :
    extendWords 29 (wsRevEmpty.drop 29) = wsRevEmpty := by
  rw [show (extendWords 29 (wsRevEmpty.drop 29) : List Nat)
      = extendWords 28 (nextWord (wsRevEmpty.drop 29) :: wsRevEmpty.drop 29) from rfl]
  rw [show (nextWord (wsRevEmpty.drop 29) :: wsRevEmpty.drop 29 : List Nat)
      = wsRevEmpty.drop 28 from by decide]
  exact schedStepEmpty28

theorem schedStepEmpty30 :
    extendWords 30 (wsRevEmpty.drop 30) = wsRevEmpty := by
  rw [show (extendWords 30 (wsRevEmpty.drop 30) : List Nat)
      = extendWords 29 (nextWord (wsRevEmpty.drop 30) :: wsRevEmpty.drop 30) from rfl]
  rw [show (nextWord (wsRevEmpty.drop 30) :: wsRevEmpty.drop 30 : List Nat)
      = wsRevEmpty.drop 29 from by decide]
  exact schedStepEmpty29

theorem schedStepEmpty31 :
    extendWords 31 (wsRevEmpty.drop 31) = wsRevEmpty := by
  rw [show (extendWords 31 (wsRevEmpty.drop 31) : List Nat)
      = extendWords 30 (nextWord (wsRevEmpty.drop 31) :: wsRevEmpty.drop 31) from rfl]
  rw [show (nextWord (wsRevEmpty.drop 31) :: wsRevEmpty.drop 31 : List Nat)
      = wsRevEmpty.drop 30 from by decide]
  exact schedStepEmpty30

theorem schedStepEmpty32 :
    extendWords 32 (wsRevEmpty.drop 32) = wsRevEmpty := by
  rw [show (extendWords 32 (wsRevEmpty.drop 32) : List Nat)
      = extendWords 31 (nextWord (wsRevEmpty.drop 32) :: wsRevEmpty.drop 32) from rfl]
  rw [show (nextWord (wsRevEmpty.drop 32) :: wsRevEmpty.drop 32 : List Nat)
      = wsRevEmpty.drop 31 from by decide]
  exact schedStepEmpty31

theorem schedStepEmpty33 :
    extendWords 33 (wsRevEmpty.drop 33) = wsRevEmpty := by
  rw [show (extendWords 33 (wsRevEmpty.drop 33) : List Nat)
      = extendWords 32 (nextWord (wsRevEmpty.drop 33) :: wsRevEmpty.drop 33) from rfl]
  rw [show (nextWord (wsRevEmpty.drop 33) :: wsRevEmpty.drop 33 : List Nat)
      = wsRevEmpty.drop 32 from by decide]
  exact schedStepEmpty32

theorem schedStepEmpty34 :
    extendWords 34 (wsRevEmpty.drop 34) = wsRevEmpty := by
  rw [show (extendWords 34 (wsRevEmpty.drop 34) : List Nat)
      = extendWords 33 (nextWord (wsRevEmpty.drop 34) :: wsRevEmpty.drop 34) from rfl]
  rw [show (nextWord (wsRevEmpty.drop 34) :: wsRevEmpty.drop 34 : List Nat)
      = wsRevEmpty.drop 33 from by decide]
  exact schedStepEmpty33

theorem schedStepEmpty35 :
    extendWords 35 (wsRevEmpty.drop 35) = wsRevEmpty := by
  rw [show (extendWords 35 (wsRevEmpty.drop 35) : List Nat)
      = extendWords 34 (nextWord (wsRevEmpty.drop 35) :: wsRevEmpty.drop 35) from rfl]
  rw [show (nextWord (wsRevEmpty.drop 35) :: wsRevEmpty.drop 35 : List Nat)
      = wsRevEmpty.drop 34 from by decide]
  exact schedStepEmpty34

theorem schedStepEmpty36 :
    extendWords 36 (wsRevEmpty.drop 36) = wsRevEmpty := by
  rw [show (extendWords 36 (wsRevEmpty.drop 36) : List Nat)
      = extendWords 35 (nextWord (wsRevEmpty.drop 36) :: wsRevEmpty.drop 36) from rfl]
  rw [show (nextWord (wsRevEmpty.drop 36) :: wsRevEmpty.drop 36 : List Nat)
      = wsRevEmpty.drop 35 from by decide]
  exact schedStepEmpty35

theorem schedStepEmpty37 :
    extendWords 37 (wsRevEmpty.drop 37) = wsRevEmpty := by
  rw [show (extendWords 37 (wsRevEmpty.drop 37) : List Nat)
      = extendWords 36 (nextWord (wsRevEmpty.drop 37) :: wsRevEmpty.drop 37) from rfl]
  rw [show (nextWord (wsRevEmpty.drop 37) :: wsRevEmpty.drop 37 : List Nat)
      = wsRevEmpty.drop 36 from by decide]
  exact schedStepEmpty36

theorem schedStepEmpty38 :
    extendWords 38 (wsRevEmpty.drop 38) = wsRevEmpty := by
  rw [show (extendWords 38 (wsRevEmpty.drop 38) : List Nat)
      = extendWords 37 (nextWord (wsRevEmpty.drop 38) :: wsRevEmpty.drop 38) from rfl]
  rw [show (nextWord (wsRevEmpty.drop 38) :: wsRevEmpty.drop 38 : List Nat)
      = wsRevEmpty.drop 37 from by decide]
  exact schedStepEmpty37

theorem schedStepEmpty39 :
    extendWords 39 (wsRevEmpty.drop 39) = wsRevEmpty := by
  rw [show (extendWords 39 (wsRevEmpty.drop 39) : List Nat)
      = extendWords 38 (nextWord (wsRevEmpty.drop 39) :: wsRevEmpty.drop 39) from rfl]
  rw [show (nextWord (wsRevEmpty.drop 39) :: wsRevEmpty.drop 39 : List Nat)
      = wsRevEmpty.drop 38 from by decide]
  exact schedStepEmpty38

theorem schedStepEmpty40 :
    extendWords 40 (wsRevEmpty.drop 40) = wsRevEmpty := by
  rw [show (extendWords 40 (wsRevEmpty.drop 40) : List Nat)
      = extendWords 39 (nextWord (wsRevEmpty.drop 40) :: wsRevEmpty.drop 40) from rfl]
  rw [show (nextWord (wsRevEmpty.drop 40) :: wsRevEmpty.drop 40 : List Nat)
      = wsRevEmpty.drop 39 from by decide]
  exact schedStepEmpty39

theorem schedStepEmpty41 :
    extendWords 41 (wsRevEmpty.drop 41) = wsRevEmpty := by
  rw [show (extendWords 41 (wsRevEmpty.drop 41) : List Nat)
      = extendWords 40 (nextWord (wsRevEmpty.drop 41) :: wsRevEmpty.drop 41) from rfl]
  rw [show (nextWord (wsRevEmpty.drop 41) :: wsRevEmpty.drop 41 : List Nat)
      = wsRevEmpty.drop 40 from by decide]
  exact schedStepEmpty40

theorem schedStepEmpty42 :
    extendWords 42 (wsRevEmpty.drop 42) = wsRevEmpty := by
  rw [show (extendWords 42 (wsRevEmpty.drop 42) : List Nat)
      = extendWords 41 (nextWord (wsRevEmpty.drop 42) :: wsRevEmpty.drop 42) from rfl]
  rw [show (nextWord (wsRevEmpty.drop 42) :: wsRevEmpty.drop 42 : List Nat)
      = wsRevEmpty.drop 41 from by decide]
  exact schedStepEmpty41

theorem schedStepEmpty43 :
    extendWords 43 (wsRevEmpty.drop 43) = wsRevEmpty := by
  rw [show (extendWords 43 (wsRevEmpty.drop 43) : List Nat)
      = extendWords 42 (nextWord (wsRevEmpty.drop 43) :: wsRevEmpty.drop 43) from rfl]
  rw [show (nextWord (wsRevEmpty.drop 43) :: wsRevEmpty.drop 43 : List Nat)
      = wsRevEmpty.drop 42 from by decide]
  exact schedStepEmpty42

theorem schedStepEmpty44 :
    extendWords 44 (wsRevEmpty.drop 44) = wsRevEmpty := by
  rw [show (extendWords 44 (wsRevEmpty.drop 44) : List Nat)
      = extendWords 43 (nextWord (wsRevEmpty.drop 44) :: wsRevEmpty.drop 44) from rfl]
  rw [show (nextWord (wsRevEmpty.drop 44) :: wsRevEmpty.drop 44 : List Nat)
      = wsRevEmpty.drop 43 from by decide]
  exact schedStepEmpty43

theorem schedStepEmpty45 :
    extendWords 45 (wsRevEmpty.drop 45) = wsRevEmpty := by
  rw [show (extendWords 45 (wsRevEmpty.drop 45) : List Nat)
      = extendWords 44 (nextWord (wsRevEmpty.drop 45) :: wsRevEmpty.drop 45) from rfl]
  rw [show (nextWord (wsRevEmpty.drop 45) :: wsRevEmpty.drop 45 : List Nat)
      = wsRevEmpty.drop 44 from by decide]
  exact schedStepEmpty44

theorem schedStepEmpty46 :
    extendWords 46 (wsRevEmpty.drop 46) = wsRevEmpty := by
  rw [show (extendWords 46 (wsRevEmpty.drop 46) : List Nat)
      = extendWords 45 (nextWord (wsRevEmpty.drop 46) :: wsRevEmpty.drop 46) from rfl]
  rw [show (nextWord (wsRevEmpty.drop 46) :: wsRevEmpty.drop 46 : List Nat)
      = wsRevEmpty.drop 45 from by decide]
  exact schedStepEmpty45

theorem schedStepEmpty47 :
    extendWords 47 (wsRevEmpty.drop 47) = wsRevEmpty := by
  rw [show (extendWords 47 (wsRevEmpty.drop 47) : List Nat)
      = extendWords 46 (nextWord (wsRevEmpty.drop 47) :: wsRevEmpty.drop 47) from rfl]
  rw [show (nextWord (wsRevEmpty.drop 47) :: wsRevEmpty.drop 47 : List Nat)
      = wsRevEmpty.drop 46 from by decide]
  exact schedStepEmpty46

theorem schedStepEmpty48 :
    extendWords 48 (wsRevEmpty.drop 48) = wsRevEmpty := by
  rw [show (extendWords 48 (wsRevEmpty.drop 48) : List Nat)
      = extendWords 47 (nextWord (wsRevEmpty.drop 48) :: wsRevEmpty.drop 48) from rfl]
  rw [show (nextWord (wsRevEmpty.drop 48) :: wsRevEmpty.drop 48 : List Nat)
      = wsRevEmpty.drop 47 from by decide]
  exact schedStepEmpty47

theorem schedEvalEmpty : messageSchedule padBlockEmpty = wsEmpty := by
  show (extendWords 48 ((initialWords padBlockEmpty).reverse)).reverse = wsEmpty
  rw [show ((initialWords padBlockEmpty).reverse : List Nat) = wsRevEmpty.drop 48 from by decide]
  rw [schedStepEmpty48]
  decide

theorem roundStepEmpty64 :
    List.foldl (fun r kw => sha256Round r kw.1 kw.2) (⟨2040978907, 3717492111, 1586299222, 4095722474, 3600805733, 3382061760, 2232532848, 477227836⟩ : Sha256Regs)
      (kwEmpty.drop 64) = ⟨2040978907, 3717492111, 1586299222, 4095722474, 3600805733, 3382061760, 2232532848, 477227836⟩ := by
  rw [show (kwEmpty.drop 64 : List (Nat × Nat)) = [] from by decide]
  rfl

theorem roundStepEmpty63 :
    List.foldl (fun r kw => sha256Round r kw.1 kw.2) (⟨3717492111, 1586299222, 4095722474, 71572494, 3382061760, 2232532848, 477227836, 2867830852⟩ : Sha256Regs)
      (kwEmpty.drop 63) = ⟨2040978907, 3717492111, 1586299222, 4095722474, 3600805733, 3382061760, 2232532848, 477227836⟩ := by
  rw [show (kwEmpty.drop 63 : List (Nat × Nat))
      = (3329325298, 996066459) :: kwEmpty.drop 64 from by decide]
  rw [List.foldl_cons]
  rw [show (sha256Round (⟨3717492111, 1586299222, 4095722474, 71572494, 3382061760, 2232532848, 477227836, 2867830852⟩ : Sha256Regs)
      (3329325298, 996066459).1 (3329325298, 996066459).2 : Sha256Regs)
      = ⟨2040978907, 3717492111, 1586299222, 4095722474, 3600805733, 3382061760, 2232532848, 477227836⟩ from by decide]
  exact roundStepEmpty64

theorem roundStepEmpty62 :
    List.foldl (fun r kw => sha256Round r kw.1 kw.2) (⟨1586299222, 4095722474, 71572494, 3911429062, 2232532848, 477227836, 2867830852, 148956906⟩ : Sha256Regs)
      (kwEmpty.drop 62) = ⟨2040978907, 3717492111, 1586299222, 4095722474, 3600805733, 3382061760, 2232532848, 477227836⟩ := by
  rw [show (kwEmpty.drop 62 : List (Nat × Nat))
      = (3204031479, 1153231965) :: kwEmpty.drop 63 from by decide]
  rw [List.foldl_cons]
  rw [show (sha256Round (⟨1586299222, 4095722474, 71572494, 3911429062, 2232532848, 477227836, 2867830852, 148956906⟩ : Sha256Regs)
      (3204031479, 1153231965).1 (3204031479, 1153231965).2 : Sha256Regs)
      = ⟨3717492111, 1586299222, 4095722474, 71572494, 3382061760, 2232532848, 477227836, 2867830852⟩ from by decide]
  exact roundStepEmpty63

theorem roundStepEmpty61 :
    List.foldl (fun r kw => sha256Round r kw.1 kw.2) (⟨4095722474, 71572494, 3911429062, 3891021244, 477227836, 2867830852, 148956906, 3802734300⟩ : Sha256Regs)
      (kwEmpty.drop 61) = ⟨2040978907, 3717492111, 1586299222, 4095722474, 3600805733, 3382061760, 2232532848, 477227836⟩ := by
  rw [show (kwEmpty.drop 61 : List (Nat × Nat))
      = (2756734187, 1581412744) :: kwEmpty.drop 62 from by decide]
  rw [List.foldl_cons]
  rw [show (sha256Round (⟨4095722474, 71572494, 3911429062, 3891021244, 477227836, 2867830852, 148956906, 3802734300⟩ : Sha256Regs)
      (2756734187, 1581412744).1 (2756734187, 1581412744).2 : Sha256Regs)
      = ⟨1586299222, 4095722474, 71572494, 3911429062, 2232532848, 477227836, 2867830852, 148956906⟩ from by decide]
  exact roundStepEmpty62

theorem roundStepEmpty60 :
    List.foldl (fun r kw => sha256Round r kw.1 kw.2) (⟨71572494, 3911429062, 3891021244, 2126991890, 2867830852, 148956906, 3802734300, 2035393328⟩ : Sha256Regs)
      (kwEmpty.drop 60) = ⟨2040978907, 3717492111, 1586299222, 4095722474, 3600805733, 3382061760, 2232532848, 477227836⟩ := by
  rw [show (kwEmpty.drop 60 : List (Nat × Nat))
      = (2428436474, 3704256008) :: kwEmpty.drop 61 from by decide]
  rw [List.foldl_cons]
  rw [show (sha256Round (⟨71572494, 3911429062, 3891021244, 2126991890, 2867830852, 148956906, 3802734300, 2035393328⟩ : Sha256Regs)
      (2428436474, 3704256008).1 (2428436474, 3704256008).2 : Sha256Regs)
      = ⟨4095722474, 71572494, 3911429062, 3891021244, 477227836, 2867830852, 148956906, 3802734300⟩ from by decide]
  exact roundStepEmpty61

theorem roundStepEmpty59 :
    List.foldl (fun r kw => sha256Round r kw.1 kw.2) (⟨3911429062, 3891021244, 2126991890, 23298068, 148956906, 3802734300, 2035393328, 2918796810⟩ : Sha256Regs)
      (kwEmpty.drop 59) = ⟨2040978907, 3717492111, 1586299222, 4095722474, 3600805733, 3382061760, 2232532848, 477227836⟩ := by
  rw [show (kwEmpty.drop 59 : List (Nat × Nat))
      = (2361852424, 4161330627) :: kwEmpty.drop 60 from by decide]
  rw [List.foldl_cons]
  rw [show (sha256Round (⟨3911429062, 3891021244, 2126991890, 23298068, 148956906, 3802734300, 2035393328, 2918796810⟩ : Sha256Regs)
      (2361852424, 4161330627).1 (2361852424, 4161330627).2 : Sha256Regs)
      = ⟨71572494, 3911429062, 3891021244, 2126991890, 2867830852, 148956906, 3802734300, 2035393328⟩ from by decide]
  exact roundStepEmpty60

theorem roundStepEmpty58 :
    List.foldl (fun r kw => sha256Round r kw.1 kw.2) (⟨3891021244, 2126991890, 23298068, 749689034, 3802734300, 2035393328, 2918796810, 3850954136⟩ : Sha256Regs)
      (kwEmpty.drop 58) = ⟨2040978907, 3717492111, 1586299222, 4095722474, 3600805733, 3382061760, 2232532848, 477227836⟩ := by
  rw [show (kwEmpty.drop 58 : List (Nat × Nat))
      = (2227730452, 133517113) :: kwEmpty.drop 59 from by decide]
  rw [List.foldl_cons]
  rw [show (sha256Round (⟨3891021244, 2126991890, 23298068, 749689034, 3802734300, 2035393328, 2918796810, 3850954136⟩ : Sha256Regs)
      (2227730452, 133517113).1 (2227730452, 133517113).2 : Sha256Regs)
      = ⟨3911429062, 3891021244, 2126991890, 23298068, 148956906, 3802734300, 2035393328, 2918796810⟩ from by decide]
  exact roundStepEmpty59

theorem roundStepEmpty57 :
    List.foldl (fun r kw => sha256Round r kw.1 kw.2) (⟨2126991890, 23298068, 749689034, 974034039, 2035393328, 2918796810, 3850954136, 4254700398⟩ : Sha256Regs)
      (kwEmpty.drop 57) = ⟨2040978907, 3717492111, 1586299222, 4095722474, 3600805733, 3382061760, 2232532848, 477227836⟩ := by
  rw [show (kwEmpty.drop 57 : List (Nat × Nat))
      = (2024104815, 1967544444) :: kwEmpty.drop 58 from by decide]
  rw [List.foldl_cons]
  rw [show (sha256Round (⟨2126991890, 23298068, 749689034, 974034039, 2035393328, 2918796810, 3850954136, 4254700398⟩ : Sha256Regs)
      (2024104815, 1967544444).1 (2024104815, 1967544444).2 : Sha256Regs)
      = ⟨3891021244, 2126991890, 23298068, 749689034, 3802734300, 2035393328, 2918796810, 3850954136⟩ from by decide]
  exact roundStepEmpty58

theorem roundStepEmpty56 :
    List.foldl (fun r kw => sha256Round r kw.1 kw.2) (⟨23298068, 749689034, 974034039, 2981272720, 2918796810, 3850954136, 4254700398, 1134943992⟩ : Sha256Regs)
      (kwEmpty.drop 56) = ⟨2040978907, 3717492111, 1586299222, 4095722474, 3600805733, 3382061760, 2232532848, 477227836⟩ := by
  rw [show (kwEmpty.drop 56 : List (Nat × Nat))
      = (1955562222, 43741191) :: kwEmpty.drop 57 from by decide]
  rw [List.foldl_cons]
  rw [show (sha256Round (⟨23298068, 749689034, 974034039, 2981272720, 2918796810, 3850954136, 4254700398, 1134943992⟩ : Sha256Regs)
      (1955562222, 43741191).1 (1955562222, 43741191).2 : Sha256Regs)
      = ⟨2126991890, 23298068, 749689034, 974034039, 2035393328, 2918796810, 3850954136, 4254700398⟩ from by decide]
  exact roundStepEmpty57

theorem roundStepEmpty55 :
    List.foldl (fun r kw => sha256Round r kw.1 kw.2) (⟨749689034, 974034039, 2981272720, 3579709122, 3850954136, 4254700398, 1134943992, 2710884687⟩ : Sha256Regs)
      (kwEmpty.drop 55) = ⟨2040978907, 3717492111, 1586299222, 4095722474, 3600805733, 3382061760, 2232532848, 477227836⟩ := by
  rw [show (kwEmpty.drop 55 : List (Nat × Nat))
      = (1747873779, 3526495142) :: kwEmpty.drop 56 from by decide]
  rw [List.foldl_cons]
  rw [show (sha256Round (⟨749689034, 974034039, 2981272720, 3579709122, 3850954136, 4254700398, 1134943992, 2710884687⟩ : Sha256Regs)
      (1747873779, 3526495142).1 (1747873779, 3526495142).2 : Sha256Regs)
      = ⟨23298068, 749689034, 974034039, 2981272720, 2918796810, 3850954136, 4254700398, 1134943992⟩ from by decide]
  exact roundStepEmpty56

theorem roundStepEmpty54 :
    List.foldl (fun r kw => sha256Round r kw.1 kw.2) (⟨974034039, 2981272720, 3579709122, 3244542753, 4254700398, 1134943992, 2710884687, 906398686⟩ : Sha256Regs)
      (kwEmpty.drop 54) = ⟨2040978907, 3717492111, 1586299222, 4095722474, 3600805733, 3382061760, 2232532848, 477227836⟩ := by
  rw [show (kwEmpty.drop 54 : List (Nat × Nat))
      = (1537002063, 907775968) :: kwEmpty.drop 55 from by decide]
  rw [List.foldl_cons]
  rw [show (sha256Round (⟨974034039, 2981272720, 3579709122, 3244542753, 4254700398, 1134943992, 2710884687, 906398686⟩ : Sha256Regs)
      (1537002063, 907775968).1 (1537002063, 907775968).2 : Sha256Regs)
      = ⟨749689034, 974034039, 2981272720, 3579709122, 3850954136, 4254700398, 1134943992, 2710884687⟩ from by decide]
  exact roundStepEmpty55

theorem roundStepEmpty53 :
    List.foldl (fun r kw => sha256Round r kw.1 kw.2) (⟨2981272720, 3579709122, 3244542753, 2543384045, 1134943992, 2710884687, 906398686, 3909789552⟩ : Sha256Regs)
      (kwEmpty.drop 53) = ⟨2040978907, 3717492111, 1586299222, 4095722474, 3600805733, 3382061760, 2232532848, 477227836⟩ := by
  rw [show (kwEmpty.drop 53 : List (Nat × Nat))
      = (1322822218, 195877528) :: kwEmpty.drop 54 from by decide]
  rw [List.foldl_cons]
  rw [show (sha256Round (⟨2981272720, 3579709122, 3244542753, 2543384045, 1134943992, 2710884687, 906398686, 3909789552⟩ : Sha256Regs)
      (1322822218, 195877528).1 (1322822218, 195877528).2 : Sha256Regs)
      = ⟨974034039, 2981272720, 3579709122, 3244542753, 4254700398, 1134943992, 2710884687, 906398686⟩ from by decide]
  exact roundStepEmpty54

theorem roundStepEmpty52 :
    List.foldl (fun r kw => sha256Round r kw.1 kw.2) (⟨3579709122, 3244542753, 2543384045, 1655188062, 2710884687, 906398686, 3909789552, 1286303114⟩ : Sha256Regs)
      (kwEmpty.drop 52) = ⟨2040978907, 3717492111, 1586299222, 4095722474, 3600805733, 3382061760, 2232532848, 477227836⟩ := by
  rw [show (kwEmpty.drop 52 : List (Nat × Nat))
      = (958139571, 369937616) :: kwEmpty.drop 53 from by decide]
  rw [List.foldl_cons]
  rw [show (sha256Round (⟨3579709122, 3244542753, 2543384045, 1655188062, 2710884687, 906398686, 3909789552, 1286303114⟩ : Sha256Regs)
      (958139571, 369937616).1 (958139571, 369937616).2 : Sha256Regs)
      = ⟨2981272720, 3579709122, 3244542753, 2543384045, 1134943992, 2710884687, 906398686, 3909789552⟩ from by decide]
  exact roundStepEmpty53

theorem roundStepEmpty51 :
    List.foldl (fun r kw => sha256Round r kw.1 kw.2) (⟨3244542753, 2543384045, 1655188062, 911881421, 906398686, 3909789552, 1286303114, 3417569515⟩ : Sha256Regs)
      (kwEmpty.drop 51) = ⟨2040978907, 3717492111, 1586299222, 4095722474, 3600805733, 3382061760, 2232532848, 477227836⟩ := by
  rw [show (kwEmpty.drop 51 : List (Nat × Nat))
      = (883997877, 30329261) :: kwEmpty.drop 52 from by decide]
  rw [List.foldl_cons]
  rw [show (sha256Round (⟨3244542753, 2543384045, 1655188062, 911881421, 906398686, 3909789552, 1286303114, 3417569515⟩ : Sha256Regs)
      (883997877, 30329261).1 (883997877, 30329261).2 : Sha256Regs)
      = ⟨3579709122, 3244542753, 2543384045, 1655188062, 2710884687, 906398686, 3909789552, 1286303114⟩ from by decide]
  exact roundStepEmpty52

theorem roundStepEmpty50 :
    List.foldl (fun r kw => sha256Round r kw.1 kw.2) (⟨2543384045, 1655188062, 911881421, 1419259244, 3909789552, 1286303114, 3417569515, 2322236082⟩ : Sha256Regs)
      (kwEmpty.drop 50) = ⟨2040978907, 3717492111, 1586299222, 4095722474, 3600805733, 3382061760, 2232532848, 477227836⟩ := by
  rw [show (kwEmpty.drop 50 : List (Nat × Nat))
      = (659060556, 1008022316) :: kwEmpty.drop 51 from by decide]
  rw [List.foldl_cons]
  rw [show (sha256Round (⟨2543384045, 1655188062, 911881421, 1419259244, 3909789552, 1286303114, 3417569515, 2322236082⟩ : Sha256Regs)
      (659060556, 1008022316).1 (659060556, 1008022316).2 : Sha256Regs)
      = ⟨3244542753, 2543384045, 1655188062, 911881421, 906398686, 3909789552, 1286303114, 3417569515⟩ from by decide]
  exact roundStepEmpty51

theorem roundStepEmpty49 :
    List.foldl (fun r kw => sha256Round r kw.1 kw.2) (⟨1655188062, 911881421, 1419259244, 855262251, 1286303114, 3417569515, 2322236082, 3531982457⟩ : Sha256Regs)
      (kwEmpty.drop 49) = ⟨2040978907, 3717492111, 1586299222, 4095722474, 3600805733, 3382061760, 2232532848, 477227836⟩ := by
  rw [show (kwEmpty.drop 49 : List (Nat × Nat))
      = (506948616, 748767245) :: kwEmpty.drop 50 from by decide]
  rw [List.foldl_cons]
  rw [show (sha256Round (⟨1655188062, 911881421, 1419259244, 855262251, 1286303114, 3417569515, 2322236082, 3531982457⟩ : Sha256Regs)
      (506948616, 748767245).1 (506948616, 748767245).2 : Sha256Regs)
      = ⟨2543384045, 1655188062, 911881421, 1419259244, 3909789552, 1286303114, 3417569515, 2322236082⟩ from by decide]
  exact roundStepEmpty50

theorem roundStepEmpty48 :
    List.foldl (fun r kw => sha256Round r kw.1 kw.2) (⟨911881421, 1419259244, 855262251, 2752082644, 3417569515, 2322236082, 3531982457, 2855016464⟩ : Sha256Regs)
      (kwEmpty.drop 48) = ⟨2040978907, 3717492111, 1586299222, 4095722474, 3600805733, 3382061760, 2232532848, 477227836⟩ := by
  rw [show (kwEmpty.drop 48 : List (Nat × Nat))
      = (430227734, 3741240933) :: kwEmpty.drop 49 from by decide]
  rw [List.foldl_cons]
  rw [show (sha256Round (⟨911881421, 1419259244, 855262251, 2752082644, 3417569515, 2322236082, 3531982457, 2855016464⟩ : Sha256Regs)
      (430227734, 3741240933).1 (430227734, 3741240933).2 : Sha256Regs)
      = ⟨1655188062, 911881421, 1419259244, 855262251, 1286303114, 3417569515, 2322236082, 3531982457⟩ from by decide]
  exact roundStepEmpty49

theorem roundStepEmpty47 :
    List.foldl (fun r kw => sha256Round r kw.1 kw.2) (⟨1419259244, 855262251, 2752082644, 3907209042, 2322236082, 3531982457, 2855016464, 692219050⟩ : Sha256Regs)
      (kwEmpty.drop 47) = ⟨2040978907, 3717492111, 1586299222, 4095722474, 3600805733, 3382061760, 2232532848, 477227836⟩ := by
  rw [show (kwEmpty.drop 47 : List (Nat × Nat))
      = (275423344, 1575308336) :: kwEmpty.drop 48 from by decide]
  rw [List.foldl_cons]
  rw [show (sha256Round (⟨1419259244, 855262251, 2752082644, 3907209042, 2322236082, 3531982457, 2855016464, 692219050⟩ : Sha256Regs)
      (275423344, 1575308336).1 (275423344, 1575308336).2 : Sha256Regs)
      = ⟨911881421, 1419259244, 855262251, 2752082644, 3417569515, 2322236082, 3531982457, 2855016464⟩ from by decide]
  exact roundStepEmpty48

theorem roundStepEmpty46 :
    List.foldl (fun r kw => sha256Round r kw.1 kw.2) (⟨855262251, 2752082644, 3907209042, 3686090155, 3531982457, 2855016464, 692219050, 3762306745⟩ : Sha256Regs)
      (kwEmpty.drop 46) = ⟨2040978907, 3717492111, 1586299222, 4095722474, 3600805733, 3382061760, 2232532848, 477227836⟩ := by
  rw [show (kwEmpty.drop 46 : List (Nat × Nat))
      = (4094571909, 3297584367) :: kwEmpty.drop 47 from by decide]
  rw [List.foldl_cons]
  rw [show (sha256Round (⟨855262251, 2752082644, 3907209042, 3686090155, 3531982457, 2855016464, 692219050, 3762306745⟩ : Sha256Regs)
      (4094571909, 3297584367).1 (4094571909, 3297584367).2 : Sha256Regs)
      = ⟨1419259244, 855262251, 2752082644, 3907209042, 2322236082, 3531982457, 2855016464, 692219050⟩ from by decide]
  exact roundStepEmpty47

theorem roundStepEmpty45 :
    List.foldl (fun r kw => sha256Round r kw.1 kw.2) (⟨2752082644, 3907209042, 3686090155, 580450446, 2855016464, 692219050, 3762306745, 4123364073⟩ : Sha256Regs)
      (kwEmpty.drop 45) = ⟨2040978907, 3717492111, 1586299222, 4095722474, 3600805733, 3382061760, 2232532848, 477227836⟩ := by
  rw [show (kwEmpty.drop 45 : List (Nat × Nat))
      = (3600352804, 614207615) :: kwEmpty.drop 46 from by decide]
  rw [List.foldl_cons]
  rw [show (sha256Round (⟨2752082644, 3907209042, 3686090155, 580450446, 2855016464, 692219050, 3762306745, 4123364073⟩ : Sha256Regs)
      (3600352804, 614207615).1 (3600352804, 614207615).2 : Sha256Regs)
      = ⟨855262251, 2752082644, 3907209042, 3686090155, 3531982457, 2855016464, 692219050, 3762306745⟩ from by decide]
  exact roundStepEmpty46

theorem roundStepEmpty44 :
    List.foldl (fun r kw => sha256Round r kw.1 kw.2) (⟨3907209042, 3686090155, 580450446, 4270245939, 692219050, 3762306745, 4123364073, 2224585183⟩ : Sha256Regs)
      (kwEmpty.drop 44) = ⟨2040978907, 3717492111, 1586299222, 4095722474, 3600805733, 3382061760, 2232532848, 477227836⟩ := by
  rw [show (kwEmpty.drop 44 : List (Nat × Nat))
      = (3516065817, 3286092305) :: kwEmpty.drop 45 from by decide]
  rw [List.foldl_cons]
  rw [show (sha256Round (⟨3907209042, 3686090155, 580450446, 4270245939, 692219050, 3762306745, 4123364073, 2224585183⟩ : Sha256Regs)
      (3516065817, 3286092305).1 (3516065817, 3286092305).2 : Sha256Regs)
      = ⟨2752082644, 3907209042, 3686090155, 580450446, 2855016464, 692219050, 3762306745, 4123364073⟩ from by decide]
  exact roundStepEmpty45

theorem roundStepEmpty43 :
    List.foldl (fun r kw => sha256Round r kw.1 kw.2) (⟨3686090155, 580450446, 4270245939, 1234768305, 3762306745, 4123364073, 2224585183, 1902882853⟩ : Sha256Regs)
      (kwEmpty.drop 43) = ⟨2040978907, 3717492111, 1586299222, 4095722474, 3600805733, 3382061760, 2232532848, 477227836⟩ := by
  rw [show (kwEmpty.drop 43 : List (Nat × Nat))
      = (3345764771, 2975250741) :: kwEmpty.drop 44 from by decide]
  rw [List.foldl_cons]
  rw [show (sha256Round (⟨3686090155, 580450446, 4270245939, 1234768305, 3762306745, 4123364073, 2224585183, 1902882853⟩ : Sha256Regs)
      (3345764771, 2975250741).1 (3345764771, 2975250741).2 : Sha256Regs)
      = ⟨3907209042, 3686090155, 580450446, 4270245939, 692219050, 3762306745, 4123364073, 2224585183⟩ from by decide]
  exact roundStepEmpty44

theorem roundStepEmpty42 :
    List.foldl (fun r kw => sha256Round r kw.1 kw.2) (⟨580450446, 4270245939, 1234768305, 2656625711, 4123364073, 2224585183, 1902882853, 2242319396⟩ : Sha256Regs)
      (kwEmpty.drop 42) = ⟨2040978907, 3717492111, 1586299222, 4095722474, 3600805733, 3382061760, 2232532848, 477227836⟩ := by
  rw [show (kwEmpty.drop 42 : List (Nat × Nat))
      = (3259730800, 1562224585) :: kwEmpty.drop 43 from by decide]
  rw [List.foldl_cons]
  rw [show (sha256Round (⟨580450446, 4270245939, 1234768305, 2656625711, 4123364073, 2224585183, 1902882853, 2242319396⟩ : Sha256Regs)
      (3259730800, 1562224585).1 (3259730800, 1562224585).2 : Sha256Regs)
      = ⟨3686090155, 580450446, 4270245939, 1234768305, 3762306745, 4123364073, 2224585183, 1902882853⟩ from by decide]
  exact roundStepEmpty43

theorem roundStepEmpty41 :
    List.foldl (fun r kw => sha256Round r kw.1 kw.2) (⟨4270245939, 1234768305, 2656625711, 1457773646, 2224585183, 1902882853, 2242319396, 3892832895⟩ : Sha256Regs)
      (kwEmpty.drop 41) = ⟨2040978907, 3717492111, 1586299222, 4095722474, 3600805733, 3382061760, 2232532848, 477227836⟩ := by
  rw [show (kwEmpty.drop 41 : List (Nat × Nat))
      = (2820302411, 62000258) :: kwEmpty.drop 42 from by decide]
  rw [List.foldl_cons]
  rw [show (sha256Round (⟨4270245939, 1234768305, 2656625711, 1457773646, 2224585183, 1902882853, 2242319396, 3892832895⟩ : Sha256Regs)
      (2820302411, 62000258).1 (2820302411, 62000258).2 : Sha256Regs)
      = ⟨580450446, 4270245939, 1234768305, 2656625711, 4123364073, 2224585183, 1902882853, 2242319396⟩ from by decide]
  exact roundStepEmpty42

theorem roundStepEmpty40 :
    List.foldl (fun r kw => sha256Round r kw.1 kw.2) (⟨1234768305, 2656625711, 1457773646, 2694206301, 1902882853, 2242319396, 3892832895, 4206914285⟩ : Sha256Regs)
      (kwEmpty.drop 40) = ⟨2040978907, 3717492111, 1586299222, 4095722474, 3600805733, 3382061760, 2232532848, 477227836⟩ := by
  rw [show (kwEmpty.drop 40 : List (Nat × Nat))
      = (2730485921, 2561075048) :: kwEmpty.drop 41 from by decide]
  rw [List.foldl_cons]
  rw [show (sha256Round (⟨1234768305, 2656625711, 1457773646, 2694206301, 1902882853, 2242319396, 3892832895, 4206914285⟩ : Sha256Regs)
      (2730485921, 2561075048).1 (2730485921, 2561075048).2 : Sha256Regs)
      = ⟨4270245939, 1234768305, 2656625711, 1457773646, 2224585183, 1902882853, 2242319396, 3892832895⟩ from by decide]
  exact roundStepEmpty41

theorem roundStepEmpty39 :
    List.foldl (fun r kw => sha256Round r kw.1 kw.2) (⟨2656625711, 1457773646, 2694206301, 1679812728, 2242319396, 3892832895, 4206914285, 980442793⟩ : Sha256Regs)
      (kwEmpty.drop 39) = ⟨2040978907, 3717492111, 1586299222, 4095722474, 3600805733, 3382061760, 2232532848, 477227836⟩ := by
  rw [show (kwEmpty.drop 39 : List (Nat × Nat))
      = (2456956037, 2165675682) :: kwEmpty.drop 40 from by decide]
  rw [List.foldl_cons]
  rw [show (sha256Round (⟨2656625711, 1457773646, 2694206301, 1679812728, 2242319396, 3892832895, 4206914285, 980442793⟩ : Sha256Regs)
      (2456956037, 2165675682).1 (2456956037, 2165675682).2 : Sha256Regs)
      = ⟨1234768305, 2656625711, 1457773646, 2694206301, 1902882853, 2242319396, 3892832895, 4206914285⟩ from by decide]
  exact roundStepEmpty40

theorem roundStepEmpty38 :
    List.foldl (fun r kw => sha256Round r kw.1 kw.2) (⟨1457773646, 2694206301, 1679812728, 1151435175, 3892832895, 4206914285, 980442793, 1769188034⟩ : Sha256Regs)
      (kwEmpty.drop 38) = ⟨2040978907, 3717492111, 1586299222, 4095722474, 3600805733, 3382061760, 2232532848, 477227836⟩ := by
  rw [show (kwEmpty.drop 38 : List (Nat × Nat))
      = (2177026350, 2813755136) :: kwEmpty.drop 39 from by decide]
  rw [List.foldl_cons]
  rw [show (sha256Round (⟨1457773646, 2694206301, 1679812728, 1151435175, 3892832895, 4206914285, 980442793, 1769188034⟩ : Sha256Regs)
      (2177026350, 2813755136).1 (2177026350, 2813755136).2 : Sha256Regs)
      = ⟨2656625711, 1457773646, 2694206301, 1679812728, 2242319396, 3892832895, 4206914285, 980442793⟩ from by decide]
  exact roundStepEmpty39

theorem roundStepEmpty37 :
    List.foldl (fun r kw => sha256Round r kw.1 kw.2) (⟨2694206301, 1679812728, 1151435175, 2705438357, 4206914285, 980442793, 1769188034, 197416927⟩ : Sha256Regs)
      (kwEmpty.drop 37) = ⟨2040978907, 3717492111, 1586299222, 4095722474, 3600805733, 3382061760, 2232532848, 477227836⟩ := by
  rw [show (kwEmpty.drop 37 : List (Nat × Nat))
      = (1986661051, 4274181962) :: kwEmpty.drop 38 from by decide]
  rw [List.foldl_cons]
  rw [show (sha256Round (⟨2694206301, 1679812728, 1151435175, 2705438357, 4206914285, 980442793, 1769188034, 197416927⟩ : Sha256Regs)
      (1986661051, 4274181962).1 (1986661051, 4274181962).2 : Sha256Regs)
      = ⟨1457773646, 2694206301, 1679812728, 1151435175, 3892832895, 4206914285, 980442793, 1769188034⟩ from by decide]
  exact roundStepEmpty38

theorem roundStepEmpty36 :
    List.foldl (fun r kw => sha256Round r kw.1 kw.2) (⟨1679812728, 1151435175, 2705438357, 3817927606, 980442793, 1769188034, 197416927, 3436338571⟩ : Sha256Regs)
      (kwEmpty.drop 36) = ⟨2040978907, 3717492111, 1586299222, 4095722474, 3600805733, 3382061760, 2232532848, 477227836⟩ := by
  rw [show (kwEmpty.drop 36 : List (Nat × Nat))
      = (1695183700, 1904000662) :: kwEmpty.drop 37 from by decide]
  rw [List.foldl_cons]
  rw [show (sha256Round (⟨1679812728, 1151435175, 2705438357, 3817927606, 980442793, 1769188034, 197416927, 3436338571⟩ : Sha256Regs)
      (1695183700, 1904000662).1 (1695183700, 1904000662).2 : Sha256Regs)
      = ⟨2694206301, 1679812728, 1151435175, 2705438357, 4206914285, 980442793, 1769188034, 197416927⟩ from by decide]
  exact roundStepEmpty37

theorem roundStepEmpty35 :
    List.foldl (fun r kw => sha256Round r kw.1 kw.2) (⟨1151435175, 2705438357, 3817927606, 300352095, 1769188034, 197416927, 3436338571, 3151463532⟩ : Sha256Regs)
      (kwEmpty.drop 35) = ⟨2040978907, 3717492111, 1586299222, 4095722474, 3600805733, 3382061760, 2232532848, 477227836⟩ := by
  rw [show (kwEmpty.drop 35 : List (Nat × Nat))
      = (1396182291, 2742808854) :: kwEmpty.drop 36 from by decide]
  rw [List.foldl_cons]
  rw [show (sha256Round (⟨1151435175, 2705438357, 3817927606, 300352095, 1769188034, 197416927, 3436338571, 3151463532⟩ : Sha256Regs)
      (1396182291, 2742808854).1 (1396182291, 2742808854).2 : Sha256Regs)
      = ⟨1679812728, 1151435175, 2705438357, 3817927606, 980442793, 1769188034, 197416927, 3436338571⟩ from by decide]
  exact roundStepEmpty36

theorem roundStepEmpty34 :
    List.foldl (fun r kw => sha256Round r kw.1 kw.2) (⟨2705438357, 3817927606, 300352095, 2696613087, 197416927, 3436338571, 3151463532, 1447716390⟩ : Sha256Regs)
      (kwEmpty.drop 34) = ⟨2040978907, 3717492111, 1586299222, 4095722474, 3600805733, 3382061760, 2232532848, 477227836⟩ := by
  rw [show (kwEmpty.drop 34 : List (Nat × Nat))
      = (1294757372, 109604294) :: kwEmpty.drop 35 from by decide]
  rw [List.foldl_cons]
  rw [show (sha256Round (⟨2705438357, 3817927606, 300352095, 2696613087, 197416927, 3436338571, 3151463532, 1447716390⟩ : Sha256Regs)
      (1294757372, 109604294).1 (1294757372, 109604294).2 : Sha256Regs)
      = ⟨1151435175, 2705438357, 3817927606, 300352095, 1769188034, 197416927, 3436338571, 3151463532⟩ from by decide]
  exact roundStepEmpty35

theorem roundStepEmpty33 :
    List.foldl (fun r kw => sha256Round r kw.1 kw.2) (⟨3817927606, 300352095, 2696613087, 1926471693, 3436338571, 3151463532, 1447716390, 2957685293⟩ : Sha256Regs)
      (kwEmpty.drop 33) = ⟨2040978907, 3717492111, 1586299222, 4095722474, 3600805733, 3382061760, 2232532848, 477227836⟩ := by
  rw [show (kwEmpty.drop 33 : List (Nat × Nat))
      = (773529912, 676112230) :: kwEmpty.drop 34 from by decide]
  rw [List.foldl_cons]
  rw [show (sha256Round (⟨3817927606, 300352095, 2696613087, 1926471693, 3436338571, 3151463532, 1447716390, 2957685293⟩ : Sha256Regs)
      (773529912, 676112230).1 (773529912, 676112230).2 : Sha256Regs)
      = ⟨2705438357, 3817927606, 300352095, 2696613087, 197416927, 3436338571, 3151463532, 1447716390⟩ from by decide]
  exact roundStepEmpty34

theorem roundStepEmpty32 :
    List.foldl (fun r kw => sha256Round r kw.1 kw.2) (⟨300352095, 2696613087, 1926471693, 1690082844, 3151463532, 1447716390, 2957685293, 2506713973⟩ : Sha256Regs)
      (kwEmpty.drop 32) = ⟨2040978907, 3717492111, 1586299222, 4095722474, 3600805733, 3382061760, 2232532848, 477227836⟩ := by
  rw [show (kwEmpty.drop 32 : List (Nat × Nat))
      = (666307205, 3287351444) :: kwEmpty.drop 33 from by decide]
  rw [List.foldl_cons]
  rw [show (sha256Round (⟨300352095, 2696613087, 1926471693, 1690082844, 3151463532, 1447716390, 2957685293, 2506713973⟩ : Sha256Regs)
      (666307205, 3287351444).1 (666307205, 3287351444).2 : Sha256Regs)
      = ⟨3817927606, 300352095, 2696613087, 1926471693, 3436338571, 3151463532, 1447716390, 2957685293⟩ from by decide]
  exact roundStepEmpty33

theorem roundStepEmpty31 :
    List.foldl (fun r kw => sha256Round r kw.1 kw.2) (⟨2696613087, 1926471693, 1690082844, 1837942423, 1447716390, 2957685293, 2506713973, 1726829818⟩ : Sha256Regs)
      (kwEmpty.drop 31) = ⟨2040978907, 3717492111, 1586299222, 4095722474, 3600805733, 3382061760, 2232532848, 477227836⟩ := by
  rw [show (kwEmpty.drop 31 : List (Nat × Nat))
      = (338241895, 3374850048) :: kwEmpty.drop 32 from by decide]
  rw [List.foldl_cons]
  rw [show (sha256Round (⟨2696613087, 1926471693, 1690082844, 1837942423, 1447716390, 2957685293, 2506713973, 1726829818⟩ : Sha256Regs)
      (338241895, 3374850048).1 (338241895, 3374850048).2 : Sha256Regs)
      = ⟨300352095, 2696613087, 1926471693, 1690082844, 3151463532, 1447716390, 2957685293, 2506713973⟩ from by decide]
  exact roundStepEmpty32

theorem roundStepEmpty30 :
    List.foldl (fun r kw => sha256Round r kw.1 kw.2) (⟨1926471693, 1690082844, 1837942423, 747317945, 2957685293, 2506713973, 1726829818, 2677228163⟩ : Sha256Regs)
      (kwEmpty.drop 30) = ⟨2040978907, 3717492111, 1586299222, 4095722474, 3600805733, 3382061760, 2232532848, 477227836⟩ := by
  rw [show (kwEmpty.drop 30 : List (Nat × Nat))
      = (113926993, 3594910044) :: kwEmpty.drop 31 from by decide]
  rw [List.foldl_cons]
  rw [show (sha256Round (⟨1926471693, 1690082844, 1837942423, 747317945, 2957685293, 2506713973, 1726829818, 2677228163⟩ : Sha256Regs)
      (113926993, 3594910044).1 (113926993, 3594910044).2 : Sha256Regs)
      = ⟨2696613087, 1926471693, 1690082844, 1837942423, 1447716390, 2957685293, 2506713973, 1726829818⟩ from by decide]
  exact roundStepEmpty31

theorem roundStepEmpty29 :
    List.foldl (fun r kw => sha256Round r kw.1 kw.2) (⟨1690082844, 1837942423, 747317945, 3317175470, 2506713973, 1726829818, 2677228163, 3850028020⟩ : Sha256Regs)
      (kwEmpty.drop 29) = ⟨2040978907, 3717492111, 1586299222, 4095722474, 3600805733, 3382061760, 2232532848, 477227836⟩ := by
  rw [show (kwEmpty.drop 29 : List (Nat × Nat))
      = (3584528711, 337794312) :: kwEmpty.drop 30 from by decide]
  rw [List.foldl_cons]
  rw [show (sha256Round (⟨1690082844, 1837942423, 747317945, 3317175470, 2506713973, 1726829818, 2677228163, 3850028020⟩ : Sha256Regs)
      (3584528711, 337794312).1 (3584528711, 337794312).2 : Sha256Regs)
      = ⟨1926471693, 1690082844, 1837942423, 747317945, 2957685293, 2506713973, 1726829818, 2677228163⟩ from by decide]
  exact roundStepEmpty30

theorem roundStepEmpty28 :
    List.foldl (fun r kw => sha256Round r kw.1 kw.2) (⟨1837942423, 747317945, 3317175470, 2062996621, 1726829818, 2677228163, 3850028020, 4116679717⟩ : Sha256Regs)
      (kwEmpty.drop 28) = ⟨2040978907, 3717492111, 1586299222, 4095722474, 3600805733, 3382061760, 2232532848, 477227836⟩ := by
  rw [show (kwEmpty.drop 28 : List (Nat × Nat))
      = (3336571891, 3592562048) :: kwEmpty.drop 29 from by decide]
  rw [List.foldl_cons]
  rw [show (sha256Round (⟨1837942423, 747317945, 3317175470, 2062996621, 1726829818, 2677228163, 3850028020, 4116679717⟩ : Sha256Regs)
      (3336571891, 3592562048).1 (3336571891, 3592562048).2 : Sha256Regs)
      = ⟨1690082844, 1837942423, 747317945, 3317175470, 2506713973, 1726829818, 2677228163, 3850028020⟩ from by decide]
  exact roundStepEmpty29

theorem roundStepEmpty27 :
    List.foldl (fun r kw => sha256Round r kw.1 kw.2) (⟨747317945, 3317175470, 2062996621, 2556161365, 2677228163, 3850028020, 4116679717, 741081741⟩ : Sha256Regs)
      (kwEmpty.drop 27) = ⟨2040978907, 3717492111, 1586299222, 4095722474, 3600805733, 3382061760, 2232532848, 477227836⟩ := by
  rw [show (kwEmpty.drop 27 : List (Nat × Nat))
      = (3210313671, 1711282176) :: kwEmpty.drop 28 from by decide]
  rw [List.foldl_cons]
  rw [show (sha256Round (⟨747317945, 3317175470, 2062996621, 2556161365, 2677228163, 3850028020, 4116679717, 741081741⟩ : Sha256Regs)
      (3210313671, 1711282176).1 (3210313671, 1711282176).2 : Sha256Regs)
      = ⟨1837942423, 747317945, 3317175470, 2062996621, 1726829818, 2677228163, 3850028020, 4116679717⟩ from by decide]
  exact roundStepEmpty28

theorem roundStepEmpty26 :
    List.foldl (fun r kw => sha256Round r kw.1 kw.2) (⟨3317175470, 2062996621, 2556161365, 1078820948, 3850028020, 4116679717, 741081741, 2976200464⟩ : Sha256Regs)
      (kwEmpty.drop 26) = ⟨2040978907, 3717492111, 1586299222, 4095722474, 3600805733, 3382061760, 2232532848, 477227836⟩ := by
  rw [show (kwEmpty.drop 26 : List (Nat × Nat))
      = (2952996808, 1451269) :: kwEmpty.drop 27 from by decide]
  rw [List.foldl_cons]
  rw [show (sha256Round (⟨3317175470, 2062996621, 2556161365, 1078820948, 3850028020, 4116679717, 741081741, 2976200464⟩ : Sha256Regs)
      (2952996808, 1451269).1 (2952996808, 1451269).2 : Sha256Regs)
      = ⟨747317945, 3317175470, 2062996621, 2556161365, 2677228163, 3850028020, 4116679717, 741081741⟩ from by decide]
  exact roundStepEmpty27

theorem roundStepEmpty25 :
    List.foldl (fun r kw => sha256Round r kw.1 kw.2) (⟨2062996621, 2556161365, 1078820948, 2577845017, 4116679717, 741081741, 2976200464, 3263666206⟩ : Sha256Regs)
      (kwEmpty.drop 25) = ⟨2040978907, 3717492111, 1586299222, 4095722474, 3600805733, 3382061760, 2232532848, 477227836⟩ := by
  rw [show (kwEmpty.drop 25 : List (Nat × Nat))
      = (2821834349, 4235264) :: kwEmpty.drop 26 from by decide]
  rw [List.foldl_cons]
  rw [show (sha256Round (⟨2062996621, 2556161365, 1078820948, 2577845017, 4116679717, 741081741, 2976200464, 3263666206⟩ : Sha256Regs)
      (2821834349, 4235264).1 (2821834349, 4235264).2 : Sha256Regs)
      = ⟨3317175470, 2062996621, 2556161365, 1078820948, 3850028020, 4116679717, 741081741, 2976200464⟩ from by decide]
  exact roundStepEmpty26

theorem roundStepEmpty24 :
    List.foldl (fun r kw => sha256Round r kw.1 kw.2) (⟨2556161365, 1078820948, 2577845017, 1976037592, 741081741, 2976200464, 3263666206, 966081741⟩ : Sha256Regs)
      (kwEmpty.drop 24) = ⟨2040978907, 3717492111, 1586299222, 4095722474, 3600805733, 3382061760, 2232532848, 477227836⟩ := by
  rw [show (kwEmpty.drop 24 : List (Nat × Nat))
      = (2554220882, 1476919296) :: kwEmpty.drop 25 from by decide]
  rw [List.foldl_cons]
  rw [show (sha256Round (⟨2556161365, 1078820948, 2577845017, 1976037592, 741081741, 2976200464, 3263666206, 966081741⟩ : Sha256Regs)
      (2554220882, 1476919296).1 (2554220882, 1476919296).2 : Sha256Regs)
      = ⟨2062996621, 2556161365, 1078820948, 2577845017, 4116679717, 741081741, 2976200464, 3263666206⟩ from by decide]
  exact roundStepEmpty25

theorem roundStepEmpty23 :
    List.foldl (fun r kw => sha256Round r kw.1 kw.2) (⟨1078820948, 2577845017, 1976037592, 172493064, 2976200464, 3263666206, 966081741, 2416781228⟩ : Sha256Regs)
      (kwEmpty.drop 23) = ⟨2040978907, 3717492111, 1586299222, 4095722474, 3600805733, 3382061760, 2232532848, 477227836⟩ := by
  rw [show (kwEmpty.drop 23 : List (Nat × Nat))
      = (1996064986, 2147483648) :: kwEmpty.drop 24 from by decide]
  rw [List.foldl_cons]
  rw [show (sha256Round (⟨1078820948, 2577845017, 1976037592, 172493064, 2976200464, 3263666206, 966081741, 2416781228⟩ : Sha256Regs)
      (1996064986, 2147483648).1 (1996064986, 2147483648).2 : Sha256Regs)
      = ⟨2556161365, 1078820948, 2577845017, 1976037592, 741081741, 2976200464, 3263666206, 966081741⟩ from by decide]
  exact roundStepEmpty24

theorem roundStepEmpty22 :
    List.foldl (fun r kw => sha256Round r kw.1 kw.2) (⟨2577845017, 1976037592, 172493064, 812095850, 3263666206, 966081741, 2416781228, 3550010602⟩ : Sha256Regs)
      (kwEmpty.drop 22) = ⟨2040978907, 3717492111, 1586299222, 4095722474, 3600805733, 3382061760, 2232532848, 477227836⟩ := by
  rw [show (kwEmpty.drop 22 : List (Nat × Nat))
      = (1555081692, 84448578) :: kwEmpty.drop 23 from by decide]
  rw [List.foldl_cons]
  rw [show (sha256Round (⟨2577845017, 1976037592, 172493064, 812095850, 3263666206, 966081741, 2416781228, 3550010602⟩ : Sha256Regs)
      (1555081692, 84448578).1 (1555081692, 84448578).2 : Sha256Regs)
      = ⟨1078820948, 2577845017, 1976037592, 172493064, 2976200464, 3263666206, 966081741, 2416781228⟩ from by decide]
  exact roundStepEmpty23

theorem roundStepEmpty21 :
    List.foldl (fun r kw => sha256Round r kw.1 kw.2) (⟨1976037592, 172493064, 812095850, 3717831211, 966081741, 2416781228, 3550010602, 1619825619⟩ : Sha256Regs)
      (kwEmpty.drop 21) = ⟨2040978907, 3717492111, 1586299222, 4095722474, 3600805733, 3382061760, 2232532848, 477227836⟩ := by
  rw [show (kwEmpty.drop 21 : List (Nat × Nat))
      = (1249150122, 0) :: kwEmpty.drop 22 from by decide]
  rw [List.foldl_cons]
  rw [show (sha256Round (⟨1976037592, 172493064, 812095850, 3717831211, 966081741, 2416781228, 3550010602, 1619825619⟩ : Sha256Regs)
      (1249150122, 0).1 (1249150122, 0).2 : Sha256Regs)
      = ⟨2577845017, 1976037592, 172493064, 812095850, 3263666206, 966081741, 2416781228, 3550010602⟩ from by decide]
  exact roundStepEmpty22

theorem roundStepEmpty20 :
    List.foldl (fun r kw => sha256Round r kw.1 kw.2) (⟨172493064, 812095850, 3717831211, 1192056138, 2416781228, 3550010602, 1619825619, 1892956839⟩ : Sha256Regs)
      (kwEmpty.drop 20) = ⟨2040978907, 3717492111, 1586299222, 4095722474, 3600805733, 3382061760, 2232532848, 477227836⟩ := by
  rw [show (kwEmpty.drop 20 : List (Nat × Nat))
      = (770255983, 570427392) :: kwEmpty.drop 21 from by decide]
  rw [List.foldl_cons]
  rw [show (sha256Round (⟨172493064, 812095850, 3717831211, 1192056138, 2416781228, 3550010602, 1619825619, 1892956839⟩ : Sha256Regs)
      (770255983, 570427392).1 (770255983, 570427392).2 : Sha256Regs)
      = ⟨1976037592, 172493064, 812095850, 3717831211, 966081741, 2416781228, 3550010602, 1619825619⟩ from by decide]
  exact roundStepEmpty21

theorem roundStepEmpty19 :
    List.foldl (fun r kw => sha256Round r kw.1 kw.2) (⟨812095850, 3717831211, 1192056138, 3019933109, 3550010602, 1619825619, 1892956839, 1555621987⟩ : Sha256Regs)
      (kwEmpty.drop 19) = ⟨2040978907, 3717492111, 1586299222, 4095722474, 3600805733, 3382061760, 2232532848, 477227836⟩ := by
  rw [show (kwEmpty.drop 19 : List (Nat × Nat))
      = (604807628, 0) :: kwEmpty.drop 20 from by decide]
  rw [List.foldl_cons]
  rw [show (sha256Round (⟨812095850, 3717831211, 1192056138, 3019933109, 3550010602, 1619825619, 1892956839, 1555621987⟩ : Sha256Regs)
      (604807628, 0).1 (604807628, 0).2 : Sha256Regs)
      = ⟨172493064, 812095850, 3717831211, 1192056138, 2416781228, 3550010602, 1619825619, 1892956839⟩ from by decide]
  exact roundStepEmpty20

theorem roundStepEmpty18 :
    List.foldl (fun r kw => sha256Round r kw.1 kw.2) (⟨3717831211, 1192056138, 3019933109, 3096116699, 1619825619, 1892956839, 1555621987, 483372089⟩ : Sha256Regs)
      (kwEmpty.drop 18) = ⟨2040978907, 3717492111, 1586299222, 4095722474, 3600805733, 3382061760, 2232532848, 477227836⟩ := by
  rw [show (kwEmpty.drop 18 : List (Nat × Nat))
      = (264347078, 2117632) :: kwEmpty.drop 19 from by decide]
  rw [List.foldl_cons]
  rw [show (sha256Round (⟨3717831211, 1192056138, 3019933109, 3096116699, 1619825619, 1892956839, 1555621987, 483372089⟩ : Sha256Regs)
      (264347078, 2117632).1 (264347078, 2117632).2 : Sha256Regs)
      = ⟨812095850, 3717831211, 1192056138, 3019933109, 3550010602, 1619825619, 1892956839, 1555621987⟩ from by decide]
  exact roundStepEmpty19

theorem roundStepEmpty17 :
    List.foldl (fun r kw => sha256Round r kw.1 kw.2) (⟨1192056138, 3019933109, 3096116699, 1170215847, 1892956839, 1555621987, 483372089, 725774998⟩ : Sha256Regs)
      (kwEmpty.drop 17) = ⟨2040978907, 3717492111, 1586299222, 4095722474, 3600805733, 3382061760, 2232532848, 477227836⟩ := by
  rw [show (kwEmpty.drop 17 : List (Nat × Nat))
      = (4022224774, 0) :: kwEmpty.drop 18 from by decide]
  rw [List.foldl_cons]
  rw [show (sha256Round (⟨1192056138, 3019933109, 3096116699, 1170215847, 1892956839, 1555621987, 483372089, 725774998⟩ : Sha256Regs)
      (4022224774, 0).1 (4022224774, 0).2 : Sha256Regs)
      = ⟨3717831211, 1192056138, 3019933109, 3096116699, 1619825619, 1892956839, 1555621987, 483372089⟩ from by decide]
  exact roundStepEmpty18

theorem roundStepEmpty16 :
    List.foldl (fun r kw => sha256Round r kw.1 kw.2) (⟨3019933109, 3096116699, 1170215847, 553833165, 1555621987, 483372089, 725774998, 3455974994⟩ : Sha256Regs)
      (kwEmpty.drop 16) = ⟨2040978907, 3717492111, 1586299222, 4095722474, 3600805733, 3382061760, 2232532848, 477227836⟩ := by
  rw [show (kwEmpty.drop 16 : List (Nat × Nat))
      = (3835390401, 2147483648) :: kwEmpty.drop 17 from by decide]
  rw [List.foldl_cons]
  rw [show (sha256Round (⟨3019933109, 3096116699, 1170215847, 553833165, 1555621987, 483372089, 725774998, 3455974994⟩ : Sha256Regs)
      (3835390401, 2147483648).1 (3835390401, 2147483648).2 : Sha256Regs)
      = ⟨1192056138, 3019933109, 3096116699, 1170215847, 1892956839, 1555621987, 483372089, 725774998⟩ from by decide]
  exact roundStepEmpty17

theorem roundStepEmpty15 :
    List.foldl (fun r kw => sha256Round r kw.1 kw.2) (⟨3096116699, 1170215847, 553833165, 4114828352, 483372089, 725774998, 3455974994, 3621813394⟩ : Sha256Regs)
      (kwEmpty.drop 15) = ⟨2040978907, 3717492111, 1586299222, 4095722474, 3600805733, 3382061760, 2232532848, 477227836⟩ := by
  rw [show (kwEmpty.drop 15 : List (Nat × Nat))
      = (3248222580, 0) :: kwEmpty.drop 16 from by decide]
  rw [List.foldl_cons]
  rw [show (sha256Round (⟨3096116699, 1170215847, 553833165, 4114828352, 483372089, 725774998, 3455974994, 3621813394⟩ : Sha256Regs)
      (3248222580, 0).1 (3248222580, 0).2 : Sha256Regs)
      = ⟨3019933109, 3096116699, 1170215847, 553833165, 1555621987, 483372089, 725774998, 3455974994⟩ from by decide]
  exact roundStepEmpty16

theorem roundStepEmpty14 :
    List.foldl (fun r kw => sha256Round r kw.1 kw.2) (⟨1170215847, 553833165, 4114828352, 361478433, 725774998, 3455974994, 3621813394, 3795207118⟩ : Sha256Regs)
      (kwEmpty.drop 14) = ⟨2040978907, 3717492111, 1586299222, 4095722474, 3600805733, 3382061760, 2232532848, 477227836⟩ := by
  rw [show (kwEmpty.drop 14 : List (Nat × Nat))
      = (2614888103, 0) :: kwEmpty.drop 15 from by decide]
  rw [List.foldl_cons]
  rw [show (sha256Round (⟨1170215847, 553833165, 4114828352, 361478433, 725774998, 3455974994, 3621813394, 3795207118⟩ : Sha256Regs)
      (2614888103, 0).1 (2614888103, 0).2 : Sha256Regs)
      = ⟨3096116699, 1170215847, 553833165, 4114828352, 483372089, 725774998, 3455974994, 3621813394⟩ from by decide]
  exact roundStepEmpty15

theorem roundStepEmpty13 :
    List.foldl (fun r kw => sha256Round r kw.1 kw.2) (⟨553833165, 4114828352, 361478433, 4025007953, 3455974994, 3621813394, 3795207118, 1392976521⟩ : Sha256Regs)
      (kwEmpty.drop 13) = ⟨2040978907, 3717492111, 1586299222, 4095722474, 3600805733, 3382061760, 2232532848, 477227836⟩ := by
  rw [show (kwEmpty.drop 13 : List (Nat × Nat))
      = (2162078206, 0) :: kwEmpty.drop 14 from by decide]
  rw [List.foldl_cons]
  rw [show (sha256Round (⟨553833165, 4114828352, 361478433, 4025007953, 3455974994, 3621813394, 3795207118, 1392976521⟩ : Sha256Regs)
      (2162078206, 0).1 (2162078206, 0).2 : Sha256Regs)
      = ⟨1170215847, 553833165, 4114828352, 361478433, 725774998, 3455974994, 3621813394, 3795207118⟩ from by decide]
  exact roundStepEmpty14

theorem roundStepEmpty12 :
    List.foldl (fun r kw => sha256Round r kw.1 kw.2) (⟨4114828352, 361478433, 4025007953, 4113392549, 3621813394, 3795207118, 1392976521, 2058339864⟩ : Sha256Regs)
      (kwEmpty.drop 12) = ⟨2040978907, 3717492111, 1586299222, 4095722474, 3600805733, 3382061760, 2232532848, 477227836⟩ := by
  rw [show (kwEmpty.drop 12 : List (Nat × Nat))
      = (1925078388, 0) :: kwEmpty.drop 13 from by decide]
  rw [List.foldl_cons]
  rw [show (sha256Round (⟨4114828352, 361478433, 4025007953, 4113392549, 3621813394, 3795207118, 1392976521, 2058339864⟩ : Sha256Regs)
      (1925078388, 0).1 (1925078388, 0).2 : Sha256Regs)
      = ⟨553833165, 4114828352, 361478433, 4025007953, 3455974994, 3621813394, 3795207118, 1392976521⟩ from by decide]
  exact roundStepEmpty13

theorem roundStepEmpty11 :
    List.foldl (fun r kw => sha256Round r kw.1 kw.2) (⟨361478433, 4025007953, 4113392549, 2060825014, 3795207118, 1392976521, 2058339864, 1408847307⟩ : Sha256Regs)
      (kwEmpty.drop 11) = ⟨2040978907, 3717492111, 1586299222, 4095722474, 3600805733, 3382061760, 2232532848, 477227836⟩ := by
  rw [show (kwEmpty.drop 11 : List (Nat × Nat))
      = (1426881987, 0) :: kwEmpty.drop 12 from by decide]
  rw [List.foldl_cons]
  rw [show (sha256Round (⟨361478433, 4025007953, 4113392549, 2060825014, 3795207118, 1392976521, 2058339864, 1408847307⟩ : Sha256Regs)
      (1426881987, 0).1 (1426881987, 0).2 : Sha256Regs)
      = ⟨4114828352, 361478433, 4025007953, 4113392549, 3621813394, 3795207118, 1392976521, 2058339864⟩ from by decide]
  exact roundStepEmpty12

theorem roundStepEmpty10 :
    List.foldl (fun r kw => sha256Round r kw.1 kw.2) (⟨4025007953, 4113392549, 2060825014, 4028650896, 1392976521, 2058339864, 1408847307, 2196627567⟩ : Sha256Regs)
      (kwEmpty.drop 10) = ⟨2040978907, 3717492111, 1586299222, 4095722474, 3600805733, 3382061760, 2232532848, 477227836⟩ := by
  rw [show (kwEmpty.drop 10 : List (Nat × Nat))
      = (607225278, 0) :: kwEmpty.drop 11 from by decide]
  rw [List.foldl_cons]
  rw [show (sha256Round (⟨4025007953, 4113392549, 2060825014, 4028650896, 1392976521, 2058339864, 1408847307, 2196627567⟩ : Sha256Regs)
      (607225278, 0).1 (607225278, 0).2 : Sha256Regs)
      = ⟨361478433, 4025007953, 4113392549, 2060825014, 3795207118, 1392976521, 2058339864, 1408847307⟩ from by decide]
  exact roundStepEmpty11

theorem roundStepEmpty9 :
    List.foldl (fun r kw => sha256Round r kw.1 kw.2) (⟨4113392549, 2060825014, 4028650896, 690895682, 2058339864, 1408847307, 2196627567, 1332035834⟩ : Sha256Regs)
      (kwEmpty.drop 9) = ⟨2040978907, 3717492111, 1586299222, 4095722474, 3600805733, 3382061760, 2232532848, 477227836⟩ := by
  rw [show (kwEmpty.drop 9 : List (Nat × Nat))
      = (310598401, 0) :: kwEmpty.drop 10 from by decide]
  rw [List.foldl_cons]
  rw [show (sha256Round (⟨4113392549, 2060825014, 4028650896, 690895682, 2058339864, 1408847307, 2196627567, 1332035834⟩ : Sha256Regs)
      (310598401, 0).1 (310598401, 0).2 : Sha256Regs)
      = ⟨4025007953, 4113392549, 2060825014, 4028650896, 1392976521, 2058339864, 1408847307, 2196627567⟩ from by decide]
  exact roundStepEmpty10

theorem roundStepEmpty8 :
    List.foldl (fun r kw => sha256Round r kw.1 kw.2) (⟨2060825014, 4028650896, 690895682, 1130821424, 1408847307, 2196627567, 1332035834, 3889194014⟩ : Sha256Regs)
      (kwEmpty.drop 8) = ⟨2040978907, 3717492111, 1586299222, 4095722474, 3600805733, 3382061760, 2232532848, 477227836⟩ := by
  rw [show (kwEmpty.drop 8 : List (Nat × Nat))
      = (3624381080, 0) :: kwEmpty.drop 9 from by decide]
  rw [List.foldl_cons]
  rw [show (sha256Round (⟨2060825014, 4028650896, 690895682, 1130821424, 1408847307, 2196627567, 1332035834, 3889194014⟩ : Sha256Regs)
      (3624381080, 0).1 (3624381080, 0).2 : Sha256Regs)
      = ⟨4113392549, 2060825014, 4028650896, 690895682, 2058339864, 1408847307, 2196627567, 1332035834⟩ from by decide]
  exact roundStepEmpty9

theorem roundStepEmpty7 :
    List.foldl (fun r kw => sha256Round r kw.1 kw.2) (⟨4028650896, 690895682, 1130821424, 1277422283, 2196627567, 1332035834, 3889194014, 808968629⟩ : Sha256Regs)
      (kwEmpty.drop 7) = ⟨2040978907, 3717492111, 1586299222, 4095722474, 3600805733, 3382061760, 2232532848, 477227836⟩ := by
  rw [show (kwEmpty.drop 7 : List (Nat × Nat))
      = (2870763221, 0) :: kwEmpty.drop 8 from by decide]
  rw [List.foldl_cons]
  rw [show (sha256Round (⟨4028650896, 690895682, 1130821424, 1277422283, 2196627567, 1332035834, 3889194014, 808968629⟩ : Sha256Regs)
      (2870763221, 0).1 (2870763221, 0).2 : Sha256Regs)
      = ⟨2060825014, 4028650896, 690895682, 1130821424, 1408847307, 2196627567, 1332035834, 3889194014⟩ from by decide]
  exact roundStepEmpty8

theorem roundStepEmpty6 :
    List.foldl (fun r kw => sha256Round r kw.1 kw.2) (⟨690895682, 1130821424, 1277422283, 3299628326, 1332035834, 3889194014, 808968629, 1876632314⟩ : Sha256Regs)
      (kwEmpty.drop 6) = ⟨2040978907, 3717492111, 1586299222, 4095722474, 3600805733, 3382061760, 2232532848, 477227836⟩ := by
  rw [show (kwEmpty.drop 6 : List (Nat × Nat))
      = (2453635748, 0) :: kwEmpty.drop 7 from by decide]
  rw [List.foldl_cons]
  rw [show (sha256Round (⟨690895682, 1130821424, 1277422283, 3299628326, 1332035834, 3889194014, 808968629, 1876632314⟩ : Sha256Regs)
      (2453635748, 0).1 (2453635748, 0).2 : Sha256Regs)
      = ⟨4028650896, 690895682, 1130821424, 1277422283, 2196627567, 1332035834, 3889194014, 808968629⟩ from by decide]
  exact roundStepEmpty7

theorem roundStepEmpty5 :
    List.foldl (fun r kw => sha256Round r kw.1 kw.2) (⟨1130821424, 1277422283, 3299628326, 2632279248, 3889194014, 808968629, 1876632314, 536982102⟩ : Sha256Regs)
      (kwEmpty.drop 5) = ⟨2040978907, 3717492111, 1586299222, 4095722474, 3600805733, 3382061760, 2232532848, 477227836⟩ := by
  rw [show (kwEmpty.drop 5 : List (Nat × Nat))
      = (1508970993, 0) :: kwEmpty.drop 6 from by decide]
  rw [List.foldl_cons]
  rw [show (sha256Round (⟨1130821424, 1277422283, 3299628326, 2632279248, 3889194014, 808968629, 1876632314, 536982102⟩ : Sha256Regs)
      (1508970993, 0).1 (1508970993, 0).2 : Sha256Regs)
      = ⟨690895682, 1130821424, 1277422283, 3299628326, 1332035834, 3889194014, 808968629, 1876632314⟩ from by decide]
  exact roundStepEmpty6

theorem roundStepEmpty4 :
    List.foldl (fun r kw => sha256Round r kw.1 kw.2) (⟨1277422283, 3299628326, 2632279248, 2080933965, 808968629, 1876632314, 536982102, 415752866⟩ : Sha256Regs)
      (kwEmpty.drop 4) = ⟨2040978907, 3717492111, 1586299222, 4095722474, 3600805733, 3382061760, 2232532848, 477227836⟩ := by
  rw [show (kwEmpty.drop 4 : List (Nat × Nat))
      = (961987163, 0) :: kwEmpty.drop 5 from by decide]
  rw [List.foldl_cons]
  rw [show (sha256Round (⟨1277422283, 3299628326, 2632279248, 2080933965, 808968629, 1876632314, 536982102, 415752866⟩ : Sha256Regs)
      (961987163, 0).1 (961987163, 0).2 : Sha256Regs)
      = ⟨1130821424, 1277422283, 3299628326, 2632279248, 3889194014, 808968629, 1876632314, 536982102⟩ from by decide]
  exact roundStepEmpty5

theorem roundStepEmpty3 :
    List.foldl (fun r kw => sha256Round r kw.1 kw.2) (⟨3299628326, 2632279248, 2080933965, 1779033703, 1876632314, 536982102, 415752866, 1359893119⟩ : Sha256Regs)
      (kwEmpty.drop 3) = ⟨2040978907, 3717492111, 1586299222, 4095722474, 3600805733, 3382061760, 2232532848, 477227836⟩ := by
  rw [show (kwEmpty.drop 3 : List (Nat × Nat))
      = (3921009573, 0) :: kwEmpty.drop 4 from by decide]
  rw [List.foldl_cons]
  rw [show (sha256Round (⟨3299628326, 2632279248, 2080933965, 1779033703, 1876632314, 536982102, 415752866, 1359893119⟩ : Sha256Regs)
      (3921009573, 0).1 (3921009573, 0).2 : Sha256Regs)
      = ⟨1277422283, 3299628326, 2632279248, 2080933965, 808968629, 1876632314, 536982102, 415752866⟩ from by decide]
  exact roundStepEmpty4

theorem roundStepEmpty2 :
    List.foldl (fun r kw => sha256Round r kw.1 kw.2) (⟨2632279248, 2080933965, 1779033703, 3144134277, 536982102, 415752866, 1359893119, 2600822924⟩ : Sha256Regs)
      (kwEmpty.drop 2) = ⟨2040978907, 3717492111, 1586299222, 4095722474, 3600805733, 3382061760, 2232532848, 477227836⟩ := by
  rw [show (kwEmpty.drop 2 : List (Nat × Nat))
      = (3049323471, 0) :: kwEmpty.drop 3 from by decide]
  rw [List.foldl_cons]
  rw [show (sha256Round (⟨2632279248, 2080933965, 1779033703, 3144134277, 536982102, 415752866, 1359893119, 2600822924⟩ : Sha256Regs)
      (3049323471, 0).1 (3049323471, 0).2 : Sha256Regs)
      = ⟨3299628326, 2632279248, 2080933965, 1779033703, 1876632314, 536982102, 415752866, 1359893119⟩ from by decide]
  exact roundStepEmpty3

theorem roundStepEmpty1 :
    List.foldl (fun r kw => sha256Round r kw.1 kw.2) (⟨2080933965, 1779033703, 3144134277, 1013904242, 415752866, 1359893119, 2600822924, 528734635⟩ : Sha256Regs)
      (kwEmpty.drop 1) = ⟨2040978907, 3717492111, 1586299222, 4095722474, 3600805733, 3382061760, 2232532848, 477227836⟩ := by
  rw [show (kwEmpty.drop 1 : List (Nat × Nat))
      = (1899447441, 0) :: kwEmpty.drop 2 from by decide]
  rw [List.foldl_cons]
  rw [show (sha256Round (⟨2080933965, 1779033703, 3144134277, 1013904242, 415752866, 1359893119, 2600822924, 528734635⟩ : Sha256Regs)
      (1899447441, 0).1 (1899447441, 0).2 : Sha256Regs)
      = ⟨2632279248, 2080933965, 1779033703, 3144134277, 536982102, 415752866, 1359893119, 2600822924⟩ from by decide]
  exact roundStepEmpty2

theorem roundsEvalEmpty :
    (kwEmpty).foldl (fun r kw => sha256Round r kw.1 kw.2) (regsOfState kInitState)
      = ⟨2040978907, 3717492111, 1586299222, 4095722474, 3600805733, 3382061760, 2232532848, 477227836⟩ := by
  rw [show (kwEmpty : List (Nat × Nat)) = (1116352408, 2147483648) :: kwEmpty.drop 1 from by decide]
  rw [List.foldl_cons]
  rw [show (sha256Round (regsOfState kInitState)
      (1116352408, 2147483648).1 (1116352408, 2147483648).2 : Sha256Regs)
      = ⟨2080933965, 1779033703, 3144134277, 1013904242, 415752866, 1359893119, 2600822924, 528734635⟩ from by decide]
  exact roundStepEmpty1

theorem processBlockEvalEmpty :
    sha256ProcessBlock kInitState padBlockEmpty = stateEmpty := by
  show [(kInitState.getD 0 0 + ((kRoundConstants.zip (messageSchedule padBlockEmpty)).foldl (fun r kw => sha256Round r kw.1 kw.2) (regsOfState kInitState)).a) % m32,
        (kInitState.getD 1 0 + ((kRoundConstants.zip (messageSchedule padBlockEmpty)).foldl (fun r kw => sha256Round r kw.1 kw.2) (regsOfState kInitState)).b) % m32,
        (kInitState.getD 2 0 + ((kRoundConstants.zip (messageSchedule padBlockEmpty)).foldl (fun r kw => sha256Round r kw.1 kw.2) (regsOfState kInitState)).c) % m32,
        (kInitState.getD 3 0 + ((kRoundConstants.zip (messageSchedule padBlockEmpty)).foldl (fun r kw => sha256Round r kw.1 kw.2) (regsOfState kInitState)).d) % m32,
        (kInitState.getD 4 0 + ((kRoundConstants.zip (messageSchedule padBlockEmpty)).foldl (fun r kw => sha256Round r kw.1 kw.2) (regsOfState kInitState)).e) % m32,
        (kInitState.getD 5 0 + ((kRoundConstants.zip (messageSchedule padBlockEmpty)).foldl (fun r kw => sha256Round r kw.1 kw.2) (regsOfState kInitState)).f) % m32,
        (kInitState.getD 6 0 + ((kRoundConstants.zip (messageSchedule padBlockEmpty)).foldl (fun r kw => sha256Round r kw.1 kw.2) (regsOfState kInitState)).g) % m32,
        (kInitState.getD 7 0 + ((kRoundConstants.zip (messageSchedule padBlockEmpty)).foldl (fun r kw => sha256Round r kw.1 kw.2) (regsOfState kInitState)).h) % m32] = stateEmpty
  rw [schedEvalEmpty]
  rw [show ((kRoundConstants.zip wsEmpty) : List (Nat × Nat)) = kwEmpty from by decide]
  rw [roundsEvalEmpty]
  decide

/-- The padded 64-byte block that sha256_final hashes for the Abc message. -/
def padBlockAbc : List Nat :=
  [97, 98, 99, 128, 0, 0, 0, 0, 0, 0, 0, 0, 0, 0, 0, 0, 0, 0, 0, 0, 0, 0, 0, 0, 0, 0, 0, 0, 0, 0, 0, 0, 0, 0, 0, 0, 0, 0, 0, 0, 0, 0, 0, 0, 0, 0, 0, 0, 0, 0, 0, 0, 0, 0, 0, 0, 0, 0, 0, 0, 0, 0, 0, 24]

/-- The 64-word message schedule of that block, most recent word first. -/
def wsRevAbc : List Nat :=
  [313650667, 4004225740, 1720397816, 2755645205, 2025622859, 2682456414, 3957764664, 4015503821, 2987358873, 344409900, 3256115900, 2226839261, 2845390439, 3118885940, 3430291419, 4215179723, 106709978, 2049510749, 2215296807, 206005234, 657669027, 1042573945, 4037431130, 2672279444, 610538786, 2483675966, 1924104970, 176896406, 4043988066, 2952069057, 996719219, 2482346367, 3552024379, 1881225380, 3968280267, 2636160359, 845560923, 3854317833, 3073800610, 3357629466, 3806512014, 316456923, 25426944, 1050508152, 1610613702, 2108187653, 983040, 1633837952, 24, 0, 0, 0, 0, 0, 0, 0, 0, 0, 0, 0, 0, 0, 0, 1633837952]

/-- The 64-word message schedule of that block, in order. -/
def wsAbc : List Nat :=
  [1633837952, 0, 0, 0, 0, 0, 0, 0, 0, 0, 0, 0, 0, 0, 0, 24, 1633837952, 983040, 2108187653, 1610613702, 1050508152, 25426944, 316456923, 3806512014, 3357629466, 3073800610, 3854317833, 845560923, 2636160359, 3968280267, 1881225380, 3552024379, 2482346367, 996719219, 2952069057, 4043988066, 176896406, 1924104970, 2483675966, 610538786, 2672279444, 4037431130, 1042573945, 657669027, 206005234, 2215296807, 2049510749, 106709978, 4215179723, 3430291419, 3118885940, 2845390439, 2226839261, 3256115900, 344409900, 2987358873, 4015503821, 3957764664, 2682456414, 2025622859, 2755645205, 1720397816, 4004225740, 313650667]

/-- The round constants paired with the schedule words. -/
def kwAbc : List (Nat × Nat) :=
  [(1116352408, 1633837952), (1899447441, 0), (3049323471, 0), (3921009573, 0), (961987163, 0), (1508970993, 0), (2453635748, 0), (2870763221, 0), (3624381080, 0), (310598401, 0), (607225278, 0), (1426881987, 0), (1925078388, 0), (2162078206, 0), (2614888103, 0), (3248222580, 24), (3835390401, 1633837952), (4022224774, 983040), (264347078, 2108187653), (604807628, 1610613702), (770255983, 1050508152), (1249150122, 25426944), (1555081692, 316456923), (1996064986, 3806512014), (2554220882, 3357629466), (2821834349, 3073800610), (2952996808, 3854317833), (3210313671, 845560923), (3336571891, 2636160359), (3584528711, 3968280267), (113926993, 1881225380), (338241895, 3552024379), (666307205, 2482346367), (773529912, 996719219), (1294757372, 2952069057), (1396182291, 4043988066), (1695183700, 176896406), (1986661051, 1924104970), (2177026350, 2483675966), (2456956037, 610538786), (2730485921, 2672279444), (2820302411, 4037431130), (3259730800, 1042573945), (3345764771, 657669027), (3516065817, 206005234), (3600352804, 2215296807), (4094571909, 2049510749), (275423344, 106709978), (430227734, 4215179723), (506948616, 3430291419), (659060556, 3118885940), (883997877, 2845390439), (958139571, 2226839261), (1322822218, 3256115900), (1537002063, 344409900), (1747873779, 2987358873), (1955562222, 4015503821), (2024104815, 3957764664), (2227730452, 2682456414), (2361852424, 2025622859), (2428436474, 2755645205), (2756734187, 1720397816), (3204031479, 4004225740), (3329325298, 313650667)]

/-- The state after compressing that block into the initial state. -/
def stateAbc : List Nat :=
  [3128432319, 2399260650, 1094795486, 1571693091, 2953011619, 2518121116, 3021012833, 4060091821]

theorem schedStepAbc0 : extendWords 0 (wsRevAbc.drop 0) = wsRevAbc := rfl

theorem schedStepAbc1 :
    extendWords 1 (wsRevAbc.drop 1) = wsRevAbc := by
  rw [show (extendWords 1 (wsRevAbc.drop 1) : List Nat)
      = extendWords 0 (nextWord (wsRevAbc.drop 1) :: wsRevAbc.drop 1) from rfl]
  rw [show (nextWord (wsRevAbc.drop 1) :: wsRevAbc.drop 1 : List Nat)
      = wsRevAbc.drop 0 from by decide]
  exact schedStepAbc0

theorem schedStepAbc2 :
    extendWords 2 (wsRevAbc.drop 2) = wsRevAbc := by
  rw [show (extendWords 2 (wsRevAbc.drop 2) : List Nat)
      = extendWords 1 (nextWord (wsRevAbc.drop 2) :: wsRevAbc.drop 2) from rfl]
  rw [show (nextWord (wsRevAbc.drop 2) :: wsRevAbc.drop 2 : List Nat)
      = wsRevAbc.drop 1 from by decide]
  exact schedStepAbc1

theorem schedStepAbc3 :
    extendWords 3 (wsRevAbc.drop 3) = wsRevAbc := by
  rw [show (extendWords 3 (wsRevAbc.drop 3) : List Nat)
      = extendWords 2 (nextWord (wsRevAbc.drop 3) :: wsRevAbc.drop 3) from rfl]
  rw [show (nextWord (wsRevAbc.drop 3) :: wsRevAbc.drop 3 : List Nat)
      = wsRevAbc.drop 2 from by decide]
  exact schedStepAbc2

theorem schedStepAbc4 :
    extendWords 4 (wsRevAbc.drop 4) = wsRevAbc := by
  rw [show (extendWords 4 (wsRevAbc.drop 4) : List Nat)
      = extendWords 3 (nextWord (wsRevAbc.drop 4) :: wsRevAbc.drop 4) from rfl]
  rw [show (nextWord (wsRevAbc.drop 4) :: wsRevAbc.drop 4 : List Nat)
      = wsRevAbc.drop 3 from by decide]
  exact schedStepAbc3

theorem schedStepAbc5 :
    extendWords 5 (wsRevAbc.drop 5) = wsRevAbc := by
  rw [show (extendWords 5 (wsRevAbc.drop 5) : List Nat)
      = extendWords 4 (nextWord (wsRevAbc.drop 5) :: wsRevAbc.drop 5) from rfl]
  rw [show (nextWord (wsRevAbc.drop 5) :: wsRevAbc.drop 5 : List Nat)
      = wsRevAbc.drop 4 from by decide]
  exact schedStepAbc4

theorem schedStepAbc6 :
    extendWords 6 (wsRevAbc.drop 6) = wsRevAbc := by
  rw [show (extendWords 6 (wsRevAbc.drop 6) : List Nat)
      = extendWords 5 (nextWord (wsRevAbc.drop 6) :: wsRevAbc.drop 6) from rfl]
  rw [show (nextWord (wsRevAbc.drop 6) :: wsRevAbc.drop 6 : List Nat)
      = wsRevAbc.drop 5 from by decide]
  exact schedStepAbc5

theorem schedStepAbc7 :
    extendWords 7 (wsRevAbc.drop 7) = wsRevAbc := by
  rw [show (extendWords 7 (wsRevAbc.drop 7) : List Nat)
      = extendWords 6 (nextWord (wsRevAbc.drop 7) :: wsRevAbc.drop 7) from rfl]
  rw [show (nextWord (wsRevAbc.drop 7) :: wsRevAbc.drop 7 : List Nat)
      = wsRevAbc.drop 6 from by decide]
  exact schedStepAbc6

theorem schedStepAbc8 :
    extendWords 8 (wsRevAbc.drop 8) = wsRevAbc := by
  rw [show (extendWords 8 (wsRevAbc.drop 8) : List Nat)
      = extendWords 7 (nextWord (wsRevAbc.drop 8) :: wsRevAbc.drop 8) from rfl]
  rw [show (nextWord (wsRevAbc.drop 8) :: wsRevAbc.drop 8 : List Nat)
      = wsRevAbc.drop 7 from by decide]
  exact schedStepAbc7

theorem schedStepAbc9 :
    extendWords 9 (wsRevAbc.drop 9) = wsRevAbc := by
  rw [show (extendWords 9 (wsRevAbc.drop 9) : List Nat)
      = extendWords 8 (nextWord (wsRevAbc.drop 9) :: wsRevAbc.drop 9) from rfl]
  rw [show (nextWord (wsRevAbc.drop 9) :: wsRevAbc.drop 9 : List Nat)
      = wsRevAbc.drop 8 from by decide]
  exact schedStepAbc8

theorem schedStepAbc10 :
    extendWords 10 (wsRevAbc.drop 10) = wsRevAbc := by
  rw [show (extendWords 10 (wsRevAbc.drop 10) : List Nat)
      = extendWords 9 (nextWord (wsRevAbc.drop 10) :: wsRevAbc.drop 10) from rfl]
  rw [show (nextWord (wsRevAbc.drop 10) :: wsRevAbc.drop 10 : List Nat)
      = wsRevAbc.drop 9 from by decide]
  exact schedStepAbc9

theorem schedStepAbc11 :
    extendWords 11 (wsRevAbc.drop 11) = wsRevAbc := by
  rw [show (extendWords 11 (wsRevAbc.drop 11) : List Nat)
      = extendWords 10 (nextWord (wsRevAbc.drop 11) :: wsRevAbc.drop 11) from rfl]
  rw [show (nextWord (wsRevAbc.drop 11) :: wsRevAbc.drop 11 : List Nat)
      = wsRevAbc.drop 10 from by decide]
  exact schedStepAbc10

theorem schedStepAbc12 :
    extendWords 12 (wsRevAbc.drop 12) = wsRevAbc := by
  rw [show (extendWords 12 (wsRevAbc.drop 12) : List Nat)
      = extendWords 11 (nextWord (wsRevAbc.drop 12) :: wsRevAbc.drop 12) from rfl]
  rw [show (nextWord (wsRevAbc.drop 12) :: wsRevAbc.drop 12 : List Nat)
      = wsRevAbc.drop 11 from by decide]
  exact schedStepAbc11

theorem schedStepAbc13 :
    extendWords 13 (wsRevAbc.drop 13) = wsRevAbc := by
  rw [show (extendWords 13 (wsRevAbc.drop 13) : List Nat)
      = extendWords 12 (nextWord (wsRevAbc.drop 13) :: wsRevAbc.drop 13) from rfl]
  rw [show (nextWord (wsRevAbc.drop 13) :: wsRevAbc.drop 13 : List Nat)
      = wsRevAbc.drop 12 from by decide]
  exact schedStepAbc12

theorem schedStepAbc14 :
    extendWords 14 (wsRevAbc.drop 14) = wsRevAbc := by
  rw [show (extendWords 14 (wsRevAbc.drop 14) : List Nat)
      = extendWords 13 (nextWord (wsRevAbc.drop 14) :: wsRevAbc.drop 14) from rfl]
  rw [show (nextWord (wsRevAbc.drop 14) :: wsRevAbc.drop 14 : List Nat)
      = wsRevAbc.drop 13 from by decide]
  exact schedStepAbc13

theorem schedStepAbc15 :
    extendWords 15 (wsRevAbc.drop 15) = wsRevAbc := by
  rw [show (extendWords 15 (wsRevAbc.drop 15) : List Nat)
      = extendWords 14 (nextWord (wsRevAbc.drop 15) :: wsRevAbc.drop 15) from rfl]
  rw [show (nextWord (wsRevAbc.drop 15) :: wsRevAbc.drop 15 : List Nat)
      = wsRevAbc.drop 14 from by decide]
  exact schedStepAbc14

theorem schedStepAbc16 :
    extendWords 16 (wsRevAbc.drop 16) = wsRevAbc := by
  rw [show (extendWords 16 (wsRevAbc.drop 16) : List Nat)
      = extendWords 15 (nextWord (wsRevAbc.drop 16) :: wsRevAbc.drop 16) from rfl]
  rw [show (nextWord (wsRevAbc.drop 16) :: wsRevAbc.drop 16 : List Nat)
      = wsRevAbc.drop 15 from by decide]
  exact schedStepAbc15

theorem schedStepAbc17 :
    extendWords 17 (wsRevAbc.drop 17) = wsRevAbc := by
  rw [show (extendWords 17 (wsRevAbc.drop 17) : List Nat)
      = extendWords 16 (nextWord (wsRevAbc.drop 17) :: wsRevAbc.drop 17) from rfl]
  rw [show (nextWord (wsRevAbc.drop 17) :: wsRevAbc.drop 17 : List Nat)
      = wsRevAbc.drop 16 from by decide]
  exact schedStepAbc16

theorem schedStepAbc18 :
    extendWords 18 (wsRevAbc.drop 18) = wsRevAbc := by
  rw [show (extendWords 18 (wsRevAbc.drop 18) : List Nat)
      = extendWords 17 (nextWord (wsRevAbc.drop 18) :: wsRevAbc.drop 18) from rfl]
  rw [show (nextWord (wsRevAbc.drop 18) :: wsRevAbc.drop 18 : List Nat)
      = wsRevAbc.drop 17 from by decide]
  exact schedStepAbc17

theorem schedStepAbc19 :
    extendWords 19 (wsRevAbc.drop 19) = wsRevAbc := by
  rw [show (extendWords 19 (wsRevAbc.drop 19) : List Nat)
      = extendWords 18 (nextWord (wsRevAbc.drop 19) :: wsRevAbc.drop 19) from rfl]
  rw [show (nextWord (wsRevAbc.drop 19) :: wsRevAbc.drop 19 : List Nat)
      = wsRevAbc.drop 18 from by decide]
  exact schedStepAbc18

theorem schedStepAbc20 :
    extendWords 20 (wsRevAbc.drop 20) = wsRevAbc := by
  rw [show (extendWords 20 (wsRevAbc.drop 20) : List Nat)
      = extendWords 19 (nextWord (wsRevAbc.drop 20) :: wsRevAbc.drop 20) from rfl]
  rw [show (nextWord (wsRevAbc.drop 20) :: wsRevAbc.drop 20 : List Nat)
      = wsRevAbc.drop 19 from by decide]
  exact schedStepAbc19

theorem schedStepAbc21 :
    extendWords 21 (wsRevAbc.drop 21) = wsRevAbc := by
  rw [show (extendWords 21 (wsRevAbc.drop 21) : List Nat)
      = extendWords 20 (nextWord (wsRevAbc.drop 21) :: wsRevAbc.drop 21) from rfl]
  rw [show (nextWord (wsRevAbc.drop 21) :: wsRevAbc.drop 21 : List Nat)
      = wsRevAbc.drop 20 from by decide]
  exact schedStepAbc20

theorem schedStepAbc22 :
    extendWords 22 (wsRevAbc.drop 22) = wsRevAbc := by
  rw [show (extendWords 22 (wsRevAbc.drop 22) : List Nat)
      = extendWords 21 (nextWord (wsRevAbc.drop 22) :: wsRevAbc.drop 22) from rfl]
  rw [show (nextWord (wsRevAbc.drop 22) :: wsRevAbc.drop 22 : List Nat)
      = wsRevAbc.drop 21 from by decide]
  exact schedStepAbc21

theorem schedStepAbc23 :
    extendWords 23 (wsRevAbc.drop 23) = wsRevAbc := by
  rw [show (extendWords 23 (wsRevAbc.drop 23) : List Nat)
      = extendWords 22 (nextWord (wsRevAbc.drop 23) :: wsRevAbc.drop 23) from rfl]
  rw [show (nextWord (wsRevAbc.drop 23) :: wsRevAbc.drop 23 : List Nat)
      = wsRevAbc.drop 22 from by decide]
  exact schedStepAbc22

theorem schedStepAbc24 :
    extendWords 24 (wsRevAbc.drop 24) = wsRevAbc := by
  rw [show (extendWords 24 (wsRevAbc.drop 24) : List Nat)
      = extendWords 23 (nextWord (wsRevAbc.drop 24) :: wsRevAbc.drop 24) from rfl]
  rw [show (nextWord (wsRevAbc.drop 24) :: wsRevAbc.drop 24 : List Nat)
      = wsRevAbc.drop 23 from by decide]
  exact schedStepAbc23

theorem schedStepAbc25 :
    extendWords 25 (wsRevAbc.drop 25) = wsRevAbc := by
  rw [show (extendWords 25 (wsRevAbc.drop 25) : List Nat)
      = extendWords 24 (nextWord (wsRevAbc.drop 25) :: wsRevAbc.drop 25) from rfl]
  rw [show (nextWord (wsRevAbc.drop 25) :: wsRevAbc.drop 25 : List Nat)
      = wsRevAbc.drop 24 from by decide]
  exact schedStepAbc24

theorem schedStepAbc26 :
    extendWords 26 (wsRevAbc.drop 26) = wsRevAbc := by
  rw [show (extendWords 26 (wsRevAbc.drop 26) : List Nat)
      = extendWords 25 (nextWord (wsRevAbc.drop 26) :: wsRevAbc.drop 26) from rfl]
  rw [show (nextWord (wsRevAbc.drop 26) :: wsRevAbc.drop 26 : List Nat)
      = wsRevAbc.drop 25 from by decide]
  exact schedStepAbc25

theorem schedStepAbc27 :
    extendWords 27 (wsRevAbc.drop 27) = wsRevAbc := by
  rw [show (extendWords 27 (wsRevAbc.drop 27) : List Nat)
      = extendWords 26 (nextWord (wsRevAbc.drop 27) :: wsRevAbc.drop 27) from rfl]
  rw [show (nextWord (wsRevAbc.drop 27) :: wsRevAbc.drop 27 : List Nat)
      = wsRevAbc.drop 26 from by decide]
  exact schedStepAbc26

theorem schedStepAbc28 :
    extendWords 28 (wsRevAbc.drop 28) = wsRevAbc := by
  rw [show (extendWords 28 (wsRevAbc.drop 28) : List Nat)
      = extendWords 27 (nextWord (wsRevAbc.drop 28) :: wsRevAbc.drop 28) from rfl]
  rw [show (nextWord (wsRevAbc.drop 28) :: wsRevAbc.drop 28 : List Nat)
      = wsRevAbc.drop 27 from by decide]
  exact schedStepAbc27

theorem schedStepAbc29 :
    extendWords 29 (wsRevAbc.drop 29) = wsRevAbc := by
  rw [show (extendWords 29 (wsRevAbc.drop 29) : List Nat)
      = extendWords 28 (nextWord (wsRevAbc.drop 29) :: wsRevAbc.drop 29) from rfl]
  rw [show (nextWord (wsRevAbc.drop 29) :: wsRevAbc.drop 29 : List Nat)
      = wsRevAbc.drop 28 from by decide]
  exact schedStepAbc28

theorem schedStepAbc30 :
    extendWords 30 (wsRevAbc.drop 30) = wsRevAbc := by
  rw [show (extendWords 30 (wsRevAbc.drop 30) : List Nat)
      = extendWords 29 (nextWord (wsRevAbc.drop 30) :: wsRevAbc.drop 30) from rfl]
  rw [show (nextWord (wsRevAbc.drop 30) :: wsRevAbc.drop 30 : List Nat)
      = wsRevAbc.drop 29 from by decide]
  exact schedStepAbc29

theorem schedStepAbc31 :
    extendWords 31 (wsRevAbc.drop 31) = wsRevAbc := by
  rw [show (extendWords 31 (wsRevAbc.drop 31) : List Nat)
      = extendWords 30 (nextWord (wsRevAbc.drop 31) :: wsRevAbc.drop 31) from rfl]
  rw [show (nextWord (wsRevAbc.drop 31) :: wsRevAbc.drop 31 : List Nat)
      = wsRevAbc.drop 30 from by decide]
  exact schedStepAbc30

theorem schedStepAbc32 :
    extendWords 32 (wsRevAbc.drop 32) = wsRevAbc := by
  rw [show (extendWords 32 (wsRevAbc.drop 32) : List Nat)
      = extendWords 31 (nextWord (wsRevAbc.drop 32) :: wsRevAbc.drop 32) from rfl]
  rw [show (nextWord (wsRevAbc.drop 32) :: wsRevAbc.drop 32 : List Nat)
      = wsRevAbc.drop 31 from by decide]
  exact schedStepAbc31

theorem schedStepAbc33 :
    extendWords 33 (wsRevAbc.drop 33) = wsRevAbc := by
  rw [show (extendWords 33 (wsRevAbc.drop 33) : List Nat)
      = extendWords 32 (nextWord (wsRevAbc.drop 33) :: wsRevAbc.drop 33) from rfl]
  rw [show (nextWord (wsRevAbc.drop 33) :: wsRevAbc.drop 33 : List Nat)
      = wsRevAbc.drop 32 from by decide]
  exact schedStepAbc32

theorem schedStepAbc34 :
    extendWords 34 (wsRevAbc.drop 34) = wsRevAbc := by
  rw [show (extendWords 34 (wsRevAbc.drop 34) : List Nat)
      = extendWords 33 (nextWord (wsRevAbc.drop 34) :: wsRevAbc.drop 34) from rfl]
  rw [show (nextWord (wsRevAbc.drop 34) :: wsRevAbc.drop 34 : List Nat)
      = wsRevAbc.drop 33 from by decide]
  exact schedStepAbc33

theorem schedStepAbc35 :
    extendWords 35 (wsRevAbc.drop 35) = wsRevAbc := by
  rw [show (extendWords 35 (wsRevAbc.drop 35) : List Nat)
      = extendWords 34 (nextWord (wsRevAbc.drop 35) :: wsRevAbc.drop 35) from rfl]
  rw [show (nextWord (wsRevAbc.drop 35) :: wsRevAbc.drop 35 : List Nat)
      = wsRevAbc.drop 34 from by decide]
  exact schedStepAbc34

theorem schedStepAbc36 :
    extendWords 36 (wsRevAbc.drop 36) = wsRevAbc := by
  rw [show (extendWords 36 (wsRevAbc.drop 36) : List Nat)
      = extendWords 35 (nextWord (wsRevAbc.drop 36) :: wsRevAbc.drop 36) from rfl]
  rw [show (nextWord (wsRevAbc.drop 36) :: wsRevAbc.drop 36 : List Nat)
      = wsRevAbc.drop 35 from by decide]
  exact schedStepAbc35

theorem schedStepAbc37 :
    extendWords 37 (wsRevAbc.drop 37) = wsRevAbc := by
  rw [show (extendWords 37 (wsRevAbc.drop 37) : List Nat)
      = extendWords 36 (nextWord (wsRevAbc.drop 37) :: wsRevAbc.drop 37) from rfl]
  rw [show (nextWord (wsRevAbc.drop 37) :: wsRevAbc.drop 37 : List Nat)
      = wsRevAbc.drop 36 from by decide]
  exact schedStepAbc36

theorem schedStepAbc38 :
    extendWords 38 (wsRevAbc.drop 38) = wsRevAbc := by
  rw [show (extendWords 38 (wsRevAbc.drop 38) : List Nat)
      = extendWords 37 (nextWord (wsRevAbc.drop 38) :: wsRevAbc.drop 38) from rfl]
  rw [show (nextWord (wsRevAbc.drop 38) :: wsRevAbc.drop 38 : List Nat)
      = wsRevAbc.drop 37 from by decide]
  exact schedStepAbc37

theorem schedStepAbc39 :
    extendWords 39 (wsRevAbc.drop 39) = wsRevAbc := by
  rw [show (extendWords 39 (wsRevAbc.drop 39) : List Nat)
      = extendWords 38 (nextWord (wsRevAbc.drop 39) :: wsRevAbc.drop 39) from rfl]
  rw [show (nextWord (wsRevAbc.drop 39) :: wsRevAbc.drop 39 : List Nat)
      = wsRevAbc.drop 38 from by decide]
  exact schedStepAbc38

theorem schedStepAbc40 :
    extendWords 40 (wsRevAbc.drop 40) = wsRevAbc := by
  rw [show (extendWords 40 (wsRevAbc.drop 40) : List Nat)
      = extendWords 39 (nextWord (wsRevAbc.drop 40) :: wsRevAbc.drop 40) from rfl]
  rw [show (nextWord (wsRevAbc.drop 40) :: wsRevAbc.drop 40 : List Nat)
      = wsRevAbc.drop 39 from by decide]
  exact schedStepAbc39

theorem schedStepAbc41 :
    extendWords 41 (wsRevAbc.drop 41) = wsRevAbc := by
  rw [show (extendWords 41 (wsRevAbc.drop 41) : List Nat)
      = extendWords 40 (nextWord (wsRevAbc.drop 41) :: wsRevAbc.drop 41) from rfl]
  rw [show (nextWord (wsRevAbc.drop 41) :: wsRevAbc.drop 41 : List Nat)
      = wsRevAbc.drop 40 from by decide]
  exact schedStepAbc40

theorem schedStepAbc42 :
    extendWords 42 (wsRevAbc.drop 42) = wsRevAbc := by
  rw [show (extendWords 42 (wsRevAbc.drop 42) : List Nat)
      = extendWords 41 (nextWord (wsRevAbc.drop 42) :: wsRevAbc.drop 42) from rfl]
  rw [show (nextWord (wsRevAbc.drop 42) :: wsRevAbc.drop 42 : List Nat)
      = wsRevAbc.drop 41 from by decide]
  exact schedStepAbc41

theorem schedStepAbc43 :
    extendWords 43 (wsRevAbc.drop 43) = wsRevAbc := by
  rw [show (extendWords 43 (wsRevAbc.drop 43) : List Nat)
      = extendWords 42 (nextWord (wsRevAbc.drop 43) :: wsRevAbc.drop 43) from rfl]
  rw [show (nextWord (wsRevAbc.drop 43) :: wsRevAbc.drop 43 : List Nat)
      = wsRevAbc.drop 42 from by decide]
  exact schedStepAbc42

theorem schedStepAbc44 :
    extendWords 44 (wsRevAbc.drop 44) = wsRevAbc := by
  rw [show (extendWords 44 (wsRevAbc.drop 44) : List Nat)
      = extendWords 43 (nextWord (wsRevAbc.drop 44) :: wsRevAbc.drop 44) from rfl]
  rw [show (nextWord (wsRevAbc.drop 44) :: wsRevAbc.drop 44 : List Nat)
      = wsRevAbc.drop 43 from by decide]
  exact schedStepAbc43

theorem schedStepAbc45 :
    extendWords 45 (wsRevAbc.drop 45) = wsRevAbc := by
  rw [show (extendWords 45 (wsRevAbc.drop 45) : List Nat)
      = extendWords 44 (nextWord (wsRevAbc.drop 45) :: wsRevAbc.drop 45) from rfl]
  rw [show (nextWord (wsRevAbc.drop 45) :: wsRevAbc.drop 45 : List Nat)
      = wsRevAbc.drop 44 from by decide]
  exact schedStepAbc44

theorem schedStepAbc46 :
    extendWords 46 (wsRevAbc.drop 46) = wsRevAbc := by
  rw [show (extendWords 46 (wsRevAbc.drop 46) : List Nat)
      = extendWords 45 (nextWord (wsRevAbc.drop 46) :: wsRevAbc.drop 46) from rfl]
  rw [show (nextWord (wsRevAbc.drop 46) :: wsRevAbc.drop 46 : List Nat)
      = wsRevAbc.drop 45 from by decide]
  exact schedStepAbc45

theorem schedStepAbc47 :
    extendWords 47 (wsRevAbc.drop 47) = wsRevAbc := by
  rw [show (extendWords 47 (wsRevAbc.drop 47) : List Nat)
      = extendWords 46 (nextWord (wsRevAbc.drop 47) :: wsRevAbc.drop 47) from rfl]
  rw [show (nextWord (wsRevAbc.drop 47) :: wsRevAbc.drop 47 : List Nat)
      = wsRevAbc.drop 46 from by decide]
  exact schedStepAbc46

theorem schedStepAbc48 :
    extendWords 48 (wsRevAbc.drop 48) = wsRevAbc := by
  rw [show (extendWords 48 (wsRevAbc.drop 48) : List Nat)
      = extendWords 47 (nextWord (wsRevAbc.drop 48) :: wsRevAbc.drop 48) from rfl]
  rw [show (nextWord (wsRevAbc.drop 48) :: wsRevAbc.drop 48 : List Nat)
      = wsRevAbc.drop 47 from by decide]
  exact schedStepAbc47

theorem schedEvalAbc : messageSchedule padBlockAbc = wsAbc := by
  show (extendWords 48 ((initialWords padBlockAbc).reverse)).reverse = wsAbc
  rw [show ((initialWords padBlockAbc).reverse : List Nat) = wsRevAbc.drop 48 from by decide]
  rw [schedStepAbc48]
  decide

theorem roundStepAbc64 :
    List.foldl (fun r kw => sha256Round r kw.1 kw.2) (⟨1349398616, 3550093669, 80891244, 3093179625, 1593118500, 4212265488, 2492278198, 2518632596⟩ : Sha256Regs)
      (kwAbc.drop 64) = ⟨1349398616, 3550093669, 80891244, 3093179625, 1593118500, 4212265488, 2492278198, 2518632596⟩ := by
  rw [show (kwAbc.drop 64 : List (Nat × Nat)) = [] from by decide]
  rfl

theorem roundStepAbc63 :
    List.foldl (fun r kw => sha256Round r kw.1 kw.2) (⟨3550093669, 80891244, 3093179625, 3064893439, 4212265488, 2492278198, 2518632596, 2988158269⟩ : Sha256Regs)
      (kwAbc.drop 63) = ⟨1349398616, 3550093669, 80891244, 3093179625, 1593118500, 4212265488, 2492278198, 2518632596⟩ := by
  rw [show (kwAbc.drop 63 : List (Nat × Nat))
      = (3329325298, 313650667) :: kwAbc.drop 64 from by decide]
  rw [List.foldl_cons]
  rw [show (sha256Round (⟨3550093669, 80891244, 3093179625, 3064893439, 4212265488, 2492278198, 2518632596, 2988158269⟩ : Sha256Regs)
      (3329325298, 313650667).1 (3329325298, 313650667).2 : Sha256Regs)
      = ⟨1349398616, 3550093669, 80891244, 3093179625, 1593118500, 4212265488, 2492278198, 2518632596⟩ from by decide]
  exact roundStepAbc64

theorem roundStepAbc62 :
    List.foldl (fun r kw => sha256Round r kw.1 kw.2) (⟨80891244, 3093179625, 3064893439, 4290184306, 2492278198, 2518632596, 2988158269, 1837350854⟩ : Sha256Regs)
      (kwAbc.drop 62) = ⟨1349398616, 3550093669, 80891244, 3093179625, 1593118500, 4212265488, 2492278198, 2518632596⟩ := by
  rw [show (kwAbc.drop 62 : List (Nat × Nat))
      = (3204031479, 4004225740) :: kwAbc.drop 63 from by decide]
  rw [List.foldl_cons]
  rw [show (sha256Round (⟨80891244, 3093179625, 3064893439, 4290184306, 2492278198, 2518632596, 2988158269, 1837350854⟩ : Sha256Regs)
      (3204031479, 4004225740).1 (3204031479, 4004225740).2 : Sha256Regs)
      = ⟨3550093669, 80891244, 3093179625, 3064893439, 4212265488, 2492278198, 2518632596, 2988158269⟩ from by decide]
  exact roundStepAbc63

theorem roundStepAbc61 :
    List.foldl (fun r kw => sha256Round r kw.1 kw.2) (⟨3093179625, 3064893439, 4290184306, 3227702383, 2518632596, 2988158269, 1837350854, 2118385806⟩ : Sha256Regs)
      (kwAbc.drop 61) = ⟨1349398616, 3550093669, 80891244, 3093179625, 1593118500, 4212265488, 2492278198, 2518632596⟩ := by
  rw [show (kwAbc.drop 61 : List (Nat × Nat))
      = (2756734187, 1720397816) :: kwAbc.drop 62 from by decide]
  rw [List.foldl_cons]
  rw [show (sha256Round (⟨3093179625, 3064893439, 4290184306, 3227702383, 2518632596, 2988158269, 1837350854, 2118385806⟩ : Sha256Regs)
      (2756734187, 1720397816).1 (2756734187, 1720397816).2 : Sha256Regs)
      = ⟨80891244, 3093179625, 3064893439, 4290184306, 2492278198, 2518632596, 2988158269, 1837350854⟩ from by decide]
  exact roundStepAbc62

theorem roundStepAbc60 :
    List.foldl (fun r kw => sha256Round r kw.1 kw.2) (⟨3064893439, 4290184306, 3227702383, 4241590395, 2988158269, 1837350854, 2118385806, 2606665836⟩ : Sha256Regs)
      (kwAbc.drop 60) = ⟨1349398616, 3550093669, 80891244, 3093179625, 1593118500, 4212265488, 2492278198, 2518632596⟩ := by
  rw [show (kwAbc.drop 60 : List (Nat × Nat))
      = (2428436474, 2755645205) :: kwAbc.drop 61 from by decide]
  rw [List.foldl_cons]
  rw [show (sha256Round (⟨3064893439, 4290184306, 3227702383, 4241590395, 2988158269, 1837350854, 2118385806, 2606665836⟩ : Sha256Regs)
      (2428436474, 2755645205).1 (2428436474, 2755645205).2 : Sha256Regs)
      = ⟨3093179625, 3064893439, 4290184306, 3227702383, 2518632596, 2988158269, 1837350854, 2118385806⟩ from by decide]
  exact roundStepAbc61

theorem roundStepAbc59 :
    List.foldl (fun r kw => sha256Round r kw.1 kw.2) (⟨4290184306, 3227702383, 4241590395, 952932627, 1837350854, 2118385806, 2606665836, 1422599787⟩ : Sha256Regs)
      (kwAbc.drop 59) = ⟨1349398616, 3550093669, 80891244, 3093179625, 1593118500, 4212265488, 2492278198, 2518632596⟩ := by
  rw [show (kwAbc.drop 59 : List (Nat × Nat))
      = (2361852424, 2025622859) :: kwAbc.drop 60 from by decide]
  rw [List.foldl_cons]
  rw [show (sha256Round (⟨4290184306, 3227702383, 4241590395, 952932627, 1837350854, 2118385806, 2606665836, 1422599787⟩ : Sha256Regs)
      (2361852424, 2025622859).1 (2361852424, 2025622859).2 : Sha256Regs)
      = ⟨3064893439, 4290184306, 3227702383, 4241590395, 2988158269, 1837350854, 2118385806, 2606665836⟩ from by decide]
  exact roundStepAbc60

theorem roundStepAbc58 :
    List.foldl (fun r kw => sha256Round r kw.1 kw.2) (⟨3227702383, 4241590395, 952932627, 1053056219, 2118385806, 2606665836, 1422599787, 3842906959⟩ : Sha256Regs)
      (kwAbc.drop 58) = ⟨1349398616, 3550093669, 80891244, 3093179625, 1593118500, 4212265488, 2492278198, 2518632596⟩ := by
  rw [show (kwAbc.drop 58 : List (Nat × Nat))
      = (2227730452, 2682456414) :: kwAbc.drop 59 from by decide]
  rw [List.foldl_cons]
  rw [show (sha256Round (⟨3227702383, 4241590395, 952932627, 1053056219, 2118385806, 2606665836, 1422599787, 3842906959⟩ : Sha256Regs)
      (2227730452, 2682456414).1 (2227730452, 2682456414).2 : Sha256Regs)
      = ⟨4290184306, 3227702383, 4241590395, 952932627, 1837350854, 2118385806, 2606665836, 1422599787⟩ from by decide]
  exact roundStepAbc59

theorem roundStepAbc57 :
    List.foldl (fun r kw => sha256Round r kw.1 kw.2) (⟨4241590395, 952932627, 1053056219, 4117770203, 2606665836, 1422599787, 3842906959, 2672265155⟩ : Sha256Regs)
      (kwAbc.drop 57) = ⟨1349398616, 3550093669, 80891244, 3093179625, 1593118500, 4212265488, 2492278198, 2518632596⟩ := by
  rw [show (kwAbc.drop 57 : List (Nat × Nat))
      = (2024104815, 3957764664) :: kwAbc.drop 58 from by decide]
  rw [List.foldl_cons]
  rw [show (sha256Round (⟨4241590395, 952932627, 1053056219, 4117770203, 2606665836, 1422599787, 3842906959, 2672265155⟩ : Sha256Regs)
      (2024104815, 3957764664).1 (2024104815, 3957764664).2 : Sha256Regs)
      = ⟨3227702383, 4241590395, 952932627, 1053056219, 2118385806, 2606665836, 1422599787, 3842906959⟩ from by decide]
  exact roundStepAbc58

theorem roundStepAbc56 :
    List.foldl (fun r kw => sha256Round r kw.1 kw.2) (⟨952932627, 1053056219, 4117770203, 270520975, 1422599787, 3842906959, 2672265155, 1386118400⟩ : Sha256Regs)
      (kwAbc.drop 56) = ⟨1349398616, 3550093669, 80891244, 3093179625, 1593118500, 4212265488, 2492278198, 2518632596⟩ := by
  rw [show (kwAbc.drop 56 : List (Nat × Nat))
      = (1955562222, 4015503821) :: kwAbc.drop 57 from by decide]
  rw [List.foldl_cons]
  rw [show (sha256Round (⟨952932627, 1053056219, 4117770203, 270520975, 1422599787, 3842906959, 2672265155, 1386118400⟩ : Sha256Regs)
      (1955562222, 4015503821).1 (1955562222, 4015503821).2 : Sha256Regs)
      = ⟨4241590395, 952932627, 1053056219, 4117770203, 2606665836, 1422599787, 3842906959, 2672265155⟩ from by decide]
  exact roundStepAbc57

theorem roundStepAbc55 :
    List.foldl (fun r kw => sha256Round r kw.1 kw.2) (⟨1053056219, 4117770203, 270520975, 2288941602, 3842906959, 2672265155, 1386118400, 1227037726⟩ : Sha256Regs)
      (kwAbc.drop 55) = ⟨1349398616, 3550093669, 80891244, 3093179625, 1593118500, 4212265488, 2492278198, 2518632596⟩ := by
  rw [show (kwAbc.drop 55 : List (Nat × Nat))
      = (1747873779, 2987358873) :: kwAbc.drop 56 from by decide]
  rw [List.foldl_cons]
  rw [show (sha256Round (⟨1053056219, 4117770203, 270520975, 2288941602, 3842906959, 2672265155, 1386118400, 1227037726⟩ : Sha256Regs)
      (1747873779, 2987358873).1 (1747873779, 2987358873).2 : Sha256Regs)
      = ⟨952932627, 1053056219, 4117770203, 270520975, 1422599787, 3842906959, 2672265155, 1386118400⟩ from by decide]
  exact roundStepAbc56

theorem roundStepAbc54 :
    List.foldl (fun r kw => sha256Round r kw.1 kw.2) (⟨4117770203, 270520975, 2288941602, 2047150241, 2672265155, 1386118400, 1227037726, 1391578359⟩ : Sha256Regs)
      (kwAbc.drop 54) = ⟨1349398616, 3550093669, 80891244, 3093179625, 1593118500, 4212265488, 2492278198, 2518632596⟩ := by
  rw [show (kwAbc.drop 54 : List (Nat × Nat))
      = (1537002063, 344409900) :: kwAbc.drop 55 from by decide]
  rw [List.foldl_cons]
  rw [show (sha256Round (⟨4117770203, 270520975, 2288941602, 2047150241, 2672265155, 1386118400, 1227037726, 1391578359⟩ : Sha256Regs)
      (1537002063, 344409900).1 (1537002063, 344409900).2 : Sha256Regs)
      = ⟨1053056219, 4117770203, 270520975, 2288941602, 3842906959, 2672265155, 1386118400, 1227037726⟩ from by decide]
  exact roundStepAbc55

theorem roundStepAbc53 :
    List.foldl (fun r kw => sha256Round r kw.1 kw.2) (⟨270520975, 2288941602, 2047150241, 4045142696, 1386118400, 1227037726, 1391578359, 1851537676⟩ : Sha256Regs)
      (kwAbc.drop 53) = ⟨1349398616, 3550093669, 80891244, 3093179625, 1593118500, 4212265488, 2492278198, 2518632596⟩ := by
  rw [show (kwAbc.drop 53 : List (Nat × Nat))
      = (1322822218, 3256115900) :: kwAbc.drop 54 from by decide]
  rw [List.foldl_cons]
  rw [show (sha256Round (⟨270520975, 2288941602, 2047150241, 4045142696, 1386118400, 1227037726, 1391578359, 1851537676⟩ : Sha256Regs)
      (1322822218, 3256115900).1 (1322822218, 3256115900).2 : Sha256Regs)
      = ⟨4117770203, 270520975, 2288941602, 2047150241, 2672265155, 1386118400, 1227037726, 1391578359⟩ from by decide]
  exact roundStepAbc54

theorem roundStepAbc52 :
    List.foldl (fun r kw => sha256Round r kw.1 kw.2) (⟨2288941602, 2047150241, 4045142696, 91585771, 1227037726, 1391578359, 1851537676, 3178315832⟩ : Sha256Regs)
      (kwAbc.drop 52) = ⟨1349398616, 3550093669, 80891244, 3093179625, 1593118500, 4212265488, 2492278198, 2518632596⟩ := by
  rw [show (kwAbc.drop 52 : List (Nat × Nat))
      = (958139571, 2226839261) :: kwAbc.drop 53 from by decide]
  rw [List.foldl_cons]
  rw [show (sha256Round (⟨2288941602, 2047150241, 4045142696, 91585771, 1227037726, 1391578359, 1851537676, 3178315832⟩ : Sha256Regs)
      (958139571, 2226839261).1 (958139571, 2226839261).2 : Sha256Regs)
      = ⟨270520975, 2288941602, 2047150241, 4045142696, 1386118400, 1227037726, 1391578359, 1851537676⟩ from by decide]
  exact roundStepAbc53

theorem roundStepAbc51 :
    List.foldl (fun r kw => sha256Round r kw.1 kw.2) (⟨2047150241, 4045142696, 91585771, 1098003085, 1391578359, 1851537676, 3178315832, 4274981830⟩ : Sha256Regs)
      (kwAbc.drop 51) = ⟨1349398616, 3550093669, 80891244, 3093179625, 1593118500, 4212265488, 2492278198, 2518632596⟩ := by
  rw [show (kwAbc.drop 51 : List (Nat × Nat))
      = (883997877, 2845390439) :: kwAbc.drop 52 from by decide]
  rw [List.foldl_cons]
  rw [show (sha256Round (⟨2047150241, 4045142696, 91585771, 1098003085, 1391578359, 1851537676, 3178315832, 4274981830⟩ : Sha256Regs)
      (883997877, 2845390439).1 (883997877, 2845390439).2 : Sha256Regs)
      = ⟨2288941602, 2047150241, 4045142696, 91585771, 1227037726, 1391578359, 1851537676, 3178315832⟩ from by decide]
  exact roundStepAbc52

theorem roundStepAbc50 :
    List.foldl (fun r kw => sha256Round r kw.1 kw.2) (⟨4045142696, 91585771, 1098003085, 2706117808, 1851537676, 3178315832, 4274981830, 3581645993⟩ : Sha256Regs)
      (kwAbc.drop 50) = ⟨1349398616, 3550093669, 80891244, 3093179625, 1593118500, 4212265488, 2492278198, 2518632596⟩ := by
  rw [show (kwAbc.drop 50 : List (Nat × Nat))
      = (659060556, 3118885940) :: kwAbc.drop 51 from by decide]
  rw [List.foldl_cons]
  rw [show (sha256Round (⟨4045142696, 91585771, 1098003085, 2706117808, 1851537676, 3178315832, 4274981830, 3581645993⟩ : Sha256Regs)
      (659060556, 3118885940).1 (659060556, 3118885940).2 : Sha256Regs)
      = ⟨2047150241, 4045142696, 91585771, 1098003085, 1391578359, 1851537676, 3178315832, 4274981830⟩ from by decide]
  exact roundStepAbc51

theorem roundStepAbc49 :
    List.foldl (fun r kw => sha256Round r kw.1 kw.2) (⟨91585771, 1098003085, 2706117808, 1923828625, 3178315832, 4274981830, 3581645993, 3077922209⟩ : Sha256Regs)
      (kwAbc.drop 49) = ⟨1349398616, 3550093669, 80891244, 3093179625, 1593118500, 4212265488, 2492278198, 2518632596⟩ := by
  rw [show (kwAbc.drop 49 : List (Nat × Nat))
      = (506948616, 3430291419) :: kwAbc.drop 50 from by decide]
  rw [List.foldl_cons]
  rw [show (sha256Round (⟨91585771, 1098003085, 2706117808, 1923828625, 3178315832, 4274981830, 3581645993, 3077922209⟩ : Sha256Regs)
      (506948616, 3430291419).1 (506948616, 3430291419).2 : Sha256Regs)
      = ⟨4045142696, 91585771, 1098003085, 2706117808, 1851537676, 3178315832, 4274981830, 3581645993⟩ from by decide]
  exact roundStepAbc50

theorem roundStepAbc48 :
    List.foldl (fun r kw => sha256Round r kw.1 kw.2) (⟨1098003085, 2706117808, 1923828625, 643991573, 4274981830, 3581645993, 3077922209, 2819559920⟩ : Sha256Regs)
      (kwAbc.drop 48) = ⟨1349398616, 3550093669, 80891244, 3093179625, 1593118500, 4212265488, 2492278198, 2518632596⟩ := by
  rw [show (kwAbc.drop 48 : List (Nat × Nat))
      = (430227734, 4215179723) :: kwAbc.drop 49 from by decide]
  rw [List.foldl_cons]
  rw [show (sha256Round (⟨1098003085, 2706117808, 1923828625, 643991573, 4274981830, 3581645993, 3077922209, 2819559920⟩ : Sha256Regs)
      (430227734, 4215179723).1 (430227734, 4215179723).2 : Sha256Regs)
      = ⟨91585771, 1098003085, 2706117808, 1923828625, 3178315832, 4274981830, 3581645993, 3077922209⟩ from by decide]
  exact roundStepAbc49

theorem roundStepAbc47 :
    List.foldl (fun r kw => sha256Round r kw.1 kw.2) (⟨2706117808, 1923828625, 643991573, 2638983059, 3581645993, 3077922209, 2819559920, 4255271982⟩ : Sha256Regs)
      (kwAbc.drop 47) = ⟨1349398616, 3550093669, 80891244, 3093179625, 1593118500, 4212265488, 2492278198, 2518632596⟩ := by
  rw [show (kwAbc.drop 47 : List (Nat × Nat))
      = (275423344, 106709978) :: kwAbc.drop 48 from by decide]
  rw [List.foldl_cons]
  rw [show (sha256Round (⟨2706117808, 1923828625, 643991573, 2638983059, 3581645993, 3077922209, 2819559920, 4255271982⟩ : Sha256Regs)
      (275423344, 106709978).1 (275423344, 106709978).2 : Sha256Regs)
      = ⟨1098003085, 2706117808, 1923828625, 643991573, 4274981830, 3581645993, 3077922209, 2819559920⟩ from by decide]
  exact roundStepAbc48

theorem roundStepAbc46 :
    List.foldl (fun r kw => sha256Round r kw.1 kw.2) (⟨1923828625, 643991573, 2638983059, 397020670, 3077922209, 2819559920, 4255271982, 3737995029⟩ : Sha256Regs)
      (kwAbc.drop 46) = ⟨1349398616, 3550093669, 80891244, 3093179625, 1593118500, 4212265488, 2492278198, 2518632596⟩ := by
  rw [show (kwAbc.drop 46 : List (Nat × Nat))
      = (4094571909, 2049510749) :: kwAbc.drop 47 from by decide]
  rw [List.foldl_cons]
  rw [show (sha256Round (⟨1923828625, 643991573, 2638983059, 397020670, 3077922209, 2819559920, 4255271982, 3737995029⟩ : Sha256Regs)
      (4094571909, 2049510749).1 (4094571909, 2049510749).2 : Sha256Regs)
      = ⟨2706117808, 1923828625, 643991573, 2638983059, 3581645993, 3077922209, 2819559920, 4255271982⟩ from by decide]
  exact roundStepAbc47

theorem roundStepAbc45 :
    List.foldl (fun r kw => sha256Round r kw.1 kw.2) (⟨643991573, 2638983059, 397020670, 3745932591, 2819559920, 4255271982, 3737995029, 2206934801⟩ : Sha256Regs)
      (kwAbc.drop 45) = ⟨1349398616, 3550093669, 80891244, 3093179625, 1593118500, 4212265488, 2492278198, 2518632596⟩ := by
  rw [show (kwAbc.drop 45 : List (Nat × Nat))
      = (3600352804, 2215296807) :: kwAbc.drop 46 from by decide]
  rw [List.foldl_cons]
  rw [show (sha256Round (⟨643991573, 2638983059, 397020670, 3745932591, 2819559920, 4255271982, 3737995029, 2206934801⟩ : Sha256Regs)
      (3600352804, 2215296807).1 (3600352804, 2215296807).2 : Sha256Regs)
      = ⟨1923828625, 643991573, 2638983059, 397020670, 3077922209, 2819559920, 4255271982, 3737995029⟩ from by decide]
  exact roundStepAbc46

theorem roundStepAbc44 :
    List.foldl (fun r kw => sha256Round r kw.1 kw.2) (⟨2638983059, 397020670, 3745932591, 3597076326, 4255271982, 3737995029, 2206934801, 641019235⟩ : Sha256Regs)
      (kwAbc.drop 44) = ⟨1349398616, 3550093669, 80891244, 3093179625, 1593118500, 4212265488, 2492278198, 2518632596⟩ := by
  rw [show (kwAbc.drop 44 : List (Nat × Nat))
      = (3516065817, 206005234) :: kwAbc.drop 45 from by decide]
  rw [List.foldl_cons]
  rw [show (sha256Round (⟨2638983059, 397020670, 3745932591, 3597076326, 4255271982, 3737995029, 2206934801, 641019235⟩ : Sha256Regs)
      (3516065817, 206005234).1 (3516065817, 206005234).2 : Sha256Regs)
      = ⟨643991573, 2638983059, 397020670, 3745932591, 2819559920, 4255271982, 3737995029, 2206934801⟩ from by decide]
  exact roundStepAbc45

theorem roundStepAbc43 :
    List.foldl (fun r kw => sha256Round r kw.1 kw.2) (⟨397020670, 3745932591, 3597076326, 2045405306, 3737995029, 2206934801, 641019235, 519815328⟩ : Sha256Regs)
      (kwAbc.drop 43) = ⟨1349398616, 3550093669, 80891244, 3093179625, 1593118500, 4212265488, 2492278198, 2518632596⟩ := by
  rw [show (kwAbc.drop 43 : List (Nat × Nat))
      = (3345764771, 657669027) :: kwAbc.drop 44 from by decide]
  rw [List.foldl_cons]
  rw [show (sha256Round (⟨397020670, 3745932591, 3597076326, 2045405306, 3737995029, 2206934801, 641019235, 519815328⟩ : Sha256Regs)
      (3345764771, 657669027).1 (3345764771, 657669027).2 : Sha256Regs)
      = ⟨2638983059, 397020670, 3745932591, 3597076326, 4255271982, 3737995029, 2206934801, 641019235⟩ from by decide]
  exact roundStepAbc44

theorem roundStepAbc42 :
    List.foldl (fun r kw => sha256Round r kw.1 kw.2) (⟨3745932591, 3597076326, 2045405306, 1841658506, 2206934801, 641019235, 519815328, 4034403272⟩ : Sha256Regs)
      (kwAbc.drop 42) = ⟨1349398616, 3550093669, 80891244, 3093179625, 1593118500, 4212265488, 2492278198, 2518632596⟩ := by
  rw [show (kwAbc.drop 42 : List (Nat × Nat))
      = (3259730800, 1042573945) :: kwAbc.drop 43 from by decide]
  rw [List.foldl_cons]
  rw [show (sha256Round (⟨3745932591, 3597076326, 2045405306, 1841658506, 2206934801, 641019235, 519815328, 4034403272⟩ : Sha256Regs)
      (3259730800, 1042573945).1 (3259730800, 1042573945).2 : Sha256Regs)
      = ⟨397020670, 3745932591, 3597076326, 2045405306, 3737995029, 2206934801, 641019235, 519815328⟩ from by decide]
  exact roundStepAbc43

theorem roundStepAbc41 :
    List.foldl (fun r kw => sha256Round r kw.1 kw.2) (⟨3597076326, 2045405306, 1841658506, 887035396, 641019235, 519815328, 4034403272, 2768741693⟩ : Sha256Regs)
      (kwAbc.drop 41) = ⟨1349398616, 3550093669, 80891244, 3093179625, 1593118500, 4212265488, 2492278198, 2518632596⟩ := by
  rw [show (kwAbc.drop 41 : List (Nat × Nat))
      = (2820302411, 4037431130) :: kwAbc.drop 42 from by decide]
  rw [List.foldl_cons]
  rw [show (sha256Round (⟨3597076326, 2045405306, 1841658506, 887035396, 641019235, 519815328, 4034403272, 2768741693⟩ : Sha256Regs)
      (2820302411, 4037431130).1 (2820302411, 4037431130).2 : Sha256Regs)
      = ⟨3745932591, 3597076326, 2045405306, 1841658506, 2206934801, 641019235, 519815328, 4034403272⟩ from by decide]
  exact roundStepAbc42

theorem roundStepAbc40 :
    List.foldl (fun r kw => sha256Round r kw.1 kw.2) (⟨2045405306, 1841658506, 887035396, 1101421745, 519815328, 4034403272, 2768741693, 124953195⟩ : Sha256Regs)
      (kwAbc.drop 40) = ⟨1349398616, 3550093669, 80891244, 3093179625, 1593118500, 4212265488, 2492278198, 2518632596⟩ := by
  rw [show (kwAbc.drop 40 : List (Nat × Nat))
      = (2730485921, 2672279444) :: kwAbc.drop 41 from by decide]
  rw [List.foldl_cons]
  rw [show (sha256Round (⟨2045405306, 1841658506, 887035396, 1101421745, 519815328, 4034403272, 2768741693, 124953195⟩ : Sha256Regs)
      (2730485921, 2672279444).1 (2730485921, 2672279444).2 : Sha256Regs)
      = ⟨3597076326, 2045405306, 1841658506, 887035396, 641019235, 519815328, 4034403272, 2768741693⟩ from by decide]
  exact roundStepAbc41

theorem roundStepAbc39 :
    List.foldl (fun r kw => sha256Round r kw.1 kw.2) (⟨1841658506, 887035396, 1101421745, 1705037796, 4034403272, 2768741693, 124953195, 4105175766⟩ : Sha256Regs)
      (kwAbc.drop 39) = ⟨1349398616, 3550093669, 80891244, 3093179625, 1593118500, 4212265488, 2492278198, 2518632596⟩ := by
  rw [show (kwAbc.drop 39 : List (Nat × Nat))
      = (2456956037, 610538786) :: kwAbc.drop 40 from by decide]
  rw [List.foldl_cons]
  rw [show (sha256Round (⟨1841658506, 887035396, 1101421745, 1705037796, 4034403272, 2768741693, 124953195, 4105175766⟩ : Sha256Regs)
      (2456956037, 610538786).1 (2456956037, 610538786).2 : Sha256Regs)
      = ⟨2045405306, 1841658506, 887035396, 1101421745, 519815328, 4034403272, 2768741693, 124953195⟩ from by decide]
  exact roundStepAbc40

theorem roundStepAbc38 :
    List.foldl (fun r kw => sha256Round r kw.1 kw.2) (⟨887035396, 1101421745, 1705037796, 2846323596, 2768741693, 124953195, 4105175766, 140458035⟩ : Sha256Regs)
      (kwAbc.drop 38) = ⟨1349398616, 3550093669, 80891244, 3093179625, 1593118500, 4212265488, 2492278198, 2518632596⟩ := by
  rw [show (kwAbc.drop 38 : List (Nat × Nat))
      = (2177026350, 2483675966) :: kwAbc.drop 39 from by decide]
  rw [List.foldl_cons]
  rw [show (sha256Round (⟨887035396, 1101421745, 1705037796, 2846323596, 2768741693, 124953195, 4105175766, 140458035⟩ : Sha256Regs)
      (2177026350, 2483675966).1 (2177026350, 2483675966).2 : Sha256Regs)
      = ⟨1841658506, 887035396, 1101421745, 1705037796, 4034403272, 2768741693, 124953195, 4105175766⟩ from by decide]
  exact roundStepAbc39

theorem roundStepAbc37 :
    List.foldl (fun r kw => sha256Round r kw.1 kw.2) (⟨1101421745, 1705037796, 2846323596, 4267724277, 124953195, 4105175766, 140458035, 1495571923⟩ : Sha256Regs)
      (kwAbc.drop 37) = ⟨1349398616, 3550093669, 80891244, 3093179625, 1593118500, 4212265488, 2492278198, 2518632596⟩ := by
  rw [show (kwAbc.drop 37 : List (Nat × Nat))
      = (1986661051, 1924104970) :: kwAbc.drop 38 from by decide]
  rw [List.foldl_cons]
  rw [show (sha256Round (⟨1101421745, 1705037796, 2846323596, 4267724277, 124953195, 4105175766, 140458035, 1495571923⟩ : Sha256Regs)
      (1986661051, 1924104970).1 (1986661051, 1924104970).2 : Sha256Regs)
      = ⟨887035396, 1101421745, 1705037796, 2846323596, 2768741693, 124953195, 4105175766, 140458035⟩ from by decide]
  exact roundStepAbc38

theorem roundStepAbc36 :
    List.foldl (fun r kw => sha256Round r kw.1 kw.2) (⟨1705037796, 2846323596, 4267724277, 2564891911, 4105175766, 140458035, 1495571923, 2631529974⟩ : Sha256Regs)
      (kwAbc.drop 36) = ⟨1349398616, 3550093669, 80891244, 3093179625, 1593118500, 4212265488, 2492278198, 2518632596⟩ := by
  rw [show (kwAbc.drop 36 : List (Nat × Nat))
      = (1695183700, 176896406) :: kwAbc.drop 37 from by decide]
  rw [List.foldl_cons]
  rw [show (sha256Round (⟨1705037796, 2846323596, 4267724277, 2564891911, 4105175766, 140458035, 1495571923, 2631529974⟩ : Sha256Regs)
      (1695183700, 176896406).1 (1695183700, 176896406).2 : Sha256Regs)
      = ⟨1101421745, 1705037796, 2846323596, 4267724277, 124953195, 4105175766, 140458035, 1495571923⟩ from by decide]
  exact roundStepAbc37

theorem roundStepAbc35 :
    List.foldl (fun r kw => sha256Round r kw.1 kw.2) (⟨2846323596, 4267724277, 2564891911, 1941126133, 140458035, 1495571923, 2631529974, 3126399250⟩ : Sha256Regs)
      (kwAbc.drop 35) = ⟨1349398616, 3550093669, 80891244, 3093179625, 1593118500, 4212265488, 2492278198, 2518632596⟩ := by
  rw [show (kwAbc.drop 35 : List (Nat × Nat))
      = (1396182291, 4043988066) :: kwAbc.drop 36 from by decide]
  rw [List.foldl_cons]
  rw [show (sha256Round (⟨2846323596, 4267724277, 2564891911, 1941126133, 140458035, 1495571923, 2631529974, 3126399250⟩ : Sha256Regs)
      (1396182291, 4043988066).1 (1396182291, 4043988066).2 : Sha256Regs)
      = ⟨1705037796, 2846323596, 4267724277, 2564891911, 4105175766, 140458035, 1495571923, 2631529974⟩ from by decide]
  exact roundStepAbc36

theorem roundStepAbc34 :
    List.foldl (fun r kw => sha256Round r kw.1 kw.2) (⟨4267724277, 2564891911, 1941126133, 3935906338, 1495571923, 2631529974, 3126399250, 17410874⟩ : Sha256Regs)
      (kwAbc.drop 34) = ⟨1349398616, 3550093669, 80891244, 3093179625, 1593118500, 4212265488, 2492278198, 2518632596⟩ := by
  rw [show (kwAbc.drop 34 : List (Nat × Nat))
      = (1294757372, 2952069057) :: kwAbc.drop 35 from by decide]
  rw [List.foldl_cons]
  rw [show (sha256Round (⟨4267724277, 2564891911, 1941126133, 3935906338, 1495571923, 2631529974, 3126399250, 17410874⟩ : Sha256Regs)
      (1294757372, 2952069057).1 (1294757372, 2952069057).2 : Sha256Regs)
      = ⟨2846323596, 4267724277, 2564891911, 1941126133, 140458035, 1495571923, 2631529974, 3126399250⟩ from by decide]
  exact roundStepAbc35

theorem roundStepAbc33 :
    List.foldl (fun r kw => sha256Round r kw.1 kw.2) (⟨2564891911, 1941126133, 3935906338, 2684750640, 2631529974, 3126399250, 17410874, 2917635127⟩ : Sha256Regs)
      (kwAbc.drop 33) = ⟨1349398616, 3550093669, 80891244, 3093179625, 1593118500, 4212265488, 2492278198, 2518632596⟩ := by
  rw [show (kwAbc.drop 33 : List (Nat × Nat))
      = (773529912, 996719219) :: kwAbc.drop 34 from by decide]
  rw [List.foldl_cons]
  rw [show (sha256Round (⟨2564891911, 1941126133, 3935906338, 2684750640, 2631529974, 3126399250, 17410874, 2917635127⟩ : Sha256Regs)
      (773529912, 996719219).1 (773529912, 996719219).2 : Sha256Regs)
      = ⟨4267724277, 2564891911, 1941126133, 3935906338, 1495571923, 2631529974, 3126399250, 17410874⟩ from by decide]
  exact roundStepAbc34

theorem roundStepAbc32 :
    List.foldl (fun r kw => sha256Round r kw.1 kw.2) (⟨1941126133, 3935906338, 2684750640, 909411017, 3126399250, 17410874, 2917635127, 1628611511⟩ : Sha256Regs)
      (kwAbc.drop 32) = ⟨1349398616, 3550093669, 80891244, 3093179625, 1593118500, 4212265488, 2492278198, 2518632596⟩ := by
  rw [show (kwAbc.drop 32 : List (Nat × Nat))
      = (666307205, 2482346367) :: kwAbc.drop 33 from by decide]
  rw [List.foldl_cons]
  rw [show (sha256Round (⟨1941126133, 3935906338, 2684750640, 909411017, 3126399250, 17410874, 2917635127, 1628611511⟩ : Sha256Regs)
      (666307205, 2482346367).1 (666307205, 2482346367).2 : Sha256Regs)
      = ⟨2564891911, 1941126133, 3935906338, 2684750640, 2631529974, 3126399250, 17410874, 2917635127⟩ from by decide]
  exact roundStepAbc33

theorem roundStepAbc31 :
    List.foldl (fun r kw => sha256Round r kw.1 kw.2) (⟨3935906338, 2684750640, 909411017, 2010346792, 17410874, 2917635127, 1628611511, 3992961016⟩ : Sha256Regs)
      (kwAbc.drop 31) = ⟨1349398616, 3550093669, 80891244, 3093179625, 1593118500, 4212265488, 2492278198, 2518632596⟩ := by
  rw [show (kwAbc.drop 31 : List (Nat × Nat))
      = (338241895, 3552024379) :: kwAbc.drop 32 from by decide]
  rw [List.foldl_cons]
  rw [show (sha256Round (⟨3935906338, 2684750640, 909411017, 2010346792, 17410874, 2917635127, 1628611511, 3992961016⟩ : Sha256Regs)
      (338241895, 3552024379).1 (338241895, 3552024379).2 : Sha256Regs)
      = ⟨1941126133, 3935906338, 2684750640, 909411017, 3126399250, 17410874, 2917635127, 1628611511⟩ from by decide]
  exact roundStepAbc32

theorem roundStepAbc30 :
    List.foldl (fun r kw => sha256Round r kw.1 kw.2) (⟨2684750640, 909411017, 2010346792, 3056518332, 2917635127, 1628611511, 3992961016, 3343672598⟩ : Sha256Regs)
      (kwAbc.drop 30) = ⟨1349398616, 3550093669, 80891244, 3093179625, 1593118500, 4212265488, 2492278198, 2518632596⟩ := by
  rw [show (kwAbc.drop 30 : List (Nat × Nat))
      = (113926993, 1881225380) :: kwAbc.drop 31 from by decide]
  rw [List.foldl_cons]
  rw [show (sha256Round (⟨2684750640, 909411017, 2010346792, 3056518332, 2917635127, 1628611511, 3992961016, 3343672598⟩ : Sha256Regs)
      (113926993, 1881225380).1 (113926993, 1881225380).2 : Sha256Regs)
      = ⟨3935906338, 2684750640, 909411017, 2010346792, 17410874, 2917635127, 1628611511, 3992961016⟩ from by decide]
  exact roundStepAbc31

theorem roundStepAbc29 :
    List.foldl (fun r kw => sha256Round r kw.1 kw.2) (⟨909411017, 2010346792, 3056518332, 3454534525, 1628611511, 3992961016, 3343672598, 339230094⟩ : Sha256Regs)
      (kwAbc.drop 29) = ⟨1349398616, 3550093669, 80891244, 3093179625, 1593118500, 4212265488, 2492278198, 2518632596⟩ := by
  rw [show (kwAbc.drop 29 : List (Nat × Nat))
      = (3584528711, 3968280267) :: kwAbc.drop 30 from by decide]
  rw [List.foldl_cons]
  rw [show (sha256Round (⟨909411017, 2010346792, 3056518332, 3454534525, 1628611511, 3992961016, 3343672598, 339230094⟩ : Sha256Regs)
      (3584528711, 3968280267).1 (3584528711, 3968280267).2 : Sha256Regs)
      = ⟨2684750640, 909411017, 2010346792, 3056518332, 2917635127, 1628611511, 3992961016, 3343672598⟩ from by decide]
  exact roundStepAbc30

theorem roundStepAbc28 :
    List.foldl (fun r kw => sha256Round r kw.1 kw.2) (⟨2010346792, 3056518332, 3454534525, 472655928, 3992961016, 3343672598, 339230094, 673443729⟩ : Sha256Regs)
      (kwAbc.drop 28) = ⟨1349398616, 3550093669, 80891244, 3093179625, 1593118500, 4212265488, 2492278198, 2518632596⟩ := by
  rw [show (kwAbc.drop 28 : List (Nat × Nat))
      = (3336571891, 2636160359) :: kwAbc.drop 29 from by decide]
  rw [List.foldl_cons]
  rw [show (sha256Round (⟨2010346792, 3056518332, 3454534525, 472655928, 3992961016, 3343672598, 339230094, 673443729⟩ : Sha256Regs)
      (3336571891, 2636160359).1 (3336571891, 2636160359).2 : Sha256Regs)
      = ⟨909411017, 2010346792, 3056518332, 3454534525, 1628611511, 3992961016, 3343672598, 339230094⟩ from by decide]
  exact roundStepAbc29

theorem roundStepAbc27 :
    List.foldl (fun r kw => sha256Round r kw.1 kw.2) (⟨3056518332, 3454534525, 472655928, 3319086477, 3343672598, 339230094, 673443729, 2856829767⟩ : Sha256Regs)
      (kwAbc.drop 27) = ⟨1349398616, 3550093669, 80891244, 3093179625, 1593118500, 4212265488, 2492278198, 2518632596⟩ := by
  rw [show (kwAbc.drop 27 : List (Nat × Nat))
      = (3210313671, 845560923) :: kwAbc.drop 28 from by decide]
  rw [List.foldl_cons]
  rw [show (sha256Round (⟨3056518332, 3454534525, 472655928, 3319086477, 3343672598, 339230094, 673443729, 2856829767⟩ : Sha256Regs)
      (3210313671, 845560923).1 (3210313671, 845560923).2 : Sha256Regs)
      = ⟨2010346792, 3056518332, 3454534525, 472655928, 3992961016, 3343672598, 339230094, 673443729⟩ from by decide]
  exact roundStepAbc28

theorem roundStepAbc26 :
    List.foldl (fun r kw => sha256Round r kw.1 kw.2) (⟨3454534525, 472655928, 3319086477, 2812502591, 339230094, 673443729, 2856829767, 1240797514⟩ : Sha256Regs)
      (kwAbc.drop 26) = ⟨1349398616, 3550093669, 80891244, 3093179625, 1593118500, 4212265488, 2492278198, 2518632596⟩ := by
  rw [show (kwAbc.drop 26 : List (Nat × Nat))
      = (2952996808, 3854317833) :: kwAbc.drop 27 from by decide]
  rw [List.foldl_cons]
  rw [show (sha256Round (⟨3454534525, 472655928, 3319086477, 2812502591, 339230094, 673443729, 2856829767, 1240797514⟩ : Sha256Regs)
      (2952996808, 3854317833).1 (2952996808, 3854317833).2 : Sha256Regs)
      = ⟨3056518332, 3454534525, 472655928, 3319086477, 3343672598, 339230094, 673443729, 2856829767⟩ from by decide]
  exact roundStepAbc27

theorem roundStepAbc25 :
    List.foldl (fun r kw => sha256Round r kw.1 kw.2) (⟨472655928, 3319086477, 2812502591, 3261099373, 673443729, 2856829767, 1240797514, 3777329520⟩ : Sha256Regs)
      (kwAbc.drop 25) = ⟨1349398616, 3550093669, 80891244, 3093179625, 1593118500, 4212265488, 2492278198, 2518632596⟩ := by
  rw [show (kwAbc.drop 25 : List (Nat × Nat))
      = (2821834349, 3073800610) :: kwAbc.drop 26 from by decide]
  rw [List.foldl_cons]
  rw [show (sha256Round (⟨472655928, 3319086477, 2812502591, 3261099373, 673443729, 2856829767, 1240797514, 3777329520⟩ : Sha256Regs)
      (2821834349, 3073800610).1 (2821834349, 3073800610).2 : Sha256Regs)
      = ⟨3454534525, 472655928, 3319086477, 2812502591, 339230094, 673443729, 2856829767, 1240797514⟩ from by decide]
  exact roundStepAbc26

theorem roundStepAbc24 :
    List.foldl (fun r kw => sha256Round r kw.1 kw.2) (⟨3319086477, 2812502591, 3261099373, 2647034723, 2856829767, 1240797514, 3777329520, 2329577776⟩ : Sha256Regs)
      (kwAbc.drop 24) = ⟨1349398616, 3550093669, 80891244, 3093179625, 1593118500, 4212265488, 2492278198, 2518632596⟩ := by
  rw [show (kwAbc.drop 24 : List (Nat × Nat))
      = (2554220882, 3357629466) :: kwAbc.drop 25 from by decide]
  rw [List.foldl_cons]
  rw [show (sha256Round (⟨3319086477, 2812502591, 3261099373, 2647034723, 2856829767, 1240797514, 3777329520, 2329577776⟩ : Sha256Regs)
      (2554220882, 3357629466).1 (2554220882, 3357629466).2 : Sha256Regs)
      = ⟨472655928, 3319086477, 2812502591, 3261099373, 673443729, 2856829767, 1240797514, 3777329520⟩ from by decide]
  exact roundStepAbc25

theorem roundStepAbc23 :
    List.foldl (fun r kw => sha256Round r kw.1 kw.2) (⟨2812502591, 3261099373, 2647034723, 3790736435, 1240797514, 3777329520, 2329577776, 2959311225⟩ : Sha256Regs)
      (kwAbc.drop 23) = ⟨1349398616, 3550093669, 80891244, 3093179625, 1593118500, 4212265488, 2492278198, 2518632596⟩ := by
  rw [show (kwAbc.drop 23 : List (Nat × Nat))
      = (1996064986, 3806512014) :: kwAbc.drop 24 from by decide]
  rw [List.foldl_cons]
  rw [show (sha256Round (⟨2812502591, 3261099373, 2647034723, 3790736435, 1240797514, 3777329520, 2329577776, 2959311225⟩ : Sha256Regs)
      (1996064986, 3806512014).1 (1996064986, 3806512014).2 : Sha256Regs)
      = ⟨3319086477, 2812502591, 3261099373, 2647034723, 2856829767, 1240797514, 3777329520, 2329577776⟩ from by decide]
  exact roundStepAbc24

theorem roundStepAbc22 :
    List.foldl (fun r kw => sha256Round r kw.1 kw.2) (⟨3261099373, 2647034723, 3790736435, 4269243327, 3777329520, 2329577776, 2959311225, 3431569761⟩ : Sha256Regs)
      (kwAbc.drop 22) = ⟨1349398616, 3550093669, 80891244, 3093179625, 1593118500, 4212265488, 2492278198, 2518632596⟩ := by
  rw [show (kwAbc.drop 22 : List (Nat × Nat))
      = (1555081692, 316456923) :: kwAbc.drop 23 from by decide]
  rw [List.foldl_cons]
  rw [show (sha256Round (⟨3261099373, 2647034723, 3790736435, 4269243327, 3777329520, 2329577776, 2959311225, 3431569761⟩ : Sha256Regs)
      (1555081692, 316456923).1 (1555081692, 316456923).2 : Sha256Regs)
      = ⟨2812502591, 3261099373, 2647034723, 3790736435, 1240797514, 3777329520, 2329577776, 2959311225⟩ from by decide]
  exact roundStepAbc23

theorem roundStepAbc21 :
    List.foldl (fun r kw => sha256Round r kw.1 kw.2) (⟨2647034723, 3790736435, 4269243327, 3271285201, 2329577776, 2959311225, 3431569761, 2221859924⟩ : Sha256Regs)
      (kwAbc.drop 21) = ⟨1349398616, 3550093669, 80891244, 3093179625, 1593118500, 4212265488, 2492278198, 2518632596⟩ := by
  rw [show (kwAbc.drop 21 : List (Nat × Nat))
      = (1249150122, 25426944) :: kwAbc.drop 22 from by decide]
  rw [List.foldl_cons]
  rw [show (sha256Round (⟨2647034723, 3790736435, 4269243327, 3271285201, 2329577776, 2959311225, 3431569761, 2221859924⟩ : Sha256Regs)
      (1249150122, 25426944).1 (1249150122, 25426944).2 : Sha256Regs)
      = ⟨3261099373, 2647034723, 3790736435, 4269243327, 3777329520, 2329577776, 2959311225, 3431569761⟩ from by decide]
  exact roundStepAbc22

theorem roundStepAbc20 :
    List.foldl (fun r kw => sha256Round r kw.1 kw.2) (⟨3790736435, 4269243327, 3271285201, 567974555, 2959311225, 3431569761, 2221859924, 2150900380⟩ : Sha256Regs)
      (kwAbc.drop 20) = ⟨1349398616, 3550093669, 80891244, 3093179625, 1593118500, 4212265488, 2492278198, 2518632596⟩ := by
  rw [show (kwAbc.drop 20 : List (Nat × Nat))
      = (770255983, 1050508152) :: kwAbc.drop 21 from by decide]
  rw [List.foldl_cons]
  rw [show (sha256Round (⟨3790736435, 4269243327, 3271285201, 567974555, 2959311225, 3431569761, 2221859924, 2150900380⟩ : Sha256Regs)
      (770255983, 1050508152).1 (770255983, 1050508152).2 : Sha256Regs)
      = ⟨2647034723, 3790736435, 4269243327, 3271285201, 2329577776, 2959311225, 3431569761, 2221859924⟩ from by decide]
  exact roundStepAbc21

theorem roundStepAbc19 :
    List.foldl (fun r kw => sha256Round r kw.1 kw.2) (⟨4269243327, 3271285201, 567974555, 2969183118, 3431569761, 2221859924, 2150900380, 123276749⟩ : Sha256Regs)
      (kwAbc.drop 19) = ⟨1349398616, 3550093669, 80891244, 3093179625, 1593118500, 4212265488, 2492278198, 2518632596⟩ := by
  rw [show (kwAbc.drop 19 : List (Nat × Nat))
      = (604807628, 1610613702) :: kwAbc.drop 20 from by decide]
  rw [List.foldl_cons]
  rw [show (sha256Round (⟨4269243327, 3271285201, 567974555, 2969183118, 3431569761, 2221859924, 2150900380, 123276749⟩ : Sha256Regs)
      (604807628, 1610613702).1 (604807628, 1610613702).2 : Sha256Regs)
      = ⟨3790736435, 4269243327, 3271285201, 567974555, 2959311225, 3431569761, 2221859924, 2150900380⟩ from by decide]
  exact roundStepAbc20

theorem roundStepAbc18 :
    List.foldl (fun r kw => sha256Round r kw.1 kw.2) (⟨3271285201, 567974555, 2969183118, 3227803614, 2221859924, 2150900380, 123276749, 194179596⟩ : Sha256Regs)
      (kwAbc.drop 18) = ⟨1349398616, 3550093669, 80891244, 3093179625, 1593118500, 4212265488, 2492278198, 2518632596⟩ := by
  rw [show (kwAbc.drop 18 : List (Nat × Nat))
      = (264347078, 2108187653) :: kwAbc.drop 19 from by decide]
  rw [List.foldl_cons]
  rw [show (sha256Round (⟨3271285201, 567974555, 2969183118, 3227803614, 2221859924, 2150900380, 123276749, 194179596⟩ : Sha256Regs)
      (264347078, 2108187653).1 (264347078, 2108187653).2 : Sha256Regs)
      = ⟨4269243327, 3271285201, 567974555, 2969183118, 3431569761, 2221859924, 2150900380, 123276749⟩ from by decide]
  exact roundStepAbc19

theorem roundStepAbc17 :
    List.foldl (fun r kw => sha256Round r kw.1 kw.2) (⟨567974555, 2969183118, 3227803614, 3643992854, 2150900380, 123276749, 194179596, 1952073950⟩ : Sha256Regs)
      (kwAbc.drop 17) = ⟨1349398616, 3550093669, 80891244, 3093179625, 1593118500, 4212265488, 2492278198, 2518632596⟩ := by
  rw [show (kwAbc.drop 17 : List (Nat × Nat))
      = (4022224774, 983040) :: kwAbc.drop 18 from by decide]
  rw [List.foldl_cons]
  rw [show (sha256Round (⟨567974555, 2969183118, 3227803614, 3643992854, 2150900380, 123276749, 194179596, 1952073950⟩ : Sha256Regs)
      (4022224774, 983040).1 (4022224774, 983040).2 : Sha256Regs)
      = ⟨3271285201, 567974555, 2969183118, 3227803614, 2221859924, 2150900380, 123276749, 194179596⟩ from by decide]
  exact roundStepAbc18

theorem roundStepAbc16 :
    List.foldl (fun r kw => sha256Round r kw.1 kw.2) (⟨2969183118, 3227803614, 3643992854, 2274437520, 123276749, 194179596, 1952073950, 509051416⟩ : Sha256Regs)
      (kwAbc.drop 16) = ⟨1349398616, 3550093669, 80891244, 3093179625, 1593118500, 4212265488, 2492278198, 2518632596⟩ := by
  rw [show (kwAbc.drop 16 : List (Nat × Nat))
      = (3835390401, 1633837952) :: kwAbc.drop 17 from by decide]
  rw [List.foldl_cons]
  rw [show (sha256Round (⟨2969183118, 3227803614, 3643992854, 2274437520, 123276749, 194179596, 1952073950, 509051416⟩ : Sha256Regs)
      (3835390401, 1633837952).1 (3835390401, 1633837952).2 : Sha256Regs)
      = ⟨567974555, 2969183118, 3227803614, 3643992854, 2150900380, 123276749, 194179596, 1952073950⟩ from by decide]
  exact roundStepAbc17

theorem roundStepAbc15 :
    List.foldl (fun r kw => sha256Round r kw.1 kw.2) (⟨3227803614, 3643992854, 2274437520, 4146054569, 194179596, 1952073950, 509051416, 2171590377⟩ : Sha256Regs)
      (kwAbc.drop 15) = ⟨1349398616, 3550093669, 80891244, 3093179625, 1593118500, 4212265488, 2492278198, 2518632596⟩ := by
  rw [show (kwAbc.drop 15 : List (Nat × Nat))
      = (3248222580, 24) :: kwAbc.drop 16 from by decide]
  rw [List.foldl_cons]
  rw [show (sha256Round (⟨3227803614, 3643992854, 2274437520, 4146054569, 194179596, 1952073950, 509051416, 2171590377⟩ : Sha256Regs)
      (3248222580, 24).1 (3248222580, 24).2 : Sha256Regs)
      = ⟨2969183118, 3227803614, 3643992854, 2274437520, 123276749, 194179596, 1952073950, 509051416⟩ from by decide]
  exact roundStepAbc16

theorem roundStepAbc14 :
    List.foldl (fun r kw => sha256Round r kw.1 kw.2) (⟨3643992854, 2274437520, 4146054569, 1201185780, 1952073950, 509051416, 2171590377, 1131095016⟩ : Sha256Regs)
      (kwAbc.drop 14) = ⟨1349398616, 3550093669, 80891244, 3093179625, 1593118500, 4212265488, 2492278198, 2518632596⟩ := by
  rw [show (kwAbc.drop 14 : List (Nat × Nat))
      = (2614888103, 0) :: kwAbc.drop 15 from by decide]
  rw [List.foldl_cons]
  rw [show (sha256Round (⟨3643992854, 2274437520, 4146054569, 1201185780, 1952073950, 509051416, 2171590377, 1131095016⟩ : Sha256Regs)
      (2614888103, 0).1 (2614888103, 0).2 : Sha256Regs)
      = ⟨3227803614, 3643992854, 2274437520, 4146054569, 194179596, 1952073950, 509051416, 2171590377⟩ from by decide]
  exact roundStepAbc15

theorem roundStepAbc13 :
    List.foldl (fun r kw => sha256Round r kw.1 kw.2) (⟨2274437520, 4146054569, 1201185780, 2357671019, 509051416, 2171590377, 1131095016, 482944406⟩ : Sha256Regs)
      (kwAbc.drop 13) = ⟨1349398616, 3550093669, 80891244, 3093179625, 1593118500, 4212265488, 2492278198, 2518632596⟩ := by
  rw [show (kwAbc.drop 13 : List (Nat × Nat))
      = (2162078206, 0) :: kwAbc.drop 14 from by decide]
  rw [List.foldl_cons]
  rw [show (sha256Round (⟨2274437520, 4146054569, 1201185780, 2357671019, 509051416, 2171590377, 1131095016, 482944406⟩ : Sha256Regs)
      (2162078206, 0).1 (2162078206, 0).2 : Sha256Regs)
      = ⟨3643992854, 2274437520, 4146054569, 1201185780, 1952073950, 509051416, 2171590377, 1131095016⟩ from by decide]
  exact roundStepAbc14

theorem roundStepAbc12 :
    List.foldl (fun r kw => sha256Round r kw.1 kw.2) (⟨4146054569, 1201185780, 2357671019, 2382687417, 2171590377, 1131095016, 482944406, 852110732⟩ : Sha256Regs)
      (kwAbc.drop 12) = ⟨1349398616, 3550093669, 80891244, 3093179625, 1593118500, 4212265488, 2492278198, 2518632596⟩ := by
  rw [show (kwAbc.drop 12 : List (Nat × Nat))
      = (1925078388, 0) :: kwAbc.drop 13 from by decide]
  rw [List.foldl_cons]
  rw [show (sha256Round (⟨4146054569, 1201185780, 2357671019, 2382687417, 2171590377, 1131095016, 482944406, 852110732⟩ : Sha256Regs)
      (1925078388, 0).1 (1925078388, 0).2 : Sha256Regs)
      = ⟨2274437520, 4146054569, 1201185780, 2357671019, 509051416, 2171590377, 1131095016, 482944406⟩ from by decide]
  exact roundStepAbc13

theorem roundStepAbc11 :
    List.foldl (fun r kw => sha256Round r kw.1 kw.2) (⟨1201185780, 2357671019, 2382687417, 2241887071, 1131095016, 482944406, 852110732, 207977081⟩ : Sha256Regs)
      (kwAbc.drop 11) = ⟨1349398616, 3550093669, 80891244, 3093179625, 1593118500, 4212265488, 2492278198, 2518632596⟩ := by
  rw [show (kwAbc.drop 11 : List (Nat × Nat))
      = (1426881987, 0) :: kwAbc.drop 12 from by decide]
  rw [List.foldl_cons]
  rw [show (sha256Round (⟨1201185780, 2357671019, 2382687417, 2241887071, 1131095016, 482944406, 852110732, 207977081⟩ : Sha256Regs)
      (1426881987, 0).1 (1426881987, 0).2 : Sha256Regs)
      = ⟨4146054569, 1201185780, 2357671019, 2382687417, 2171590377, 1131095016, 482944406, 852110732⟩ from by decide]
  exact roundStepAbc12

theorem roundStepAbc10 :
    List.foldl (fun r kw => sha256Round r kw.1 kw.2) (⟨2357671019, 2382687417, 2241887071, 3842179968, 482944406, 852110732, 207977081, 2603066369⟩ : Sha256Regs)
      (kwAbc.drop 10) = ⟨1349398616, 3550093669, 80891244, 3093179625, 1593118500, 4212265488, 2492278198, 2518632596⟩ := by
  rw [show (kwAbc.drop 10 : List (Nat × Nat))
      = (607225278, 0) :: kwAbc.drop 11 from by decide]
  rw [List.foldl_cons]
  rw [show (sha256Round (⟨2357671019, 2382687417, 2241887071, 3842179968, 482944406, 852110732, 207977081, 2603066369⟩ : Sha256Regs)
      (607225278, 0).1 (607225278, 0).2 : Sha256Regs)
      = ⟨1201185780, 2357671019, 2382687417, 2241887071, 1131095016, 482944406, 852110732, 207977081⟩ from by decide]
  exact roundStepAbc11

theorem roundStepAbc9 :
    List.foldl (fun r kw => sha256Round r kw.1 kw.2) (⟨2382687417, 2241887071, 3842179968, 725748213, 852110732, 207977081, 2603066369, 1900175533⟩ : Sha256Regs)
      (kwAbc.drop 9) = ⟨1349398616, 3550093669, 80891244, 3093179625, 1593118500, 4212265488, 2492278198, 2518632596⟩ := by
  rw [show (kwAbc.drop 9 : List (Nat × Nat))
      = (310598401, 0) :: kwAbc.drop 10 from by decide]
  rw [List.foldl_cons]
  rw [show (sha256Round (⟨2382687417, 2241887071, 3842179968, 725748213, 852110732, 207977081, 2603066369, 1900175533⟩ : Sha256Regs)
      (310598401, 0).1 (310598401, 0).2 : Sha256Regs)
      = ⟨2357671019, 2382687417, 2241887071, 3842179968, 482944406, 852110732, 207977081, 2603066369⟩ from by decide]
  exact roundStepAbc10

theorem roundStepAbc8 :
    List.foldl (fun r kw => sha256Round r kw.1 kw.2) (⟨2241887071, 3842179968, 725748213, 71342698, 207977081, 2603066369, 1900175533, 1135452741⟩ : Sha256Regs)
      (kwAbc.drop 8) = ⟨1349398616, 3550093669, 80891244, 3093179625, 1593118500, 4212265488, 2492278198, 2518632596⟩ := by
  rw [show (kwAbc.drop 8 : List (Nat × Nat))
      = (3624381080, 0) :: kwAbc.drop 9 from by decide]
  rw [List.foldl_cons]
  rw [show (sha256Round (⟨2241887071, 3842179968, 725748213, 71342698, 207977081, 2603066369, 1900175533, 1135452741⟩ : Sha256Regs)
      (3624381080, 0).1 (3624381080, 0).2 : Sha256Regs)
      = ⟨2382687417, 2241887071, 3842179968, 725748213, 852110732, 207977081, 2603066369, 1900175533⟩ from by decide]
  exact roundStepAbc9

theorem roundStepAbc7 :
    List.foldl (fun r kw => sha256Round r kw.1 kw.2) (⟨3842179968, 725748213, 71342698, 3578852966, 2603066369, 1900175533, 1135452741, 618661968⟩ : Sha256Regs)
      (kwAbc.drop 7) = ⟨1349398616, 3550093669, 80891244, 3093179625, 1593118500, 4212265488, 2492278198, 2518632596⟩ := by
  rw [show (kwAbc.drop 7 : List (Nat × Nat))
      = (2870763221, 0) :: kwAbc.drop 8 from by decide]
  rw [List.foldl_cons]
  rw [show (sha256Round (⟨3842179968, 725748213, 71342698, 3578852966, 2603066369, 1900175533, 1135452741, 618661968⟩ : Sha256Regs)
      (2870763221, 0).1 (2870763221, 0).2 : Sha256Regs)
      = ⟨2241887071, 3842179968, 725748213, 71342698, 207977081, 2603066369, 1900175533, 1135452741⟩ from by decide]
  exact roundStepAbc8

theorem roundStepAbc6 :
    List.foldl (fun r kw => sha256Round r kw.1 kw.2) (⟨725748213, 71342698, 3578852966, 3368241063, 1900175533, 1135452741, 618661968, 4180228587⟩ : Sha256Regs)
      (kwAbc.drop 6) = ⟨1349398616, 3550093669, 80891244, 3093179625, 1593118500, 4212265488, 2492278198, 2518632596⟩ := by
  rw [show (kwAbc.drop 6 : List (Nat × Nat))
      = (2453635748, 0) :: kwAbc.drop 7 from by decide]
  rw [List.foldl_cons]
  rw [show (sha256Round (⟨725748213, 71342698, 3578852966, 3368241063, 1900175533, 1135452741, 618661968, 4180228587⟩ : Sha256Regs)
      (2453635748, 0).1 (2453635748, 0).2 : Sha256Regs)
      = ⟨3842179968, 725748213, 71342698, 3578852966, 2603066369, 1900175533, 1135452741, 618661968⟩ from by decide]
  exact roundStepAbc7

theorem roundStepAbc5 :
    List.foldl (fun r kw => sha256Round r kw.1 kw.2) (⟨71342698, 3578852966, 3368241063, 1516951981, 1135452741, 618661968, 4180228587, 2026797449⟩ : Sha256Regs)
      (kwAbc.drop 5) = ⟨1349398616, 3550093669, 80891244, 3093179625, 1593118500, 4212265488, 2492278198, 2518632596⟩ := by
  rw [show (kwAbc.drop 5 : List (Nat × Nat))
      = (1508970993, 0) :: kwAbc.drop 6 from by decide]
  rw [List.foldl_cons]
  rw [show (sha256Round (⟨71342698, 3578852966, 3368241063, 1516951981, 1135452741, 618661968, 4180228587, 2026797449⟩ : Sha256Regs)
      (1508970993, 0).1 (1508970993, 0).2 : Sha256Regs)
      = ⟨725748213, 71342698, 3578852966, 3368241063, 1900175533, 1135452741, 618661968, 4180228587⟩ from by decide]
  exact roundStepAbc6

theorem roundStepAbc4 :
    List.foldl (fun r kw => sha256Round r kw.1 kw.2) (⟨3578852966, 3368241063, 1516951981, 1567288269, 618661968, 4180228587, 2026797449, 4197074466⟩ : Sha256Regs)
      (kwAbc.drop 4) = ⟨1349398616, 3550093669, 80891244, 3093179625, 1593118500, 4212265488, 2492278198, 2518632596⟩ := by
  rw [show (kwAbc.drop 4 : List (Nat × Nat))
      = (961987163, 0) :: kwAbc.drop 5 from by decide]
  rw [List.foldl_cons]
  rw [show (sha256Round (⟨3578852966, 3368241063, 1516951981, 1567288269, 618661968, 4180228587, 2026797449, 4197074466⟩ : Sha256Regs)
      (961987163, 0).1 (961987163, 0).2 : Sha256Regs)
      = ⟨71342698, 3578852966, 3368241063, 1516951981, 1135452741, 618661968, 4180228587, 2026797449⟩ from by decide]
  exact roundStepAbc5

theorem roundStepAbc3 :
    List.foldl (fun r kw => sha256Round r kw.1 kw.2) (⟨3368241063, 1516951981, 1567288269, 1779033703, 4180228587, 2026797449, 4197074466, 1359893119⟩ : Sha256Regs)
      (kwAbc.drop 3) = ⟨1349398616, 3550093669, 80891244, 3093179625, 1593118500, 4212265488, 2492278198, 2518632596⟩ := by
  rw [show (kwAbc.drop 3 : List (Nat × Nat))
      = (3921009573, 0) :: kwAbc.drop 4 from by decide]
  rw [List.foldl_cons]
  rw [show (sha256Round (⟨3368241063, 1516951981, 1567288269, 1779033703, 4180228587, 2026797449, 4197074466, 1359893119⟩ : Sha256Regs)
      (3921009573, 0).1 (3921009573, 0).2 : Sha256Regs)
      = ⟨3578852966, 3368241063, 1516951981, 1567288269, 618661968, 4180228587, 2026797449, 4197074466⟩ from by decide]
  exact roundStepAbc4

theorem roundStepAbc2 :
    List.foldl (fun r kw => sha256Round r kw.1 kw.2) (⟨1516951981, 1567288269, 1779033703, 3144134277, 2026797449, 4197074466, 1359893119, 2600822924⟩ : Sha256Regs)
      (kwAbc.drop 2) = ⟨1349398616, 3550093669, 80891244, 3093179625, 1593118500, 4212265488, 2492278198, 2518632596⟩ := by
  rw [show (kwAbc.drop 2 : List (Nat × Nat))
      = (3049323471, 0) :: kwAbc.drop 3 from by decide]
  rw [List.foldl_cons]
  rw [show (sha256Round (⟨1516951981, 1567288269, 1779033703, 3144134277, 2026797449, 4197074466, 1359893119, 2600822924⟩ : Sha256Regs)
      (3049323471, 0).1 (3049323471, 0).2 : Sha256Regs)
      = ⟨3368241063, 1516951981, 1567288269, 1779033703, 4180228587, 2026797449, 4197074466, 1359893119⟩ from by decide]
  exact roundStepAbc3

theorem roundStepAbc1 :
    List.foldl (fun r kw => sha256Round r kw.1 kw.2) (⟨1567288269, 1779033703, 3144134277, 1013904242, 4197074466, 1359893119, 2600822924, 528734635⟩ : Sha256Regs)
      (kwAbc.drop 1) = ⟨1349398616, 3550093669, 80891244, 3093179625, 1593118500, 4212265488, 2492278198, 2518632596⟩ := by
  rw [show (kwAbc.drop 1 : List (Nat × Nat))
      = (1899447441, 0) :: kwAbc.drop 2 from by decide]
  rw [List.foldl_cons]
  rw [show (sha256Round (⟨1567288269, 1779033703, 3144134277, 1013904242, 4197074466, 1359893119, 2600822924, 528734635⟩ : Sha256Regs)
      (1899447441, 0).1 (1899447441, 0).2 : Sha256Regs)
      = ⟨1516951981, 1567288269, 1779033703, 3144134277, 2026797449, 4197074466, 1359893119, 2600822924⟩ from by decide]
  exact roundStepAbc2

theorem roundsEvalAbc :
    (kwAbc).foldl (fun r kw => sha256Round r kw.1 kw.2) (regsOfState kInitState)
      = ⟨1349398616, 3550093669, 80891244, 3093179625, 1593118500, 4212265488, 2492278198, 2518632596⟩ := by
  rw [show (kwAbc : List (Nat × Nat)) = (1116352408, 1633837952) :: kwAbc.drop 1 from by decide]
  rw [List.foldl_cons]
  rw [show (sha256Round (regsOfState kInitState)
      (1116352408, 1633837952).1 (1116352408, 1633837952).2 : Sha256Regs)
      = ⟨1567288269, 1779033703, 3144134277, 1013904242, 4197074466, 1359893119, 2600822924, 528734635⟩ from by decide]
  exact roundStepAbc1

theorem processBlockEvalAbc :
    sha256ProcessBlock kInitState padBlockAbc = stateAbc := by
  show [(kInitState.getD 0 0 + ((kRoundConstants.zip (messageSchedule padBlockAbc)).foldl (fun r kw => sha256Round r kw.1 kw.2) (regsOfState kInitState)).a) % m32,
        (kInitState.getD 1 0 + ((kRoundConstants.zip (messageSchedule padBlockAbc)).foldl (fun r kw => sha256Round r kw.1 kw.2) (regsOfState kInitState)).b) % m32,
        (kInitState.getD 2 0 + ((kRoundConstants.zip (messageSchedule padBlockAbc)).foldl (fun r kw => sha256Round r kw.1 kw.2) (regsOfState kInitState)).c) % m32,
        (kInitState.getD 3 0 + ((kRoundConstants.zip (messageSchedule padBlockAbc)).foldl (fun r kw => sha256Round r kw.1 kw.2) (regsOfState kInitState)).d) % m32,
        (kInitState.getD 4 0 + ((kRoundConstants.zip (messageSchedule padBlockAbc)).foldl (fun r kw => sha256Round r kw.1 kw.2) (regsOfState kInitState)).e) % m32,
        (kInitState.getD 5 0 + ((kRoundConstants.zip (messageSchedule padBlockAbc)).foldl (fun r kw => sha256Round r kw.1 kw.2) (regsOfState kInitState)).f) % m32,
        (kInitState.getD 6 0 + ((kRoundConstants.zip (messageSchedule padBlockAbc)).foldl (fun r kw => sha256Round r kw.1 kw.2) (regsOfState kInitState)).g) % m32,
        (kInitState.getD 7 0 + ((kRoundConstants.zip (messageSchedule padBlockAbc)).foldl (fun r kw => sha256Round r kw.1 kw.2) (regsOfState kInitState)).h) % m32] = stateAbc
  rw [schedEvalAbc]
  rw [show ((kRoundConstants.zip wsAbc) : List (Nat × Nat)) = kwAbc from by decide]
  rw [roundsEvalAbc]
  decide


theorem sha256Hex_empty :
    sha256Hex [] = "e3b0c44298fc1c149afbf4c8996fb92427ae41e4649b934ca495991b7852b855" := by
  have h1 : sha256Final (sha256Update sha256Init [])
      = (stateEmpty.map be32Bytes).flatten := by
    show ((sha256ProcessBlock kInitState padBlockEmpty).map be32Bytes).flatten
        = (stateEmpty.map be32Bytes).flatten
    rw [processBlockEvalEmpty]
  show toHex (sha256Final (sha256Update sha256Init []))
      = "e3b0c44298fc1c149afbf4c8996fb92427ae41e4649b934ca495991b7852b855"
  rw [h1]
  decide

theorem sha256Hex_abc :
    sha256Hex [97, 98, 99]
      = "ba7816bf8f01cfea414140de5dae2223b00361a396177a9cb410ff61f20015ad" := by
  have h1 : sha256Final (sha256Update sha256Init [97, 98, 99])
      = (stateAbc.map be32Bytes).flatten := by
    show ((sha256ProcessBlock kInitState padBlockAbc).map be32Bytes).flatten
        = (stateAbc.map be32Bytes).flatten
    rw [processBlockEvalAbc]
  show toHex (sha256Final (sha256Update sha256Init [97, 98, 99]))
      = "ba7816bf8f01cfea414140de5dae2223b00361a396177a9cb410ff61f20015ad"
  rw [h1]
  decide

end SherpaOnnx

open SherpaOnnx

/-- C1: the SHA-256 primitive computes FIPS 180-4 SHA-256: the empty
input hashes to e3b0c442...b855, the ASCII string "abc" (bytes
97,98,99) hashes to ba7816bf...15ad, and for every byte sequence,
splitting the input across sha256_update calls at arbitrary byte
boundaries yields the same final digest as feeding it in one call. -/
theorem C1_sha256_fips_and_streaming :
    sha256Hex [] = "e3b0c44298fc1c149afbf4c8996fb92427ae41e4649b934ca495991b7852b855" ∧
    sha256Hex [97, 98, 99]
      = "ba7816bf8f01cfea414140de5dae2223b00361a396177a9cb410ff61f20015ad" ∧
    ∀ chunks : List (List Nat),
      toHex (sha256Final (chunks.foldl sha256Update sha256Init))
        = toHex (sha256Final (sha256Update sha256Init chunks.flatten)) :=
  ⟨sha256Hex_empty, sha256Hex_abc, fun chunks => by rw [sha256_streaming]⟩

/-- C9: for every source archive file, the SHA-256 hex digest reported
by a successful ExtractTarBz2 (accumulated over every read buffer plus
the drained unread trailing bytes) equals the digest reported by
ComputeFileSha256 on the same file: both hash exactly the file's full
byte sequence through the same streaming SHA-256 context. -/
theorem C9_extract_digest_eq_compute_digest
    (readBuffers fileChunks : List (List Nat)) (file : List Nat)
    (h1 : readBuffers.flatten = file) (h2 : fileChunks.flatten = file) :
    extractTarBz2SourceDigest readBuffers = computeFileSha256Digest fileChunks := by
  unfold extractTarBz2SourceDigest computeFileSha256Digest
  rw [sha256_streaming, sha256_streaming, h1, h2]

/-- Witness for C9 at a concrete file split two different ways. -/
theorem C9_extract_digest_eq_compute_digest_witness :
    extractTarBz2SourceDigest [[1], [2, 3]] = computeFileSha256Digest [[1, 2, 3]] :=
  C9_extract_digest_eq_compute_digest [[1], [2, 3]] [[1, 2, 3]] [1, 2, 3]
    (by decide) (by decide)

/-- C3 counterexample: with `model.int8.onnx` (5 bytes) and `model.onnx`
(10 bytes) both matching the role token "model" and `preferInt8` absent,
`FindOnnxByToken` selects the non-int8 file (the largest match), so the
claim that int8 files are preferred first when `preferInt8` is absent is
false: the absent case applies no int8 preference at all. -/
theorem C3_counterexample :
    findOnnxByToken
      [⟨"/m/model.int8.onnx", "model.int8.onnx", 5⟩,
       ⟨"/m/model.onnx", "model.onnx", 10⟩] "model" none
      = "/m/model.onnx"
    ∧ int8Of ⟨"/m/model.int8.onnx", "model.int8.onnx", 5⟩ = true
    ∧ int8Of ⟨"/m/model.onnx", "model.onnx", 10⟩ = false := by
  decide

/-- C3 (amended): in `FindOnnxByToken`, whenever several `.onnx` files
match the token: if preferInt8 is true and an int8 match exists, the
selected file is the last int8 match of maximal byte size; if preferInt8
is false and a non-int8 match exists, the selected file is the last
non-int8 match of maximal byte size; if preferInt8 is absent, no int8
preference is applied and the selected file is the last match of maximal
byte size overall.  In each case ties in size resolve last-seen-wins
because the size comparison uses `>=`.  (`hpaths`: discovered files have
non-empty paths, as produced by the directory scan.) -/
theorem C3_amended_int8_preference (files : List FileEntry) (token : String)
    (preferInt8 : Option Bool) (hpaths : ∀ e ∈ files, e.path ≠ "") :
    (preferInt8 = some true →
      (∃ m ∈ onnxMatches files token, int8Of m = true) →
      ∃ e, lastArgmax ((onnxMatches files token).filter int8Of) e ∧
        findOnnxByToken files token preferInt8 = e.path ∧ int8Of e = true) ∧
    (preferInt8 = some false →
      (∃ m ∈ onnxMatches files token, int8Of m = false) →
      ∃ e, lastArgmax ((onnxMatches files token).filter (fun x => !(int8Of x))) e ∧
        findOnnxByToken files token preferInt8 = e.path ∧ int8Of e = false) ∧
    (preferInt8 = none →
      onnxMatches files token ≠ [] →
      ∃ e, lastArgmax (onnxMatches files token) e ∧
        findOnnxByToken files token preferInt8 = e.path) := by
  refine ⟨?_, ?_, ?_⟩
  · intro hp hex
    obtain ⟨m, hm, h8⟩ := hex
    have honnx := @onnxMatches_isOnnx files token
    have hfne : (onnxMatches files token).filter int8Of ≠ [] := by
      intro hnil
      have : m ∈ (onnxMatches files token).filter int8Of :=
        List.mem_filter.mpr ⟨hm, h8⟩
      rw [hnil] at this
      exact absurd this (List.not_mem_nil m)
    obtain ⟨e, harg, hres⟩ := chooseLargestPlain_spec _ hfne
    have hmem := lastArgmax_mem harg
    have he8 : int8Of e = true := (List.mem_filter.mp hmem).2
    have heM : e ∈ onnxMatches files token := (List.mem_filter.mp hmem).1
    have hpath : e.path ≠ "" := hpaths e (onnxMatches_sub e heM)
    have hMne : onnxMatches files token ≠ [] := by
      intro h
      rw [h] at hm
      exact absurd hm (List.not_mem_nil m)
    have hpref : chooseLargest (onnxMatches files token) []
        ((some true : Option Bool) == some true)
        ((some true : Option Bool) == some false) = e.path := by
      show chooseLargest (onnxMatches files token) [] true false = e.path
      rw [chooseLargest_eq_filtered, filter_clEligible_int8 _ honnx, hres]
    refine ⟨e, harg, ?_, he8⟩
    rw [hp, findOnnxByToken_of_ne_nil files token (some true) hMne, hpref,
      if_pos hpath]
  · intro hp hex
    obtain ⟨m, hm, h8⟩ := hex
    have honnx := @onnxMatches_isOnnx files token
    have hm8 : (!(int8Of m)) = true := by rw [h8]; rfl
    have hfne : (onnxMatches files token).filter (fun x => !(int8Of x)) ≠ [] := by
      intro hnil
      have : m ∈ (onnxMatches files token).filter (fun x => !(int8Of x)) :=
        List.mem_filter.mpr ⟨hm, hm8⟩
      rw [hnil] at this
      exact absurd this (List.not_mem_nil m)
    obtain ⟨e, harg, hres⟩ := chooseLargestPlain_spec _ hfne
    have hmem := lastArgmax_mem harg
    have he8 : int8Of e = false := by
      have := (List.mem_filter.mp hmem).2
      simpa using this
    have heM : e ∈ onnxMatches files token := (List.mem_filter.mp hmem).1
    have hpath : e.path ≠ "" := hpaths e (onnxMatches_sub e heM)
    have hMne : onnxMatches files token ≠ [] := by
      intro h
      rw [h] at hm
      exact absurd hm (List.not_mem_nil m)
    have hpref : chooseLargest (onnxMatches files token) []
        ((some false : Option Bool) == some true)
        ((some false : Option Bool) == some false) = e.path := by
      show chooseLargest (onnxMatches files token) [] false true = e.path
      rw [chooseLargest_eq_filtered, filter_clEligible_nonInt8 _ honnx, hres]
    refine ⟨e, harg, ?_, he8⟩
    rw [hp, findOnnxByToken_of_ne_nil files token (some false) hMne, hpref,
      if_pos hpath]
  · intro hp hMne
    have honnx := @onnxMatches_isOnnx files token
    obtain ⟨e, harg, hres⟩ := chooseLargestPlain_spec _ hMne
    have hmem := lastArgmax_mem harg
    have hpath : e.path ≠ "" := hpaths e (onnxMatches_sub e hmem)
    have hpref : chooseLargest (onnxMatches files token) []
        ((none : Option Bool) == some true)
        ((none : Option Bool) == some false) = e.path := by
      show chooseLargest (onnxMatches files token) [] false false = e.path
      rw [chooseLargest_eq_filtered, filter_clEligible_all _ honnx, hres]
    refine ⟨e, harg, ?_⟩
    rw [hp, findOnnxByToken_of_ne_nil files token none hMne, hpref, if_pos hpath]

/-- Witness for the amended C3 at a concrete directory with both an int8
and a non-int8 match and preferInt8 = true. -/
theorem C3_amended_int8_preference_witness :
    ∃ e, lastArgmax ((onnxMatches
        [⟨"/m/model.int8.onnx", "model.int8.onnx", 5⟩,
         ⟨"/m/model.onnx", "model.onnx", 10⟩] "model").filter int8Of) e ∧
      findOnnxByToken
        [⟨"/m/model.int8.onnx", "model.int8.onnx", 5⟩,
         ⟨"/m/model.onnx", "model.onnx", 10⟩] "model" (some true) = e.path ∧
      int8Of e = true :=
  (C3_amended_int8_preference
      [⟨"/m/model.int8.onnx", "model.int8.onnx", 5⟩,
       ⟨"/m/model.onnx", "model.onnx", 10⟩] "model" (some true)
      (by decide)).1 rfl
    ⟨⟨"/m/model.int8.onnx", "model.int8.onnx", 5⟩, by decide, by decide⟩

/-- C4: for every model directory and absent or "auto" modelType,
DetectSttModel selects as selectedKind the first family whose presence
test holds in the fixed priority order:
transducer/nemo_transducer, directory-hinted CTC
(nemo_ctc/wenet_ctc/sense_voice), directory-hinted FunASR-Nano,
paraformer, whisper, un-hinted FunASR-Nano, directory-hinted moonshine,
dolphin, fire_red_asr, canary, omnilingual, medasr, telespeech_ctc,
then zipformer_ctc as the un-hinted CTC fallback. -/
theorem C4_stt_auto_priority_order (env : SttEnv) (preferInt8 : Option Bool)
    (modelType : Option String)
    (hauto : modelType = none ∨ modelType = some "auto")
    (hne : env.modelDir ≠ "")
    (hdir : (env.fsExists env.modelDir && env.isDir env.modelDir) = true) :
    (detectSttModel env preferInt8 modelType).selectedKind
      = firstHit (sttAutoPriority (sttPresence env preferInt8)) := by
  rw [← sttAutoSelect_eq_firstHit,
    detectSttModel_eq env preferInt8 modelType hne hdir]
  have hred : sttSelect (sttPresence env preferInt8) env.modelDir modelType
      = (if sttAutoSelect (sttPresence env preferInt8) = SttModelKind.kUnknown then
          Except.error ("No compatible model type detected in " ++ env.modelDir)
        else Except.ok (sttAutoSelect (sttPresence env preferInt8))) := by
    rcases hauto with h | h <;> subst h
    · rfl
    · unfold sttSelect
      dsimp only
      rw [if_pos rfl]
  rw [hred]
  by_cases hk : sttAutoSelect (sttPresence env preferInt8) = SttModelKind.kUnknown
  · rw [if_pos hk]
    exact hk.symm
  · rw [if_neg hk]
    exact sttFinish_selectedKind env _ _ _

/-- Witness for C4: a directory containing encoder/decoder/joiner plus
tokens selects the transducer family, the head of the priority order. -/
theorem C4_stt_auto_priority_order_witness :
    (detectSttModel
      { modelDir := "/m",
        files := [⟨"/m/encoder.onnx", "encoder.onnx", 10⟩,
                  ⟨"/m/decoder.onnx", "decoder.onnx", 9⟩,
                  ⟨"/m/joiner.onnx", "joiner.onnx", 8⟩,
                  ⟨"/m/tokens.txt", "tokens.txt", 7⟩],
        fsExists := fun s => s == "/m" || s == "/m/tokens.txt",
        isDir := fun s => s == "/m",
        tokenizerDir := "",
        isLikelyTokens := fun _ => false } none none).selectedKind
      = firstHit (sttAutoPriority (sttPresence
      { modelDir := "/m",
        files := [⟨"/m/encoder.onnx", "encoder.onnx", 10⟩,
                  ⟨"/m/decoder.onnx", "decoder.onnx", 9⟩,
                  ⟨"/m/joiner.onnx", "joiner.onnx", 8⟩,
                  ⟨"/m/tokens.txt", "tokens.txt", 7⟩],
        fsExists := fun s => s == "/m" || s == "/m/tokens.txt",
        isDir := fun s => s == "/m",
        tokenizerDir := "",
        isLikelyTokens := fun _ => false } none)) :=
  C4_stt_auto_priority_order _ none none (Or.inl rfl) (by decide) (by decide)

/-- C5: in DetectSttModel, tokensRequired is true for every selected
kind except funasr_nano; whenever the selected kind requires tokens and
no tokens file was found, the result has ok = false with error "Tokens
file not found in <dir>"; and a funasr_nano selection succeeds without
any tokens file, its tokenizer directory's vocab.json being present. -/
theorem C5_stt_tokens_required (env : SttEnv) (preferInt8 : Option Bool)
    (modelType : Option String) :
    ((detectSttModel env preferInt8 modelType).selectedKind ≠ SttModelKind.kUnknown →
      (detectSttModel env preferInt8 modelType).tokensRequired
        = ((detectSttModel env preferInt8 modelType).selectedKind
            != SttModelKind.kFunAsrNano)) ∧
    ((detectSttModel env preferInt8 modelType).selectedKind ≠ SttModelKind.kUnknown →
      (detectSttModel env preferInt8 modelType).tokensRequired = true →
      (((sttLookups env preferInt8).tokensPath != "") &&
        env.fsExists (sttLookups env preferInt8).tokensPath) = false →
      (detectSttModel env preferInt8 modelType).ok = false ∧
      (detectSttModel env preferInt8 modelType).error
        = "Tokens file not found in " ++ env.modelDir) ∧
    ((detectSttModel env preferInt8 modelType).selectedKind
        = SttModelKind.kFunAsrNano →
      (detectSttModel env preferInt8 modelType).ok = true ∧
      env.fsExists ((sttLookups env preferInt8).funasrTokenizerDir ++ "/vocab.json")
        = true) := by
  by_cases hne : env.modelDir = ""
  · unfold detectSttModel
    rw [if_pos hne]
    refine ⟨fun h => absurd rfl h, fun h => absurd rfl h,
      fun h => SttModelKind.noConfusion h⟩
  · by_cases hdir : (env.fsExists env.modelDir && env.isDir env.modelDir) = true
    · rw [detectSttModel_eq env preferInt8 modelType hne hdir]
      cases hsel : sttSelect (sttPresence env preferInt8) env.modelDir modelType with
      | error e =>
          refine ⟨fun h => absurd rfl h, fun h => absurd rfl h,
            fun h => SttModelKind.noConfusion h⟩
      | ok k =>
          refine ⟨fun _ => ?_, fun _ hreq hmiss => ?_, fun hk => ?_⟩
          · rw [sttFinish_tokensRequired, sttFinish_selectedKind]
          · rw [sttFinish_tokensRequired] at hreq
            exact sttFinish_tokens_missing env _ _ k hmiss hreq
          · rw [sttFinish_selectedKind] at hk
            subst hk
            exact ⟨sttFinish_funasr_ok env _ _,
              sttPresence_funasr_vocab env preferInt8
                (sttSelect_funasr _ _ _ hsel)⟩
    · unfold detectSttModel
      rw [if_neg hne, if_pos hdir]
      refine ⟨fun h => absurd rfl h, fun h => absurd rfl h,
        fun h => SttModelKind.noConfusion h⟩

/-- Witness for C5: a FunASR-Nano directory with no tokens file but with
its tokenizer vocab.json succeeds, and its vocab.json is present. -/
theorem C5_stt_tokens_required_witness :
    (detectSttModel
      { modelDir := "/m/funasr",
        files := [⟨"/m/funasr/encoder_adaptor.onnx", "encoder_adaptor.onnx", 10⟩,
                  ⟨"/m/funasr/llm.onnx", "llm.onnx", 9⟩,
                  ⟨"/m/funasr/embedding.onnx", "embedding.onnx", 8⟩],
        fsExists := fun s => s == "/m/funasr" || s == "/m/funasr/qwen3/vocab.json",
        isDir := fun s => s == "/m/funasr",
        tokenizerDir := "/m/funasr/qwen3",
        isLikelyTokens := fun _ => false } none none).ok = true ∧
    (fun s => s == "/m/funasr" || s == "/m/funasr/qwen3/vocab.json" : String → Bool)
      ((sttLookups
      { modelDir := "/m/funasr",
        files := [⟨"/m/funasr/encoder_adaptor.onnx", "encoder_adaptor.onnx", 10⟩,
                  ⟨"/m/funasr/llm.onnx", "llm.onnx", 9⟩,
                  ⟨"/m/funasr/embedding.onnx", "embedding.onnx", 8⟩],
        fsExists := fun s => s == "/m/funasr" || s == "/m/funasr/qwen3/vocab.json",
        isDir := fun s => s == "/m/funasr",
        tokenizerDir := "/m/funasr/qwen3",
        isLikelyTokens := fun _ => false } none).funasrTokenizerDir ++ "/vocab.json")
      = true :=
  (C5_stt_tokens_required _ none none).2.2 (by decide)

/-- C6: in DetectTtsModel, every selected kind except pocket requires
tokens.txt to be found (otherwise detection fails with a
tokens-not-found error), and every selected kind except pocket requires
the espeak-ng-data directory to exist (otherwise detection fails with an
error instructing the host to copy espeak-ng-data into the model
directory).  Part one: a successful non-pocket detection implies both
requirements held; part two: with the kind's own files present but
espeak-ng-data missing, detection fails with the espeak error; part
three: with espeak-ng-data present but tokens.txt missing, detection
fails with the tokens error. -/
theorem C6_tts_tokens_and_espeak_required (env : TtsEnv) (modelType : String) :
    ((detectTtsModel env modelType).ok = true →
      (detectTtsModel env modelType).selectedKind ≠ TtsModelKind.kPocket →
      (((ttsLookups env).tokensFile ≠ "" ∧
        env.fsExists (ttsLookups env).tokensFile = true) ∧
       (ttsFlags env).hasDataDir = true)) ∧
    (∀ k, ttsSelect (ttsFlags env) env.modelDir modelType = Except.ok k →
      k ≠ TtsModelKind.kPocket →
      ttsKindFilesOk (ttsFlags env) k = true →
      (ttsFlags env).hasDataDir = false →
      env.modelDir ≠ "" →
      (env.fsExists env.modelDir && env.isDir env.modelDir) = true →
      (detectTtsModel env modelType).ok = false ∧
      (detectTtsModel env modelType).error
        = "TTS: espeak-ng-data not found in " ++ env.modelDir
          ++ ". Copy espeak-ng-data into the model directory.") ∧
    (∀ k, ttsSelect (ttsFlags env) env.modelDir modelType = Except.ok k →
      k ≠ TtsModelKind.kPocket →
      ttsKindFilesOk (ttsFlags env) k = true →
      (ttsFlags env).hasDataDir = true →
      (((ttsLookups env).tokensFile == "") ||
        !env.fsExists (ttsLookups env).tokensFile) = true →
      env.modelDir ≠ "" →
      (env.fsExists env.modelDir && env.isDir env.modelDir) = true →
      (detectTtsModel env modelType).ok = false ∧
      (detectTtsModel env modelType).error
        = "TTS: tokens.txt not found in " ++ env.modelDir) := by
  refine ⟨?_, ?_, ?_⟩
  · intro hok hkp
    by_cases hne : env.modelDir = ""
    · unfold detectTtsModel at hok
      rw [if_pos hne] at hok
      simp at hok
    · by_cases hdir : (env.fsExists env.modelDir && env.isDir env.modelDir) = true
      · rw [detectTtsModel_eq env modelType hne hdir] at hok hkp
        cases hsel : ttsSelect (ttsFlags env) env.modelDir modelType with
        | error e => rw [hsel] at hok; simp at hok
        | ok k =>
            rw [hsel] at hok hkp
            dsimp only at hok hkp
            cases hval : ttsValidate (ttsFlags env) env.modelDir k with
            | some e => rw [hval] at hok; simp at hok
            | none =>
                rw [hval] at hok hkp
                dsimp only at hok hkp
                by_cases htk : ((k != TtsModelKind.kPocket) &&
                    (((ttsLookups env).tokensFile == "") ||
                      !env.fsExists (ttsLookups env).tokensFile)) = true
                · rw [if_pos htk] at hok; simp at hok
                · rw [if_neg htk] at hkp
                  have hkp2 : k ≠ TtsModelKind.kPocket := hkp
                  have hbne : (k != TtsModelKind.kPocket) = true :=
                    bne_iff_ne.mpr hkp2
                  have hmiss : (((ttsLookups env).tokensFile == "") ||
                      !env.fsExists (ttsLookups env).tokensFile) = false := by
                    cases hc : (((ttsLookups env).tokensFile == "") ||
                        !env.fsExists (ttsLookups env).tokensFile) with
                    | false => rfl
                    | true => exact absurd (by rw [hbne, hc]; rfl) htk
                  have h1 := Bool.or_eq_false_iff.mp hmiss
                  refine ⟨⟨?_, ?_⟩, ?_⟩
                  · intro he
                    rw [he] at h1
                    exact absurd h1.1 (by decide)
                  · have h2 := h1.2
                    cases hfe : env.fsExists (ttsLookups env).tokensFile with
                    | true => rfl
                    | false => rw [hfe] at h2; exact absurd h2 (by decide)
                  · exact ttsValidate_none_dataDir (ttsFlags env) env.modelDir k
                      hval (ttsSelect_ne_unknown hsel) hkp2
      · unfold detectTtsModel at hok
        rw [if_neg hne, if_pos hdir] at hok
        simp at hok
  · intro k hsel hkp hfiles hdd hne hdir
    rw [detectTtsModel_eq env modelType hne hdir, hsel]
    dsimp only
    rw [ttsValidate_espeak (ttsFlags env) env.modelDir k
      (ttsSelect_ne_unknown hsel) hkp hfiles hdd]
    exact ⟨rfl, rfl⟩
  · intro k hsel hkp hfiles hdd hmiss hne hdir
    rw [detectTtsModel_eq env modelType hne hdir, hsel]
    dsimp only
    rw [ttsValidate_none (ttsFlags env) env.modelDir k
      (ttsSelect_ne_unknown hsel) hfiles hdd]
    dsimp only
    rw [if_pos (by rw [bne_iff_ne.mpr hkp, hmiss]; rfl)]
    exact ⟨rfl, rfl⟩

/-- Witness for C6, part two: a VITS-shaped directory with tokens.txt
but no espeak-ng-data directory fails with the espeak error. -/
theorem C6_tts_tokens_and_espeak_required_witness :
    (detectTtsModel
      { modelDir := "/t",
        files := [⟨"/t/model.onnx", "model.onnx", 10⟩,
                  ⟨"/t/tokens.txt", "tokens.txt", 7⟩],
        fsExists := fun s => s == "/t" || s == "/t/tokens.txt",
        isDir := fun s => s == "/t",
        dataDirPath := "" } "auto").ok = false ∧
    (detectTtsModel
      { modelDir := "/t",
        files := [⟨"/t/model.onnx", "model.onnx", 10⟩,
                  ⟨"/t/tokens.txt", "tokens.txt", 7⟩],
        fsExists := fun s => s == "/t" || s == "/t/tokens.txt",
        isDir := fun s => s == "/t",
        dataDirPath := "" } "auto").error
      = "TTS: espeak-ng-data not found in " ++ "/t"
        ++ ". Copy espeak-ng-data into the model directory." :=
  (C6_tts_tokens_and_espeak_required _ "auto").2.1 TtsModelKind.kVits
    (by rfl) (by decide) (by decide) (by decide) (by decide) (by decide)

/-- C8: TtsWrapper::saveToWavFile writes a 44-byte RIFF/WAVE/fmt/data
header with format tag 1 (PCM), 1 channel, the given sampleRate, byte
rate sampleRate*2, block align 2, and 16 bits per sample, followed by
each input float sample clamped to [-1.0, 1.0] and scaled by 32767 to a
little-endian 16-bit integer; and it returns false exactly when samples
is empty, sampleRate <= 0, or the output file cannot be opened
(`hlen` excludes sample counts overflowing the int32 data-size cast). -/
theorem C8_saveToWavFile_format_and_failure (samples : List ℚ) (sampleRate : Int)
    (canOpen : Bool) :
    ((saveToWavFile samples sampleRate canOpen = none) ↔
      (samples = [] ∨ sampleRate ≤ 0 ∨ canOpen = false)) ∧
    (samples ≠ [] → 0 < sampleRate → canOpen = true →
      samples.length < 2147483648 →
      saveToWavFile samples sampleRate canOpen
        = some (wavHeaderSpec samples.length sampleRate ++
            samples.flatMap (fun s => le16 (quantizeSample s))) ∧
      (wavHeaderSpec samples.length sampleRate).length = 44 ∧
      ∀ s ∈ samples, -32767 ≤ quantizeSample s ∧ quantizeSample s ≤ 32767) := by
  constructor
  · by_cases h1 : samples = []
    · simp [saveToWavFile, h1]
    · have h1e : samples.isEmpty = false := by
        simpa [List.isEmpty_iff] using h1
      by_cases h2 : sampleRate ≤ 0
      · simp [saveToWavFile, h1e, h2]
      · cases h3 : canOpen with
        | true => simp [saveToWavFile, h1e, h2, h3, h1]
        | false => simp [saveToWavFile, h1e, h2, h3]
  · intro hne hrate hopen hlen
    have h1e : samples.isEmpty = false := by
      simpa [List.isEmpty_iff] using hne
    refine ⟨?_, ?_, fun s _ => quantizeSample_bounds s⟩
    · unfold saveToWavFile
      rw [if_neg (by rw [h1e]; exact Bool.false_ne_true),
        if_neg (not_le.mpr hrate),
        if_neg (by rw [hopen]; decide)]
      have hwrap : wrap32 (Int.ofNat samples.length) = Int.ofNat samples.length := by
        unfold wrap32
        have h0 : (0 : Int) ≤ Int.ofNat samples.length := Int.ofNat_nonneg _
        have hlt : Int.ofNat samples.length < 2147483648 := Int.ofNat_lt.mpr hlen
        omega
      have hds : (wrap32 (Int.ofNat samples.length) * 16).tdiv 8
          = 2 * Int.ofNat samples.length := by
        rw [hwrap]
        rw [show Int.ofNat samples.length * 16
            = (2 * Int.ofNat samples.length) * 8 from by ring]
        exact Int.mul_tdiv_cancel _ (by norm_num)
      have hbr : (sampleRate * 1 * 16).tdiv 8 = sampleRate * 2 := by
        rw [show sampleRate * 1 * 16 = (sampleRate * 2) * 8 from by ring]
        exact Int.mul_tdiv_cancel _ (by norm_num)
      dsimp only
      rw [hds, hbr]
      unfold wavHeaderSpec
      rw [show ((1 : Int) * 16).tdiv 8 = 2 from by decide]
      try simp only [List.append_assoc]
    · rfl

/-- C2: during ExtractTarBz2, for every archive entry whose canonical
resolution does not begin with the canonical target-directory prefix,
the whole extraction returns false with the error
"Blocked path traversal: <entry path>", regardless of how many valid
entries preceded it; and (unconditionally) every entry written has a
canonical resolution under the canonical target prefix, so no entry is
written outside the destination directory. -/
theorem C2_path_traversal_blocked (cfg : ExtCfg) (pre : List EntryM)
    (bad : EntryM) (rest : List EntryM) (finalHeaderStatus : AStatus)
    (hc : cfg.cancelFrom = none)
    (hpre : ∀ e ∈ pre, validEntry cfg e)
    (hbad : strIsPrefix cfg.canonicalTarget bad.canonicalResolution = false) :
    ((extractLoop cfg (pre ++ bad :: rest) finalHeaderStatus).success = false ∧
     (extractLoop cfg (pre ++ bad :: rest) finalHeaderStatus).error
       = some ("Blocked path traversal: " ++ bad.path)) ∧
    (∀ (entries : List EntryM) (fhs : AStatus),
      ∀ pc ∈ (extractLoop cfg entries fhs).st.written,
        strIsPrefix cfg.canonicalTarget pc.2 = true) := by
  constructor
  · obtain ⟨st1, h1⟩ := extractEntries_ok cfg hc pre extInit hpre
    have hrun : extractEntries cfg (pre ++ bad :: rest) extInit
        = Except.error (failRes ("Blocked path traversal: " ++ bad.path)
            (bumpPoll (bumpHeaderRead st1))) := by
      rw [extractEntries_append, h1]
      dsimp only
      have lhs : extractEntries cfg (bad :: rest) st1
          = (match extractEntry cfg bad st1 with
             | Except.error r => Except.error r
             | Except.ok st2 => extractEntries cfg rest st2) := rfl
      rw [lhs, extractEntry_blocked cfg hc bad st1 hbad]
    unfold extractLoop
    rw [hrun]
    exact ⟨rfl, rfl⟩
  · intro entries fhs
    have hsafe := extractEntries_written_safe cfg entries extInit
      (by intro pc hpc; exact absurd hpc (List.not_mem_nil pc))
    unfold extractLoop
    cases h : extractEntries cfg entries extInit with
    | error r =>
        rw [h] at hsafe
        exact hsafe
    | ok st =>
        rw [h] at hsafe
        intro pc hpc
        have hw : (finalProgress cfg (bumpHeaderRead st)).written = st.written := by
          rw [finalProgress_written]
          rfl
        have hpc2 : pc ∈ (finalProgress cfg (bumpHeaderRead st)).written := hpc
        rw [hw] at hpc2
        exact hsafe pc hpc2

/-- Witness for C2: one traversal entry "../../etc/passwd" resolving to
/etc/passwd outside the destination /dst aborts the extraction. -/
theorem C2_path_traversal_blocked_witness :
    (extractLoop ⟨"/dst", "/dst/", none, false, 0, false⟩
        ([] ++ (⟨"../../etc/passwd", "/etc/passwd", true, [], AStatus.eof⟩ : EntryM)
          :: []) AStatus.eof).success = false ∧
    (extractLoop ⟨"/dst", "/dst/", none, false, 0, false⟩
        ([] ++ (⟨"../../etc/passwd", "/etc/passwd", true, [], AStatus.eof⟩ : EntryM)
          :: []) AStatus.eof).error
      = some ("Blocked path traversal: " ++ "../../etc/passwd") :=
  (C2_path_traversal_blocked ⟨"/dst", "/dst/", none, false, 0, false⟩ []
      ⟨"../../etc/passwd", "/etc/passwd", true, [], AStatus.eof⟩ [] AStatus.eof
      rfl (by intro e he; exact absurd he (List.not_mem_nil e)) (by decide)).1

/-- C10: when the entry-iteration loop of ExtractTarBz2 terminates
because archive_read_next_header returns any status other than
ARCHIVE_OK — including a fatal error rather than normal end-of-archive
— the function still returns true, writes the digest if requested, and
emits the final 100% progress call when the total size is known: the
final header-read status is never examined, so a corrupted archive
tail is reported as a successful extraction. -/
theorem C10_corrupt_tail_reported_success (cfg : ExtCfg) (entries : List EntryM)
    (finalHeaderStatus : AStatus) (st : ExtSt)
    (hdone : extractEntries cfg entries extInit = Except.ok st) :
    (extractLoop cfg entries finalHeaderStatus).success = true ∧
    (extractLoop cfg entries finalHeaderStatus).error = none ∧
    (extractLoop cfg entries finalHeaderStatus).shaWritten = cfg.wantSha ∧
    (cfg.hasProgress = true → cfg.totalBytes > 0 →
      (extractLoop cfg entries finalHeaderStatus).st.progressCalls.getLast?
        = some (cfg.totalBytes, cfg.totalBytes, 100)) ∧
    (∀ s2 : AStatus,
      extractLoop cfg entries finalHeaderStatus = extractLoop cfg entries s2) := by
  unfold extractLoop
  rw [hdone]
  refine ⟨rfl, rfl, rfl, ?_, fun s2 => rfl⟩
  intro hp ht
  show (finalProgress cfg (bumpHeaderRead st)).progressCalls.getLast? = _
  unfold finalProgress
  rw [if_pos hp, if_pos ht]
  exact List.getLast?_concat _

/-- Witness for C10: one valid entry, a fatal final header status, and
a requested digest still yield success, a digest, and 100% progress. -/
theorem C10_corrupt_tail_reported_success_witness :
    (extractLoop ⟨"/dst", "/dst/", none, true, 100, true⟩
        [⟨"f.txt", "/dst/f.txt", true, [⟨10, 50, true⟩], AStatus.eof⟩]
        AStatus.fatal).success = true ∧
    (extractLoop ⟨"/dst", "/dst/", none, true, 100, true⟩
        [⟨"f.txt", "/dst/f.txt", true, [⟨10, 50, true⟩], AStatus.eof⟩]
        AStatus.fatal).shaWritten = true ∧
    (extractLoop ⟨"/dst", "/dst/", none, true, 100, true⟩
        [⟨"f.txt", "/dst/f.txt", true, [⟨10, 50, true⟩], AStatus.eof⟩]
        AStatus.fatal).st.progressCalls.getLast? = some (100, 100, 100) := by
  have h := C10_corrupt_tail_reported_success
    ⟨"/dst", "/dst/", none, true, 100, true⟩
    [⟨"f.txt", "/dst/f.txt", true, [⟨10, 50, true⟩], AStatus.eof⟩]
    AStatus.fatal
    ⟨2, 1, 2, [("/dst/f.txt", "/dst/f.txt")], 1, 10, 50, 0, [(50, 100, 50)]⟩
    rfl
  exact ⟨h.1, h.2.2.1, h.2.2.2.1 rfl (by decide)⟩

/-- Witness for C8 at one positive half-amplitude sample at 16 kHz. -/
theorem C8_saveToWavFile_format_and_failure_witness :
    saveToWavFile [(1 : ℚ)/2] 16000 true
      = some (wavHeaderSpec (List.length [(1 : ℚ)/2]) 16000 ++
          [(1 : ℚ)/2].flatMap (fun s => le16 (quantizeSample s))) ∧
    (wavHeaderSpec (List.length [(1 : ℚ)/2]) 16000).length = 44 ∧
    ∀ s ∈ [(1 : ℚ)/2], -32767 ≤ quantizeSample s ∧ quantizeSample s ≤ 32767 :=
  (C8_saveToWavFile_format_and_failure [(1 : ℚ)/2] 16000 true).2
    (by decide) (by decide) rfl (by decide)

/-- A concrete extraction configuration (target directory /dst, no
cancellation, no progress callback) used to exercise the cancellation
model at concrete inputs. -/
def cfgW : ExtCfg :=
  { targetPath := "/dst", canonicalTarget := "/dst/", cancelFrom := none,
    hasProgress := false, totalBytes := 0, wantSha := false }

/-- A concrete one-entry, one-data-block archive used with `cfgW`. -/
def entsW : List EntryM :=
  [{ path := "a.txt", canonicalResolution := "/dst/a.txt", headerWriteOk := true,
     blocks := [{ size := 3, compressedSoFar := 3, writeOk := true }],
     dataEndStatus := AStatus.eof }]

/-- C7 counterexample: the claim says the cancellation flag is polled
before each entry header read and before each data block read, but
ExtractTarBz2 polls it only immediately after each such read (the
header read of line 201 precedes the poll of line 202, and the
data-block read of line 281 precedes the poll of line 282). With the
flag already set before extraction starts, so that every poll from
index 0 on observes it, the run still performs one entry header read
before the first poll aborts it, whereas a poll preceding each header
read would have aborted with zero header reads. -/
theorem C7_counterexample :
    (extractLoop { cfgW with cancelFrom := some 0 } entsW AStatus.eof).error
        = some "Extraction cancelled" ∧
    (extractLoop { cfgW with cancelFrom := some 0 } entsW AStatus.eof).st.headerReads = 1 ∧
    (extractLoop { cfgW with cancelFrom := some 0 } entsW AStatus.eof).st.polls = 1 := by
  decide

/-- C7 (amended): in ExtractTarBz2 the cancellation flag is polled once
immediately after each entry header read and once immediately after
each data block read, before the entry or block is processed. On a run
with the flag never set that returns success, the poll count therefore
equals the data-block-read count, and the poll count plus one (for the
final header read that terminated the loop, which is followed by no
poll) equals the header-read count plus the count of data blocks
written. Once a poll observes the flag — for any poll index i that the
uncancelled run reaches — the run returns success = false with error
"Extraction cancelled" after exactly i + 1 polls, processing no
further entries or data blocks, and the files it has written up to
that point form a prefix of the uncancelled run's written files: the
partial extraction is left in place, with no rollback. -/
theorem C7_amended_cancellation (cfg : ExtCfg) (entries : List EntryM)
    (fhs : AStatus) (hc : cfg.cancelFrom = none) :
    ((extractLoop cfg entries fhs).success = true →
      (extractLoop cfg entries fhs).st.polls
          = (extractLoop cfg entries fhs).st.blockReads
        ∧ (extractLoop cfg entries fhs).st.polls + 1
          = (extractLoop cfg entries fhs).st.headerReads
            + (extractLoop cfg entries fhs).st.blocksWritten) ∧
    (∀ i, i < (extractLoop cfg entries fhs).st.polls →
      (extractLoop { cfg with cancelFrom := some i } entries fhs).success = false
      ∧ (extractLoop { cfg with cancelFrom := some i } entries fhs).error
          = some "Extraction cancelled"
      ∧ (extractLoop { cfg with cancelFrom := some i } entries fhs).st.polls = i + 1
      ∧ (∃ t, (extractLoop cfg entries fhs).st.written
          = (extractLoop { cfg with cancelFrom := some i } entries fhs).st.written ++ t)) := by
  constructor
  · intro hs
    cases hrun : extractEntries cfg entries extInit with
    | error r =>
        rw [extractLoop_error_eq cfg entries fhs r hrun] at hs
        rw [extractEntries_error_flags cfg entries extInit r hrun] at hs
        exact Bool.noConfusion hs
    | ok st =>
        rw [extractLoop_ok_eq cfg entries fhs st hrun]
        obtain ⟨i1, i2⟩ := extractEntries_inv cfg entries extInit st hrun rfl rfl
        have f1 : (finalProgress cfg (bumpHeaderRead st)).polls = st.polls :=
          (finalProgress_counts cfg _).1
        have f2 : (finalProgress cfg (bumpHeaderRead st)).headerReads = st.headerReads + 1 :=
          (finalProgress_counts cfg _).2.1
        have f3 : (finalProgress cfg (bumpHeaderRead st)).blockReads = st.blockReads :=
          (finalProgress_counts cfg _).2.2.1
        have f4 : (finalProgress cfg (bumpHeaderRead st)).blocksWritten = st.blocksWritten :=
          (finalProgress_counts cfg _).2.2.2
        show (finalProgress cfg (bumpHeaderRead st)).polls
              = (finalProgress cfg (bumpHeaderRead st)).blockReads
            ∧ (finalProgress cfg (bumpHeaderRead st)).polls + 1
              = (finalProgress cfg (bumpHeaderRead st)).headerReads
                + (finalProgress cfg (bumpHeaderRead st)).blocksWritten
        rw [f1, f2, f3, f4]
        omega
  · intro i hi
    rw [extractLoop_polls cfg entries fhs] at hi
    rcases extractEntries_cancel_cmp cfg hc i entries extInit (Nat.zero_le i) with
      ⟨heq, hle⟩ | ⟨st1, hch, hp1, ⟨t, hw⟩, hlt1⟩
    · omega
    · refine ⟨?_, ?_, ?_, ?_⟩
      · rw [extractLoop_error_eq _ entries fhs _ hch]
        rfl
      · rw [extractLoop_error_eq _ entries fhs _ hch]
        rfl
      · rw [extractLoop_error_eq _ entries fhs _ hch]
        exact hp1
      · refine ⟨t, ?_⟩
        rw [extractLoop_written cfg entries fhs, hw,
          extractLoop_error_eq _ entries fhs _ hch]
        rfl

/-- Witness for C7 on a one-entry, one-block run under /dst: the
uncancelled run polls twice, and cancelling from poll index 0 aborts
with "Extraction cancelled" after exactly one poll, having written a
prefix of the uncancelled run's files. -/
theorem C7_amended_cancellation_witness :
    (0 < (extractLoop cfgW entsW AStatus.fatal).st.polls) ∧
    ((extractLoop { cfgW with cancelFrom := some 0 } entsW AStatus.fatal).success = false
      ∧ (extractLoop { cfgW with cancelFrom := some 0 } entsW AStatus.fatal).error
          = some "Extraction cancelled"
      ∧ (extractLoop { cfgW with cancelFrom := some 0 } entsW AStatus.fatal).st.polls = 0 + 1
      ∧ (∃ t, (extractLoop cfgW entsW AStatus.fatal).st.written
          = (extractLoop { cfgW with cancelFrom := some 0 } entsW AStatus.fatal).st.written
            ++ t)) :=
  ⟨by decide, (C7_amended_cancellation cfgW entsW AStatus.fatal rfl).2 0 (by decide)⟩
